import Mathlib

/-!
# MirrorLink link layer (MirrorLink.cpp)

A shallow embedding of the MirrorLink driver: the 32-bit command word, the
outbound command buffer of the remote build (`MIRRORLINK_OSREMOTE`), the
command execution of the station build, and the mode switch `MirrorLinkState`
of both builds.

Conventions of the embedding.

* `uint8_t`, `uint16_t`, `uint32_t` values are natural numbers; a reduction
  modulo `2 ^ w` is written wherever the C expression can leave the width.
* `time_t` values are integers; the additions `now + MIRRORLINK_RXTX_MAX_TIME`
  are taken without wrap-around.
* The global `MirrorLink` (and, on the station, `mirrorlinkProg`) is an explicit
  record passed through every function.
* Calls into the radio driver, the program store, the clock and the controller
  are appended, in program order, to the field `log` of the record. Values the
  outside world hands back (clock readings, radio status codes, the received
  octets, `pd.nprograms`) are read from an `Env` record.
* Every outgoing call is taken to return to the driver; this includes
  `os.reboot_dev`.
* `Serial` diagnostics, the antenna switch (`enableRX`, `enableTX`), `delay` and
  the radio bring-up of `MirrorLinkInit` do not touch the modelled state and
  are not recorded. The one diagnostic kept is the report that the station's
  response differs from the command sent (`Call.mismatch`).
* The interrupt routine `setFlag` runs between calls of the driver functions,
  never inside one.
-/

namespace MirrorLink

/-- Build-time constants the driver takes from `MirrorLink.h`, `defines.h` and
`program.h`. Their values are not fixed here: every definition below takes
them as a parameter. -/
structure Config where
  MIRRORLINK_BUFFERLENGTH : Nat
  MIRRORLINK_RXTX_MAX_TIME : Int
  MIRRORLINK_RXTX_DEAD_TIME : Int
  ML_RECEIVING : Nat
  ML_TRANSMITTING : Nat
  ML_TESTSTATION : Nat
  ML_PROGRAMADDDEL : Nat
  ML_PROGRAMMAINSETUP : Nat
  ML_PROGRAMDAYS : Nat
  ML_PROGRAMSTARTTIME : Nat
  ML_PROGRAMDURATION : Nat
  ML_TIMESYNC : Nat
  ML_TIMEZONESYNC : Nat
  ML_CURRENTREQUEST : Nat
  ML_EMERGENCYSHUTDOWN : Nat
  ML_STATIONREBOOT : Nat
  ML_SYNCERROR : Nat
  MAX_NUM_STARTTIMES : Nat
  MAX_NUM_STATIONS : Nat
deriving DecidableEq, Repr

/-- The case labels of the two `switch` statements over the opcode, in source
order. C++ rejects a `switch` with two equal labels, so in every build that
compiles they are pairwise different. -/
def Config.caseLabels (cfg : Config) : List Nat :=
  [cfg.ML_TESTSTATION, cfg.ML_PROGRAMADDDEL, cfg.ML_PROGRAMMAINSETUP, cfg.ML_PROGRAMDAYS,
   cfg.ML_PROGRAMSTARTTIME, cfg.ML_PROGRAMDURATION, cfg.ML_TIMESYNC, cfg.ML_TIMEZONESYNC,
   cfg.ML_CURRENTREQUEST, cfg.ML_EMERGENCYSHUTDOWN, cfg.ML_STATIONREBOOT]

/-- RadioLib status code for success. -/
def ERR_NONE : Int := 0

/-- The station's staging program `mirrorlinkProg` (`ProgramStruct` of
`program.h`): the bit fields, the two day octets, the start times (`int16_t`)
and the per-station durations (`uint16_t`). `name` holds the text written by
`sprintf_P(name, "%d", pid)`. -/
structure ProgramStruct where
  enabled : Nat
  use_weather : Nat
  oddeven : Nat
  type : Nat
  starttime_type : Nat
  dummy1 : Nat
  days : List Nat
  starttimes : List Int
  durations : List Nat
  name : String
deriving DecidableEq, Repr

/-- Calls that leave the driver, in the order they are made. -/
inductive Call where
  | startTransmit (b0 b1 b2 b3 : Nat)
  | startReceive
  | readData
  | delete_program_data (pid : Int)
  | change_program_data (pid : Int) (numprograms : Nat) (prog : ProgramStruct)
  | schedule_test_station (sid : Nat) (duration : Nat)
  | setTime (t : Nat)
  | RTC_set (t : Nat)
  | iopts_timezone (v : Nat)
  | iopts_use_ntp (v : Nat)
  | iopts_save
  | reboot_dev
  | mismatch
deriving DecidableEq, Repr

/-- What the outside world returns during one call of a driver function.
`now k` is the value of the `(k+1)`-th call of `os.now_tz()` made during that
call; `writeRegister`, `startTransmit`, `startReceive`, `readData` are the
status codes the radio returns; `byte0 .. byte3` are the octets `lora.readData`
leaves in `byteArr`; `nprograms` is `pd.nprograms`. -/
structure Env where
  now : Nat → Int
  writeRegister : Int
  startTransmit : Int
  startReceive : Int
  readData : Int
  byte0 : Nat
  byte1 : Nat
  byte2 : Nat
  byte3 : Nat
  nprograms : Nat

/-- The word `(((uint32_t)(0x1F & (uint16_t)cmd) << 27) | payload)` of
`MirrorLinkBuffCmd`, for a `uint8_t` command and a `uint32_t` payload. -/
def cmdWord (cmd payload : Nat) : Nat :=
  ((0x1F &&& (cmd % 256)) <<< 27) ||| (payload % 2 ^ 32)

/-- The four octets `MirrorLinkTransmit` puts in `byteArr` for a word. -/
def txBytes (w : Nat) : Call :=
  Call.startTransmit (0xFF &&& (w >>> 24)) (0xFF &&& (w >>> 16)) (0xFF &&& (w >>> 8)) (0xFF &&& w)

/-- The word `MirrorLinkReceiveStatus` assembles from the four octets of
`byteArr`. -/
def rxWord (b0 b1 b2 b3 : Nat) : Nat :=
  (((b0 % 256) <<< 24) ||| ((b1 % 256) <<< 16) ||| ((b2 % 256) <<< 8) ||| (b3 % 256))

/-- The word `MirrorLinkReceiveStatus` assembles from the octets the outside
world delivers. -/
def Env.received (env : Env) : Nat :=
  rxWord env.byte0 env.byte1 env.byte2 env.byte3

/-- Reading `buffer[i]` for a C `int` index; an index outside the array reads
no word. -/
def bufRead (buffer : List Nat) (i : Int) : Option Nat :=
  if 0 ≤ i then buffer[i.toNat]? else none

/-- Writing `buffer[i] = v` for a C `int` index; an index outside the array
leaves the array as it is. -/
def bufWrite (buffer : List Nat) (i : Int) (v : Nat) : List Nat :=
  if 0 ≤ i then buffer.set i.toNat v else buffer

/-! ## Remote build (`MIRRORLINK_OSREMOTE` defined) -/

namespace Remote

/-- States of the driver, remote build. -/
inductive MirrorlinkModes where
  | MIRRORLINK_INIT
  | MIRRORLINK_ASSOCIATE
  | MIRRORLINK_BUFFERING
  | MIRRORLINK_SEND
  | MIRRORLINK_RECEIVE
deriving DecidableEq, Repr

/-- The global `MirrorLink` of the remote build, with the fields of the status
bit field laid out flat, and the log of outgoing calls. -/
structure MIRRORLINK where
  timer : Int
  module_state : Int
  mirrorlinkState : MirrorlinkModes
  receivedFlag : Bool
  transmittedFlag : Bool
  enableInterrupt : Bool
  associated : Bool
  flagRxTx : Nat
  rebootRequest : Bool
  bufferedCommands : Nat
  buffer : List Nat
  response : Nat
  log : List Call
deriving DecidableEq, Repr

/-- The interrupt routine `setFlag`. -/
def setFlag (cfg : Config) (s : MIRRORLINK) : MIRRORLINK :=
  if !s.enableInterrupt then s
  else if s.flagRxTx = cfg.ML_RECEIVING then { s with receivedFlag := true }
  else { s with transmittedFlag := true }

/-- The commands `MirrorLinkBuffCmd` has a `case` for. -/
def isBuffCmd (cfg : Config) (cmd : Nat) : Bool :=
  cfg.caseLabels.contains cmd

/-- The expression `MirrorLink.buffer[(MirrorLink.bufferedCommands - 1)]`. -/
def topWord (s : MIRRORLINK) : Option Nat :=
  bufRead s.buffer ((s.bufferedCommands : Int) - 1)

/-- Function `MirrorLinkBuffCmd(uint8_t cmd, uint32_t payload)`. -/
def MirrorLinkBuffCmd (cfg : Config) (cmd payload : Nat) (s : MIRRORLINK) : MIRRORLINK :=
  if isBuffCmd cfg (cmd % 256) then
    if s.bufferedCommands < cfg.MIRRORLINK_BUFFERLENGTH then
      let n := (s.bufferedCommands + 1) % 256
      { s with
        bufferedCommands := n
        buffer := bufWrite s.buffer ((n : Int) - 1) (cmdWord cmd payload) }
    else s
  else s

/-- The statement `if (MirrorLink.bufferedCommands > 0) MirrorLink.bufferedCommands--;`
of the receive state. -/
def releaseTop (s : MIRRORLINK) : MIRRORLINK :=
  if s.bufferedCommands > 0 then { s with bufferedCommands := s.bufferedCommands - 1 } else s

/-- Function `MirrorLinkInit`, remote build. The zeroing loop counts with a
`uint8_t` index, so it ends only when `MIRRORLINK_BUFFERLENGTH ≤ 255`; the
result given here is the one it leaves in that case. `module_state` ends as
the status of the last bring-up call, `lora.writeRegister`. -/
def MirrorLinkInit (cfg : Config) (env : Env) (s : MIRRORLINK) : MIRRORLINK :=
  { s with
    module_state := env.writeRegister
    receivedFlag := false
    transmittedFlag := false
    enableInterrupt := true
    mirrorlinkState := MirrorlinkModes.MIRRORLINK_INIT
    flagRxTx := cfg.ML_RECEIVING % 2
    rebootRequest := false
    timer := env.now 0 + cfg.MIRRORLINK_RXTX_MAX_TIME
    bufferedCommands := 0
    buffer := List.replicate cfg.MIRRORLINK_BUFFERLENGTH 0
    associated := true }

/-- Function `MirrorLinkTransmitStatus`. -/
def MirrorLinkTransmitStatus (s : MIRRORLINK) : Bool × MIRRORLINK :=
  if s.transmittedFlag then
    (decide (s.module_state = ERR_NONE),
      { s with transmittedFlag := false, enableInterrupt := true })
  else (false, s)

/-- Function `MirrorLinkTransmit`, remote build. An index outside the buffer
is read as the zero word. -/
def MirrorLinkTransmit (cfg : Config) (env : Env) (s : MIRRORLINK) : MIRRORLINK :=
  { s with
    module_state := env.startTransmit
    flagRxTx := cfg.ML_TRANSMITTING % 2
    log := s.log ++ [txBytes ((topWord s).getD 0)] }

/-- Function `MirrorLinkReceiveStatus`, remote build. -/
def MirrorLinkReceiveStatus (env : Env) (s : MIRRORLINK) : Bool × MIRRORLINK :=
  if s.receivedFlag then
    let s1 := { s with
      receivedFlag := false
      module_state := env.readData
      log := s.log ++ [Call.readData] }
    let s2 := if env.readData = ERR_NONE then
      { s1 with response := rxWord env.byte0 env.byte1 env.byte2 env.byte3 } else s1
    (decide (env.readData = ERR_NONE),
      { s2 with log := s2.log ++ [Call.startReceive], enableInterrupt := true })
  else (false, s)

/-- Function `MirrorLinkReceiveInit`. -/
def MirrorLinkReceiveInit (cfg : Config) (env : Env) (s : MIRRORLINK) : MIRRORLINK :=
  let s1 := { s with module_state := env.startReceive, log := s.log ++ [Call.startReceive] }
  if env.startReceive = ERR_NONE then { s1 with flagRxTx := cfg.ML_RECEIVING % 2 } else s1

/-- Function `MirrorLinkState`, remote build. -/
def MirrorLinkState (cfg : Config) (env : Env) (s : MIRRORLINK) : MIRRORLINK :=
  match s.mirrorlinkState with
  | MirrorlinkModes.MIRRORLINK_INIT =>
    if s.associated then { s with mirrorlinkState := MirrorlinkModes.MIRRORLINK_BUFFERING }
    else { s with mirrorlinkState := MirrorlinkModes.MIRRORLINK_ASSOCIATE }
  | MirrorlinkModes.MIRRORLINK_ASSOCIATE =>
    if s.associated then { s with mirrorlinkState := MirrorlinkModes.MIRRORLINK_BUFFERING }
    else s
  | MirrorlinkModes.MIRRORLINK_BUFFERING =>
    let s1 := { s with timer := env.now 0 }
    if s1.timer = env.now 1 ∧ s1.bufferedCommands > 0 then
      MirrorLinkTransmit cfg env
        { s1 with
          mirrorlinkState := MirrorlinkModes.MIRRORLINK_SEND
          timer := env.now 2 + cfg.MIRRORLINK_RXTX_MAX_TIME }
    else s1
  | MirrorlinkModes.MIRRORLINK_SEND =>
    let r := MirrorLinkTransmitStatus s
    if r.1 then
      MirrorLinkReceiveInit cfg env
        { r.2 with
          timer := env.now 0 + cfg.MIRRORLINK_RXTX_MAX_TIME
          mirrorlinkState := MirrorlinkModes.MIRRORLINK_RECEIVE }
    else if r.2.timer ≤ env.now 0 then
      MirrorLinkReceiveInit cfg env
        { r.2 with
          timer := env.now 1 + cfg.MIRRORLINK_RXTX_MAX_TIME
          mirrorlinkState := MirrorlinkModes.MIRRORLINK_BUFFERING }
    else r.2
  | MirrorlinkModes.MIRRORLINK_RECEIVE =>
    let r := MirrorLinkReceiveStatus env s
    if r.1 then
      let s1 := if r.2.response >>> 27 = cfg.ML_SYNCERROR then
        { r.2 with log := r.2.log ++ [Call.delete_program_data (-1)] } else r.2
      let s2 := if some s1.response ≠ topWord s1 then
        { s1 with log := s1.log ++ [Call.mismatch] } else s1
      let s3 := { releaseTop s2 with
        response := 0
        timer := env.now 0 + cfg.MIRRORLINK_RXTX_MAX_TIME
        mirrorlinkState := MirrorlinkModes.MIRRORLINK_BUFFERING }
      if s3.timer ≤ env.now 1 then
        { releaseTop s3 with
          response := 0
          timer := env.now 2 + cfg.MIRRORLINK_RXTX_MAX_TIME
          mirrorlinkState := MirrorlinkModes.MIRRORLINK_BUFFERING }
      else s3
    else if r.2.timer ≤ env.now 0 then
      { releaseTop r.2 with
        response := 0
        timer := env.now 1 + cfg.MIRRORLINK_RXTX_MAX_TIME
        mirrorlinkState := MirrorlinkModes.MIRRORLINK_BUFFERING }
    else r.2

/-- Function `MirrorLinkWork`, remote build. -/
def MirrorLinkWork (cfg : Config) (env : Env) (s : MIRRORLINK) : MIRRORLINK :=
  match s.mirrorlinkState with
  | MirrorlinkModes.MIRRORLINK_SEND =>
    if s.bufferedCommands > 0 then
      let r := MirrorLinkTransmitStatus s
      if r.1 then MirrorLinkTransmit cfg env r.2 else r.2
    else s
  | _ => s

/-- Function `MirrorLinkMain`: the state change, then the state action; each
call has its own readings of the outside world. -/
def MirrorLinkMain (cfg : Config) (envState envWork : Env) (s : MIRRORLINK) : MIRRORLINK :=
  MirrorLinkWork cfg envWork (MirrorLinkState cfg envState s)

end Remote

/-! ## Station build (`MIRRORLINK_OSREMOTE` not defined) -/

namespace Station

/-- States of the driver, station build. -/
inductive MirrorlinkModes where
  | MIRRORLINK_INIT
  | MIRRORLINK_ASSOCIATE
  | MIRRORLINK_SEND
  | MIRRORLINK_RECEIVE
deriving DecidableEq, Repr

/-- A store `starttimes[index] = value` or `durations[index] = value` whose
index is at or past the end of the array. `MirrorLinkState` makes both stores
without testing the index; such a store changes no entry of the array, and C
does not say what it overwrites (on the target, what lies after the array in
`mirrorlinkProg`). -/
inductive OutsideStore where
  | starttimes (index : Nat) (value : Int)
  | durations (index : Nat) (value : Nat)
deriving DecidableEq, Repr

/-- The global `MirrorLink` of the station build together with the global
`mirrorlinkProg`, the log of outgoing calls, and the stores made so far
outside the arrays of `mirrorlinkProg` (oldest first). While `outside` is
empty the record is the memory of the program; a store in `outside` has
overwritten something the record does not locate. -/
structure MIRRORLINK where
  timer : Int
  module_state : Int
  mirrorlinkState : MirrorlinkModes
  receivedFlag : Bool
  transmittedFlag : Bool
  enableInterrupt : Bool
  associated : Bool
  flagRxTx : Nat
  rebootRequest : Bool
  command : Nat
  mirrorlinkProg : ProgramStruct
  log : List Call
  outside : List OutsideStore
deriving DecidableEq, Repr

/-- The interrupt routine `setFlag`. -/
def setFlag (cfg : Config) (s : MIRRORLINK) : MIRRORLINK :=
  if !s.enableInterrupt then s
  else if s.flagRxTx = cfg.ML_RECEIVING then { s with receivedFlag := true }
  else { s with transmittedFlag := true }

/-- Function `MirrorLinkGetCmd(uint8_t cmd)`. -/
def MirrorLinkGetCmd (cmd : Nat) (s : MIRRORLINK) : Nat :=
  if cmd % 256 = s.command >>> 27 then s.command &&& 0x7FFFFFF else 0

/-- Function `MirrorLinkInit`, station build. The two zeroing loops count with
a `uint8_t` index; the result given is the one they leave when they end.
`module_state` ends as the status of the last bring-up call,
`lora.writeRegister`. -/
def MirrorLinkInit (cfg : Config) (env : Env) (s : MIRRORLINK) : MIRRORLINK :=
  { s with
    module_state := env.writeRegister
    receivedFlag := false
    transmittedFlag := false
    enableInterrupt := true
    mirrorlinkState := MirrorlinkModes.MIRRORLINK_INIT
    flagRxTx := cfg.ML_RECEIVING % 2
    rebootRequest := false
    timer := env.now 0 + cfg.MIRRORLINK_RXTX_MAX_TIME
    mirrorlinkProg :=
      { enabled := 0
        use_weather := 0
        oddeven := 0
        type := 0
        starttime_type := 0
        dummy1 := 0
        days := [0, 0]
        starttimes := List.replicate cfg.MAX_NUM_STARTTIMES 0
        durations := List.replicate cfg.MAX_NUM_STATIONS 0
        name := toString (0 : Nat) }
    associated := true }

/-- Function `MirrorLinkTransmitStatus`. -/
def MirrorLinkTransmitStatus (s : MIRRORLINK) : Bool × MIRRORLINK :=
  if s.transmittedFlag then
    (decide (s.module_state = ERR_NONE),
      { s with transmittedFlag := false, enableInterrupt := true })
  else (false, s)

/-- Function `MirrorLinkTransmit`, station build. -/
def MirrorLinkTransmit (cfg : Config) (env : Env) (s : MIRRORLINK) : MIRRORLINK :=
  { s with
    module_state := env.startTransmit
    command := 0
    flagRxTx := cfg.ML_TRANSMITTING % 2
    log := s.log ++ [txBytes s.command] }

/-- Function `MirrorLinkReceiveStatus`, station build. -/
def MirrorLinkReceiveStatus (env : Env) (s : MIRRORLINK) : Bool × MIRRORLINK :=
  if s.receivedFlag then
    let s1 := { s with
      receivedFlag := false
      module_state := env.readData
      log := s.log ++ [Call.readData] }
    let s2 := if env.readData = ERR_NONE then
      { s1 with command := rxWord env.byte0 env.byte1 env.byte2 env.byte3 } else s1
    (decide (env.readData = ERR_NONE),
      { s2 with log := s2.log ++ [Call.startReceive], enableInterrupt := true })
  else (false, s)

/-- Function `MirrorLinkReceiveInit`. -/
def MirrorLinkReceiveInit (cfg : Config) (env : Env) (s : MIRRORLINK) : MIRRORLINK :=
  let s1 := { s with module_state := env.startReceive, log := s.log ++ [Call.startReceive] }
  if env.startReceive = ERR_NONE then { s1 with flagRxTx := cfg.ML_RECEIVING % 2 } else s1

/-- Conversion of a 16-bit pattern to `int16_t`. -/
def toInt16 (x : Nat) : Int :=
  if x % 65536 < 32768 then ((x % 65536 : Nat) : Int) else ((x % 65536 : Nat) : Int) - 65536

/-- The block `if (MirrorLink.command != 0) { switch (MirrorLink.command >> 27) ... }`
of the receive state of `MirrorLinkState`: execution of the command in the
command register. The `switch` is an `if` chain over its labels in source
order (the labels of a `switch` are pairwise different). `pid` is a value below
128, which the conversion to `int16_t` leaves as it is. The stores
`starttimes[stTimeNum] = ...` and `durations[sid] = ...` are made without a
test of the index, as in the source: with the index inside the array the
entry is set; with the index at or past its end no entry changes
(`List.set`) and the store is added to `outside`. -/
def execCommand (cfg : Config) (env : Env) (s : MIRRORLINK) : MIRRORLINK :=
  if s.command ≠ 0 then
    let op := s.command >>> 27
    if op = cfg.ML_TESTSTATION then
      let payload := MirrorLinkGetCmd cfg.ML_TESTSTATION s
      let sid := 0xFF &&& (payload >>> 1)
      let timer := 0xFFFF &&& (payload >>> 9)
      { s with log := s.log ++ [Call.schedule_test_station sid timer] }
    else if op = cfg.ML_PROGRAMADDDEL then
      let payload := MirrorLinkGetCmd cfg.ML_PROGRAMADDDEL s
      let addProg := (payload >>> 7) &&& 0x1
      let pid := 0x7F &&& payload
      let s1 := { s with mirrorlinkProg := { s.mirrorlinkProg with name := toString pid } }
      if addProg ≠ 0 then
        if pid ≠ env.nprograms then
          { s1 with
            log := s1.log ++ [Call.delete_program_data (-1)]
            command := (cfg.ML_SYNCERROR <<< 27) % 2 ^ 32 }
        else
          { s1 with
            log := s1.log ++ [Call.change_program_data pid env.nprograms s1.mirrorlinkProg] }
      else
        if pid ≥ env.nprograms then
          { s1 with
            log := s1.log ++ [Call.delete_program_data (-1)]
            command := (cfg.ML_SYNCERROR <<< 27) % 2 ^ 32 }
        else
          { s1 with log := s1.log ++ [Call.delete_program_data pid] }
    else if op = cfg.ML_PROGRAMMAINSETUP then
      let payload := MirrorLinkGetCmd cfg.ML_PROGRAMMAINSETUP s
      let pid := 0x7F &&& payload
      let prog := { s.mirrorlinkProg with
        enabled := 0x1 &&& (payload >>> 7)
        use_weather := 0x1 &&& (payload >>> 8)
        oddeven := 0x3 &&& (payload >>> 9)
        name := toString pid }
      { s with
        mirrorlinkProg := prog
        log := s.log ++ [Call.change_program_data pid env.nprograms prog] }
    else if op = cfg.ML_PROGRAMDAYS then
      let payload := MirrorLinkGetCmd cfg.ML_PROGRAMDAYS s
      { s with mirrorlinkProg := { s.mirrorlinkProg with
          days := (s.mirrorlinkProg.days.set 0 (0xFF &&& (payload >>> 15))).set 1
            (0xFF &&& (payload >>> 7)) } }
    else if op = cfg.ML_PROGRAMSTARTTIME then
      let payload := MirrorLinkGetCmd cfg.ML_PROGRAMSTARTTIME s
      let stTimeNum := (payload >>> 7) &&& 0x3
      { s with
        mirrorlinkProg := { s.mirrorlinkProg with
          starttimes := s.mirrorlinkProg.starttimes.set stTimeNum
            (toInt16 ((payload >>> 9) &&& 0xFFFF))
          starttime_type := (payload >>> 25) &&& 0x1 }
        outside :=
          if stTimeNum < s.mirrorlinkProg.starttimes.length then s.outside
          else s.outside ++
            [OutsideStore.starttimes stTimeNum (toInt16 ((payload >>> 9) &&& 0xFFFF))] }
    else if op = cfg.ML_PROGRAMDURATION then
      let payload := MirrorLinkGetCmd cfg.ML_PROGRAMDURATION s
      let sid := (payload >>> 7) &&& 0xFF
      { s with
        mirrorlinkProg := { s.mirrorlinkProg with
          durations := s.mirrorlinkProg.durations.set sid
            ((60 * ((payload >>> 15) &&& 0x7FF)) % 65536) }
        outside :=
          if sid < s.mirrorlinkProg.durations.length then s.outside
          else s.outside ++
            [OutsideStore.durations sid ((60 * ((payload >>> 15) &&& 0x7FF)) % 65536)] }
    else if op = cfg.ML_TIMESYNC then
      let payload := MirrorLinkGetCmd cfg.ML_TIMESYNC s
      let t := (60 * (0x7FFFFFF &&& payload)) % 2 ^ 32
      { s with log := s.log ++ [Call.setTime t, Call.RTC_set t] }
    else if op = cfg.ML_TIMEZONESYNC then
      let payload := MirrorLinkGetCmd cfg.ML_TIMEZONESYNC s
      { s with log := s.log ++
          [Call.iopts_timezone (0xFF &&& payload), Call.iopts_use_ntp 0, Call.iopts_save] }
    else if op = cfg.ML_CURRENTREQUEST then s
    else if op = cfg.ML_EMERGENCYSHUTDOWN then s
    else if op = cfg.ML_STATIONREBOOT then
      { s with rebootRequest := true, log := s.log ++ [Call.reboot_dev] }
    else s
  else s

/-- Function `MirrorLinkState`, station build. -/
def MirrorLinkState (cfg : Config) (env : Env) (s : MIRRORLINK) : MIRRORLINK :=
  match s.mirrorlinkState with
  | MirrorlinkModes.MIRRORLINK_INIT =>
    if s.associated then
      MirrorLinkReceiveInit cfg env { s with mirrorlinkState := MirrorlinkModes.MIRRORLINK_RECEIVE }
    else { s with mirrorlinkState := MirrorlinkModes.MIRRORLINK_ASSOCIATE }
  | MirrorlinkModes.MIRRORLINK_ASSOCIATE =>
    if s.associated then
      MirrorLinkReceiveInit cfg env { s with mirrorlinkState := MirrorlinkModes.MIRRORLINK_RECEIVE }
    else s
  | MirrorlinkModes.MIRRORLINK_SEND =>
    let r := MirrorLinkTransmitStatus s
    if r.1 then
      MirrorLinkReceiveInit cfg env
        { r.2 with
          timer := env.now 0 + cfg.MIRRORLINK_RXTX_MAX_TIME
          mirrorlinkState := MirrorlinkModes.MIRRORLINK_RECEIVE }
    else if r.2.timer ≤ env.now 0 then
      MirrorLinkReceiveInit cfg env
        { r.2 with
          timer := env.now 1 + cfg.MIRRORLINK_RXTX_MAX_TIME
          mirrorlinkState := MirrorlinkModes.MIRRORLINK_RECEIVE }
    else r.2
  | MirrorlinkModes.MIRRORLINK_RECEIVE =>
    let r := MirrorLinkReceiveStatus env s
    if r.1 then
      { execCommand cfg env r.2 with
        timer := env.now 0 + cfg.MIRRORLINK_RXTX_MAX_TIME
        mirrorlinkState := MirrorlinkModes.MIRRORLINK_SEND }
    else r.2

/-- Function `MirrorLinkWork`, station build. -/
def MirrorLinkWork (cfg : Config) (env : Env) (s : MIRRORLINK) : MIRRORLINK :=
  match s.mirrorlinkState with
  | MirrorlinkModes.MIRRORLINK_SEND =>
    if s.timer = env.now 0 + (cfg.MIRRORLINK_RXTX_MAX_TIME - cfg.MIRRORLINK_RXTX_DEAD_TIME)
        ∧ s.flagRxTx = cfg.ML_RECEIVING then
      MirrorLinkTransmit cfg env s
    else s
  | _ => s

/-- Function `MirrorLinkMain`: the state change, then the state action; each
call has its own readings of the outside world. -/
def MirrorLinkMain (cfg : Config) (envState envWork : Env) (s : MIRRORLINK) : MIRRORLINK :=
  MirrorLinkWork cfg envWork (MirrorLinkState cfg envState s)

end Station

/-! ## States the remote can reach, and sample data -/

namespace Remote

/-- States the remote build reaches from `MirrorLinkInit` by pushes
(`MirrorLinkBuffCmd`), state changes (`MirrorLinkState`), state actions
(`MirrorLinkWork`) and radio interrupts (`setFlag`), in any order and with any
values returned by the outside world. `MirrorLinkInit` returns only when its
`uint8_t` loop ends, that is when `MIRRORLINK_BUFFERLENGTH ≤ 255`. -/
inductive Reachable (cfg : Config) : MIRRORLINK → Prop where
  | init (env : Env) (s : MIRRORLINK) :
      cfg.MIRRORLINK_BUFFERLENGTH ≤ 255 → Reachable cfg (MirrorLinkInit cfg env s)
  | push (cmd payload : Nat) (s : MIRRORLINK) :
      Reachable cfg s → Reachable cfg (MirrorLinkBuffCmd cfg cmd payload s)
  | state (env : Env) (s : MIRRORLINK) :
      Reachable cfg s → Reachable cfg (MirrorLinkState cfg env s)
  | work (env : Env) (s : MIRRORLINK) :
      Reachable cfg s → Reachable cfg (MirrorLinkWork cfg env s)
  | interrupt (s : MIRRORLINK) :
      Reachable cfg s → Reachable cfg (setFlag cfg s)

end Remote

/-- A sample assignment of the build-time constants, for evaluating the
definitions on concrete inputs. -/
def sampleConfig : Config :=
  { MIRRORLINK_BUFFERLENGTH := 3
    MIRRORLINK_RXTX_MAX_TIME := 10
    MIRRORLINK_RXTX_DEAD_TIME := 2
    ML_RECEIVING := 0
    ML_TRANSMITTING := 1
    ML_TESTSTATION := 1
    ML_PROGRAMADDDEL := 2
    ML_PROGRAMMAINSETUP := 3
    ML_PROGRAMDAYS := 4
    ML_PROGRAMSTARTTIME := 5
    ML_PROGRAMDURATION := 6
    ML_TIMESYNC := 7
    ML_TIMEZONESYNC := 8
    ML_CURRENTREQUEST := 9
    ML_EMERGENCYSHUTDOWN := 10
    ML_STATIONREBOOT := 11
    ML_SYNCERROR := 12
    MAX_NUM_STARTTIMES := 4
    MAX_NUM_STATIONS := 8 }

/-- A sample outside world: the clock reads `t` at every call, the radio
returns success, the received octets are those of the word `w`, and the store
holds `n` programs. -/
def sampleEnvAt (t : Int) (w n : Nat) : Env :=
  { now := fun _ => t
    writeRegister := 0
    startTransmit := 0
    startReceive := 0
    readData := 0
    byte0 := 0xFF &&& (w >>> 24)
    byte1 := 0xFF &&& (w >>> 16)
    byte2 := 0xFF &&& (w >>> 8)
    byte3 := 0xFF &&& w
    nprograms := n }

/-- The sample outside world with the clock at 100. -/
def sampleEnv (w n : Nat) : Env :=
  sampleEnvAt 100 w n

/-- The remote's record with every field zero, as the global is before
`MirrorLinkInit` runs. -/
def Remote.zero : Remote.MIRRORLINK :=
  { timer := 0
    module_state := 0
    mirrorlinkState := Remote.MirrorlinkModes.MIRRORLINK_INIT
    receivedFlag := false
    transmittedFlag := false
    enableInterrupt := false
    associated := false
    flagRxTx := 0
    rebootRequest := false
    bufferedCommands := 0
    buffer := []
    response := 0
    log := [] }

/-- The remote right after `MirrorLinkInit` under the sample constants. -/
def Remote.sampleInit : Remote.MIRRORLINK :=
  Remote.MirrorLinkInit sampleConfig (sampleEnv 0 0) Remote.zero

/-- The remote after three accepted pushes under the sample constants, which
fill its buffer of three entries. -/
def Remote.sampleFull : Remote.MIRRORLINK :=
  Remote.MirrorLinkBuffCmd sampleConfig 1 5
    (Remote.MirrorLinkBuffCmd sampleConfig 2 6
      (Remote.MirrorLinkBuffCmd sampleConfig 3 7 Remote.sampleInit))

/-- The station's record with every field zero and an empty staging program,
as the globals are before `MirrorLinkInit` runs. -/
def Station.zero : Station.MIRRORLINK :=
  { timer := 0
    module_state := 0
    mirrorlinkState := Station.MirrorlinkModes.MIRRORLINK_INIT
    receivedFlag := false
    transmittedFlag := false
    enableInterrupt := false
    associated := false
    flagRxTx := 0
    rebootRequest := false
    command := 0
    mirrorlinkProg :=
      { enabled := 0
        use_weather := 0
        oddeven := 0
        type := 0
        starttime_type := 0
        dummy1 := 0
        days := [0, 0]
        starttimes := [0, 0, 0, 0]
        durations := [0, 0, 0, 0, 0, 0, 0, 0]
        name := "" }
    log := []
    outside := [] }

/-- The station right after `MirrorLinkInit` under the sample constants. -/
def Station.sampleInit : Station.MIRRORLINK :=
  Station.MirrorLinkInit sampleConfig (sampleEnv 0 0) Station.zero

/-- The sample station after its first state change: it listens
(`MIRRORLINK_RECEIVE`). -/
def Station.sampleListening : Station.MIRRORLINK :=
  Station.MirrorLinkState sampleConfig (sampleEnv 0 0) Station.sampleInit

/-- The listening sample station after the radio interrupt that reports a
received packet. -/
def Station.sampleReceived : Station.MIRRORLINK :=
  Station.setFlag sampleConfig Station.sampleListening

/-- The sample remote after its first state change (`MIRRORLINK_BUFFERING`)
and a push of `ML_PROGRAMADDDEL` with payload 131. -/
def Remote.sampleBuffering : Remote.MIRRORLINK :=
  Remote.MirrorLinkBuffCmd sampleConfig 2 131
    (Remote.MirrorLinkState sampleConfig (sampleEnv 0 0) Remote.sampleInit)

/-- The sample remote after the state change that submits the buffered word
at clock 100 (`MIRRORLINK_SEND`, timer 110). -/
def Remote.sampleSending : Remote.MIRRORLINK :=
  Remote.MirrorLinkState sampleConfig (sampleEnv 0 0) Remote.sampleBuffering

/-- The sending sample remote after the interrupt that reports the end of
the transmission and the state change that follows at clock 100
(`MIRRORLINK_RECEIVE`, timer 110). -/
def Remote.sampleListening : Remote.MIRRORLINK :=
  Remote.MirrorLinkState sampleConfig (sampleEnv 0 0)
    (Remote.setFlag sampleConfig Remote.sampleSending)

/-- The listening sample remote after the interrupt that reports a received
packet. -/
def Remote.sampleReceived : Remote.MIRRORLINK :=
  Remote.setFlag sampleConfig Remote.sampleListening

/-- The octets the receiver reads are those of the frame a transmitter
submitted with the call `frame`. -/
def Env.carries (env : Env) (frame : Call) : Prop :=
  frame = Call.startTransmit env.byte0 env.byte1 env.byte2 env.byte3

instance (env : Env) (frame : Call) : Decidable (env.carries frame) := by
  unfold Env.carries
  exact inferInstance

/-- The remote after the state change that follows the interrupt reporting the
end of its transmission: `MirrorLinkState`, `setFlag`, `MirrorLinkState`. -/
def Remote.afterDone (cfg : Config) (eSend eDone : Env) (r0 : Remote.MIRRORLINK) :
    Remote.MIRRORLINK :=
  Remote.MirrorLinkState cfg eDone (Remote.setFlag cfg (Remote.MirrorLinkState cfg eSend r0))

/-- The remote after the state change that follows the interrupt reporting a
received packet: `afterDone`, `setFlag`, `MirrorLinkState`. -/
def Remote.afterResponse (cfg : Config) (eSend eDone eResp : Env) (r0 : Remote.MIRRORLINK) :
    Remote.MIRRORLINK :=
  Remote.MirrorLinkState cfg eResp (Remote.setFlag cfg (Remote.afterDone cfg eSend eDone r0))

/-- The station after the state change that follows the interrupt reporting a
received packet: `setFlag`, `MirrorLinkState`. -/
def Station.afterCommand (cfg : Config) (eRecv : Env) (st0 : Station.MIRRORLINK) :
    Station.MIRRORLINK :=
  Station.MirrorLinkState cfg eRecv (Station.setFlag cfg st0)

/-- The two tests of the ProgramAddDel case that find the slot id out of step
with the store (`pid != pd.nprograms` on an add, `pid >= pd.nprograms` on a
delete), for a non-zero word `w` with opcode `ML_PROGRAMADDDEL` and a store of
`n` programs. -/
def Station.outOfStep (cfg : Config) (n w : Nat) : Prop :=
  w ≠ 0 ∧ w >>> 27 = cfg.ML_PROGRAMADDDEL ∧
    (if ((w &&& 0x7FFFFFF) >>> 7) &&& 0x1 ≠ 0 then 0x7F &&& (w &&& 0x7FFFFFF) ≠ n
     else 0x7F &&& (w &&& 0x7FFFFFF) ≥ n)

instance (cfg : Config) (n w : Nat) : Decidable (Station.outOfStep cfg n w) := by
  unfold Station.outOfStep
  exact inferInstance

/-- One tick of the station: the radio interrupt when `e.1` is set, then
`MirrorLinkMain` with the outside values `e.2.1` for the state change and
`e.2.2` for the state action. -/
def Station.tick (cfg : Config) (e : Bool × Env × Env) (s : Station.MIRRORLINK) :
    Station.MIRRORLINK :=
  Station.MirrorLinkMain cfg e.2.1 e.2.2 (if e.1 then Station.setFlag cfg s else s)

/-- The records the station holds after each tick of a run of ticks. -/
def Station.ticks (cfg : Config) :
    List (Bool × Env × Env) → Station.MIRRORLINK → List Station.MIRRORLINK
  | [], _ => []
  | e :: es, s => Station.tick cfg e s :: Station.ticks cfg es (Station.tick cfg e s)

/-- The sample station after it has read the add of slot 3 (word
`2 * 2 ^ 27 + 131`) at clock 100 with 3 programs in the store: it is in
`MIRRORLINK_SEND` with timer 110. -/
def Station.sampleAnswering : Station.MIRRORLINK :=
  Station.afterCommand sampleConfig (sampleEnv 268435587 3) Station.sampleListening

/-- The records of one send window of the station that opens at `s`, the
record the state change leaves when it enters `MIRRORLINK_SEND`: the record
after the state action of that same tick (outside values `e0`), then the
records after each later tick of `es`. -/
def Station.window (cfg : Config) (e0 : Env) (es : List (Bool × Env × Env))
    (s : Station.MIRRORLINK) : List Station.MIRRORLINK :=
  Station.MirrorLinkWork cfg e0 s :: Station.ticks cfg es (Station.MirrorLinkWork cfg e0 s)

/-! ## Lemmas on words and on the buffer -/

theorem and_0x1F_of_lt (c : Nat) (hc : c < 32) : 0x1F &&& c = c := by
  rw [Nat.and_comm]
  exact Nat.and_pow_two_sub_one_of_lt_two_pow (n := 5) hc

theorem and_0xFF (x : Nat) : 0xFF &&& x = x % 256 := by
  rw [Nat.and_comm]
  exact Nat.and_pow_two_sub_one_eq_mod x 8

theorem and_0x7FFFFFF (x : Nat) : x &&& 0x7FFFFFF = x % 2 ^ 27 :=
  Nat.and_pow_two_sub_one_eq_mod x 27

theorem cmdWord_eq (c p : Nat) (hc : c < 32) (hp : p < 2 ^ 27) :
    cmdWord c p = 2 ^ 27 * c + p := by
  unfold cmdWord
  rw [Nat.mod_eq_of_lt (show c < 256 by omega), Nat.mod_eq_of_lt (show p < 2 ^ 32 by omega),
    and_0x1F_of_lt c hc, Nat.shiftLeft_eq, Nat.mul_comm, Nat.mul_add_lt_is_or hp]

theorem cmdWord_shiftRight (c p : Nat) (hc : c < 32) (hp : p < 2 ^ 27) :
    cmdWord c p >>> 27 = c := by
  rw [cmdWord_eq c p hc hp, Nat.shiftRight_eq_div_pow]
  omega

theorem cmdWord_payload (c p : Nat) (hc : c < 32) (hp : p < 2 ^ 27) :
    cmdWord c p &&& 0x7FFFFFF = p := by
  rw [and_0x7FFFFFF, cmdWord_eq c p hc hp]
  omega

theorem cast_succ_sub_one (n : Nat) : ((n + 1 : Nat) : Int) - 1 = (n : Int) := by
  push_cast
  omega

theorem bufRead_succ (buffer : List Nat) (n : Nat) :
    bufRead buffer (((n + 1 : Nat) : Int) - 1) = buffer[n]? := by
  rw [cast_succ_sub_one]
  simp [bufRead]

theorem bufWrite_succ (buffer : List Nat) (n v : Nat) :
    bufWrite buffer (((n + 1 : Nat) : Int) - 1) v = buffer.set n v := by
  rw [cast_succ_sub_one]
  simp [bufWrite]

theorem bufWrite_length (buffer : List Nat) (i : Int) (v : Nat) :
    (bufWrite buffer i v).length = buffer.length := by
  unfold bufWrite
  split <;> simp

namespace Remote

/-- An accepted push, written out: the counter goes up by one and the word is
stored at the old counter value. -/
theorem buffCmd_accept (cfg : Config) (c p : Nat) (s : MIRRORLINK)
    (hcmd : isBuffCmd cfg (c % 256) = true)
    (hroom : s.bufferedCommands < cfg.MIRRORLINK_BUFFERLENGTH)
    (hK : cfg.MIRRORLINK_BUFFERLENGTH ≤ 255) :
    MirrorLinkBuffCmd cfg c p s =
      { s with
        bufferedCommands := s.bufferedCommands + 1
        buffer := s.buffer.set s.bufferedCommands (cmdWord c p) } := by
  have hmod : (s.bufferedCommands + 1) % 256 = s.bufferedCommands + 1 :=
    Nat.mod_eq_of_lt (by omega)
  simp only [MirrorLinkBuffCmd, hcmd, hroom, if_true, hmod, bufWrite_succ]

theorem topWord_buffCmd (cfg : Config) (c p : Nat) (s : MIRRORLINK)
    (hcmd : isBuffCmd cfg (c % 256) = true)
    (hroom : s.bufferedCommands < cfg.MIRRORLINK_BUFFERLENGTH)
    (hlen : s.buffer.length = cfg.MIRRORLINK_BUFFERLENGTH)
    (hK : cfg.MIRRORLINK_BUFFERLENGTH ≤ 255) :
    topWord (MirrorLinkBuffCmd cfg c p s) = some (cmdWord c p) := by
  rw [buffCmd_accept cfg c p s hcmd hroom hK]
  simp only [topWord, bufRead_succ]
  exact List.getElem?_set_self (by omega)

end Remote

namespace Remote

theorem transmitStatus_hold (s : MIRRORLINK) :
    (MirrorLinkTransmitStatus s).2.bufferedCommands = s.bufferedCommands ∧
    (MirrorLinkTransmitStatus s).2.buffer = s.buffer := by
  unfold MirrorLinkTransmitStatus
  split <;> simp

theorem receiveStatus_hold (env : Env) (s : MIRRORLINK) :
    (MirrorLinkReceiveStatus env s).2.bufferedCommands = s.bufferedCommands ∧
    (MirrorLinkReceiveStatus env s).2.buffer = s.buffer := by
  unfold MirrorLinkReceiveStatus
  split
  · split <;> simp
  · simp

theorem receiveInit_hold (cfg : Config) (env : Env) (s : MIRRORLINK) :
    (MirrorLinkReceiveInit cfg env s).bufferedCommands = s.bufferedCommands ∧
    (MirrorLinkReceiveInit cfg env s).buffer = s.buffer := by
  unfold MirrorLinkReceiveInit
  split <;> simp

theorem releaseTop_hold (s : MIRRORLINK) :
    (releaseTop s).bufferedCommands = s.bufferedCommands - 1 ∧
    (releaseTop s).buffer = s.buffer := by
  unfold releaseTop
  split
  · simp
  · simp; omega

/-- A state change never touches the buffer entries and never raises the
counter. -/
theorem state_hold (cfg : Config) (env : Env) (s : MIRRORLINK) :
    (MirrorLinkState cfg env s).bufferedCommands ≤ s.bufferedCommands ∧
    (MirrorLinkState cfg env s).buffer = s.buffer := by
  have hT := transmitStatus_hold s
  have hR := receiveStatus_hold env s
  cases hm : s.mirrorlinkState <;> simp only [MirrorLinkState, hm] <;> split_ifs <;>
    simp [MirrorLinkTransmit, receiveInit_hold, releaseTop_hold, hT, hR] <;> omega

theorem work_hold (cfg : Config) (env : Env) (s : MIRRORLINK) :
    (MirrorLinkWork cfg env s).bufferedCommands = s.bufferedCommands ∧
    (MirrorLinkWork cfg env s).buffer = s.buffer := by
  have hT := transmitStatus_hold s
  cases hm : s.mirrorlinkState <;> simp only [MirrorLinkWork, hm] <;> (try split_ifs) <;>
    simp [MirrorLinkTransmit, hT]

theorem setFlag_hold (cfg : Config) (s : MIRRORLINK) :
    (setFlag cfg s).bufferedCommands = s.bufferedCommands ∧
    (setFlag cfg s).buffer = s.buffer := by
  unfold setFlag
  split_ifs <;> simp

theorem buffCmd_hold (cfg : Config) (c p : Nat) (s : MIRRORLINK)
    (hlen : s.buffer.length = cfg.MIRRORLINK_BUFFERLENGTH)
    (hle : s.bufferedCommands ≤ cfg.MIRRORLINK_BUFFERLENGTH) :
    (MirrorLinkBuffCmd cfg c p s).buffer.length = cfg.MIRRORLINK_BUFFERLENGTH ∧
    (MirrorLinkBuffCmd cfg c p s).bufferedCommands ≤ cfg.MIRRORLINK_BUFFERLENGTH := by
  have hmod := Nat.mod_le (s.bufferedCommands + 1) 256
  unfold MirrorLinkBuffCmd
  split_ifs
  · exact ⟨by simp [bufWrite_length, hlen], by simp only; omega⟩
  · exact ⟨hlen, hle⟩
  · exact ⟨hlen, hle⟩

/-- Every reachable state has a buffer of `MIRRORLINK_BUFFERLENGTH` entries, a
counter within it, and a capacity that fits the `uint8_t` counter. -/
theorem reachable_hold (cfg : Config) (s : MIRRORLINK) (h : Reachable cfg s) :
    s.buffer.length = cfg.MIRRORLINK_BUFFERLENGTH ∧
    s.bufferedCommands ≤ cfg.MIRRORLINK_BUFFERLENGTH ∧
    cfg.MIRRORLINK_BUFFERLENGTH ≤ 255 := by
  induction h with
  | init env s hK => simp [MirrorLinkInit, hK]
  | push cmd payload s _ ih =>
    exact ⟨(buffCmd_hold cfg cmd payload s ih.1 ih.2.1).1,
      (buffCmd_hold cfg cmd payload s ih.1 ih.2.1).2, ih.2.2⟩
  | state env s _ ih =>
    have h := state_hold cfg env s
    exact ⟨by rw [h.2]; exact ih.1, le_trans h.1 ih.2.1, ih.2.2⟩
  | work env s _ ih =>
    have h := work_hold cfg env s
    exact ⟨by rw [h.2]; exact ih.1, by rw [h.1]; exact ih.2.1, ih.2.2⟩
  | interrupt s _ ih =>
    have h := setFlag_hold cfg s
    exact ⟨by rw [h.2]; exact ih.1, by rw [h.1]; exact ih.2.1, ih.2.2⟩

end Remote

/-! ## The command word and the outbound buffer -/

theorem cmdWord_spelled (c p : Nat) (hc : c < 256) (hp : p < 2 ^ 32) :
    cmdWord c p = ((c &&& 0x1F) <<< 27) ||| p := by
  unfold cmdWord
  rw [Nat.mod_eq_of_lt hc, Nat.mod_eq_of_lt hp, Nat.and_comm]

/-- C1 (codec round trip). For a command `c` below 32 that `MirrorLinkBuffCmd`
has a case for and a payload `p` below `2 ^ 27`, a push that finds room stores
the word `((c & 0x1F) << 27) | p` on top of the buffer; the top five bits of
that word are `c`, its low 27 bits are `p`, and `MirrorLinkGetCmd(c)` on a
command register holding it returns `p`. -/
theorem C1_codec_round_trip (cfg : Config) (c p : Nat) (s : Remote.MIRRORLINK)
    (st : Station.MIRRORLINK)
    (hcmd : Remote.isBuffCmd cfg c = true) (hc : c < 32) (hp : p < 2 ^ 27)
    (hroom : s.bufferedCommands < cfg.MIRRORLINK_BUFFERLENGTH)
    (hlen : s.buffer.length = cfg.MIRRORLINK_BUFFERLENGTH)
    (hK : cfg.MIRRORLINK_BUFFERLENGTH ≤ 255) :
    Remote.topWord (Remote.MirrorLinkBuffCmd cfg c p s) = some (((c &&& 0x1F) <<< 27) ||| p) ∧
    (((c &&& 0x1F) <<< 27) ||| p) >>> 27 = c ∧
    (((c &&& 0x1F) <<< 27) ||| p) &&& 0x7FFFFFF = p ∧
    Station.MirrorLinkGetCmd c { st with command := ((c &&& 0x1F) <<< 27) ||| p } = p := by
  have hc256 : c % 256 = c := Nat.mod_eq_of_lt (by omega)
  have hw := cmdWord_spelled c p (by omega) (by omega)
  have hsh := cmdWord_shiftRight c p hc hp
  have hpl := cmdWord_payload c p hc hp
  rw [hw] at hsh hpl
  refine ⟨?_, hsh, hpl, ?_⟩
  · rw [← hw]
    exact Remote.topWord_buffCmd cfg c p s (by rw [hc256]; exact hcmd) hroom hlen hK
  · simp only [Station.MirrorLinkGetCmd, hc256, hsh, if_true]
    exact hpl

/-- C1 at the sample constants: `ML_PROGRAMADDDEL` with payload 131 pushed on
the freshly initialised remote. -/
theorem C1_codec_round_trip_witness :
    Remote.topWord (Remote.MirrorLinkBuffCmd sampleConfig 2 131 Remote.sampleInit)
      = some (((2 &&& 0x1F) <<< 27) ||| 131) ∧
    (((2 &&& 0x1F) <<< 27) ||| 131) >>> 27 = 2 ∧
    (((2 &&& 0x1F) <<< 27) ||| 131) &&& 0x7FFFFFF = 131 ∧
    Station.MirrorLinkGetCmd 2 { Station.zero with command := ((2 &&& 0x1F) <<< 27) ||| 131 }
      = 131 :=
  C1_codec_round_trip sampleConfig 2 131 Remote.sampleInit Station.zero
    (by decide) (by decide) (by decide) (by decide) (by decide) (by decide)

/-- C2 (capacity of the outbound buffer). In every state the remote reaches
from `MirrorLinkInit` by pushes, state changes, state actions and interrupts,
`bufferedCommands` is at most `MIRRORLINK_BUFFERLENGTH`; and when it equals
`MIRRORLINK_BUFFERLENGTH`, a push of any command and payload returns the state
as it was: the counter and every buffer entry are unchanged. -/
theorem C2_hold_capacity (cfg : Config) (s : Remote.MIRRORLINK)
    (h : Remote.Reachable cfg s) :
    s.bufferedCommands ≤ cfg.MIRRORLINK_BUFFERLENGTH ∧
    (s.bufferedCommands = cfg.MIRRORLINK_BUFFERLENGTH →
      ∀ cmd payload : Nat, Remote.MirrorLinkBuffCmd cfg cmd payload s = s) := by
  refine ⟨(Remote.reachable_hold cfg s h).2.1, ?_⟩
  intro hfull cmd payload
  unfold Remote.MirrorLinkBuffCmd
  rw [if_neg (show ¬ s.bufferedCommands < cfg.MIRRORLINK_BUFFERLENGTH by omega)]
  split <;> rfl

/-- C2 at the sample constants: the remote filled by three pushes holds three
words, and a fourth push changes nothing. -/
theorem C2_hold_capacity_witness :
    Remote.sampleFull.bufferedCommands = 3 ∧
    Remote.MirrorLinkBuffCmd sampleConfig 1 9 Remote.sampleFull = Remote.sampleFull :=
  ⟨by decide,
    (C2_hold_capacity sampleConfig Remote.sampleFull
      (Remote.Reachable.push 1 5 _ (Remote.Reachable.push 2 6 _ (Remote.Reachable.push 3 7 _
        (Remote.Reachable.init (sampleEnv 0 0) Remote.zero (by decide)))))).2 (by decide) 1 9⟩

/-- C3 (last in, first out). On a remote whose buffer has
`MIRRORLINK_BUFFERLENGTH ≤ 255` entries: after any accepted push the top entry
`buffer[bufferedCommands - 1]` is the pushed word, and releasing it
(`bufferedCommands--`) brings back the top entry there was before the push.
In particular, from an empty buffer of capacity at least two, after pushing A
and then B the top entry, which is the word `MirrorLinkTransmit` submits, is
B, and after one release it is A. -/
theorem C3_hold_lifo (cfg : Config) (s : Remote.MIRRORLINK) (env : Env)
    (hlen : s.buffer.length = cfg.MIRRORLINK_BUFFERLENGTH)
    (hK : cfg.MIRRORLINK_BUFFERLENGTH ≤ 255) :
    (∀ c p : Nat, Remote.isBuffCmd cfg (c % 256) = true →
      s.bufferedCommands < cfg.MIRRORLINK_BUFFERLENGTH →
      Remote.topWord (Remote.MirrorLinkBuffCmd cfg c p s) = some (cmdWord c p) ∧
      Remote.topWord (Remote.releaseTop (Remote.MirrorLinkBuffCmd cfg c p s))
        = Remote.topWord s) ∧
    (∀ cA pA cB pB : Nat, Remote.isBuffCmd cfg (cA % 256) = true →
      Remote.isBuffCmd cfg (cB % 256) = true →
      s.bufferedCommands = 0 → 2 ≤ cfg.MIRRORLINK_BUFFERLENGTH →
      Remote.topWord
          (Remote.MirrorLinkBuffCmd cfg cB pB (Remote.MirrorLinkBuffCmd cfg cA pA s))
        = some (cmdWord cB pB) ∧
      (Remote.MirrorLinkTransmit cfg env
          (Remote.MirrorLinkBuffCmd cfg cB pB (Remote.MirrorLinkBuffCmd cfg cA pA s))).log
        = s.log ++ [txBytes (cmdWord cB pB)] ∧
      Remote.topWord (Remote.releaseTop
          (Remote.MirrorLinkBuffCmd cfg cB pB (Remote.MirrorLinkBuffCmd cfg cA pA s)))
        = some (cmdWord cA pA)) := by
  have general : ∀ (t : Remote.MIRRORLINK) (c p : Nat),
      t.buffer.length = cfg.MIRRORLINK_BUFFERLENGTH →
      Remote.isBuffCmd cfg (c % 256) = true →
      t.bufferedCommands < cfg.MIRRORLINK_BUFFERLENGTH →
      Remote.topWord (Remote.MirrorLinkBuffCmd cfg c p t) = some (cmdWord c p) ∧
      Remote.topWord (Remote.releaseTop (Remote.MirrorLinkBuffCmd cfg c p t))
        = Remote.topWord t := by
    intro t c p htlen hcmd hroom
    refine ⟨Remote.topWord_buffCmd cfg c p t hcmd hroom htlen hK, ?_⟩
    rw [Remote.buffCmd_accept cfg c p t hcmd hroom hK]
    simp only [Remote.releaseTop, Remote.topWord, gt_iff_lt, Nat.zero_lt_succ, if_true,
      Nat.add_sub_cancel]
    rcases Nat.eq_zero_or_pos t.bufferedCommands with h0 | hpos
    · rw [h0]; simp [bufRead]
    · obtain ⟨k, hk⟩ : ∃ k, t.bufferedCommands = k + 1 := ⟨t.bufferedCommands - 1, by omega⟩
      rw [hk, bufRead_succ, bufRead_succ]
      exact List.getElem?_set_ne (by omega)
  refine ⟨fun c p hcmd hroom => general s c p hlen hcmd hroom, ?_⟩
  intro cA pA cB pB hA hB h0 h2
  have hroomA : s.bufferedCommands < cfg.MIRRORLINK_BUFFERLENGTH := by omega
  have hs1 := Remote.buffCmd_accept cfg cA pA s hA hroomA hK
  have hlen1 : (Remote.MirrorLinkBuffCmd cfg cA pA s).buffer.length
      = cfg.MIRRORLINK_BUFFERLENGTH := by
    rw [hs1]; simp [hlen]
  have hbc1 : (Remote.MirrorLinkBuffCmd cfg cA pA s).bufferedCommands = 1 := by
    rw [hs1]; simp [h0]
  have hlog1 : (Remote.MirrorLinkBuffCmd cfg cA pA s).log = s.log := by
    rw [hs1]
  have hroomB : (Remote.MirrorLinkBuffCmd cfg cA pA s).bufferedCommands
      < cfg.MIRRORLINK_BUFFERLENGTH := by omega
  have hB2 := general (Remote.MirrorLinkBuffCmd cfg cA pA s) cB pB hlen1 hB hroomB
  have hA1 := general s cA pA hlen hA hroomA
  refine ⟨hB2.1, ?_, ?_⟩
  · have hlog2 : (Remote.MirrorLinkBuffCmd cfg cB pB
        (Remote.MirrorLinkBuffCmd cfg cA pA s)).log = s.log := by
      rw [Remote.buffCmd_accept cfg cB pB _ hB hroomB hK]
      exact hlog1
    simp only [Remote.MirrorLinkTransmit, hB2.1, hlog2, Option.getD_some]
  · rw [hB2.2]; exact hA1.1

/-- C3 at the sample constants: pushes of `ML_TESTSTATION` with payload 5 and
then `ML_PROGRAMADDDEL` with payload 6 on the freshly initialised remote. -/
theorem C3_hold_lifo_witness :
    Remote.topWord (Remote.MirrorLinkBuffCmd sampleConfig 2 6
        (Remote.MirrorLinkBuffCmd sampleConfig 1 5 Remote.sampleInit))
      = some (cmdWord 2 6) ∧
    Remote.topWord (Remote.releaseTop (Remote.MirrorLinkBuffCmd sampleConfig 2 6
        (Remote.MirrorLinkBuffCmd sampleConfig 1 5 Remote.sampleInit)))
      = some (cmdWord 1 5) :=
  have h := (C3_hold_lifo sampleConfig Remote.sampleInit (sampleEnv 0 0)
    (by decide) (by decide)).2 1 5 2 6 (by decide) (by decide) (by decide) (by decide)
  ⟨h.1, h.2.2⟩

/-! ## Execution of ProgramAddDel on the station -/

theorem rxWord_eq (b0 b1 b2 b3 : Nat) :
    rxWord b0 b1 b2 b3
      = 2 ^ 24 * (b0 % 256) + (2 ^ 16 * (b1 % 256) + (2 ^ 8 * (b2 % 256) + b3 % 256)) := by
  have h3 := Nat.mod_lt b3 (show 256 > 0 by decide)
  have h2 := Nat.mod_lt b2 (show 256 > 0 by decide)
  have h1 := Nat.mod_lt b1 (show 256 > 0 by decide)
  unfold rxWord
  rw [Nat.or_assoc, Nat.or_assoc, Nat.shiftLeft_eq, Nat.shiftLeft_eq, Nat.shiftLeft_eq,
    Nat.mul_comm _ (2 ^ 8), Nat.mul_comm _ (2 ^ 16), Nat.mul_comm _ (2 ^ 24),
    ← Nat.mul_add_lt_is_or (show b3 % 256 < 2 ^ 8 by omega),
    ← Nat.mul_add_lt_is_or (show 2 ^ 8 * (b2 % 256) + b3 % 256 < 2 ^ 16 by omega),
    ← Nat.mul_add_lt_is_or
      (show 2 ^ 16 * (b1 % 256) + (2 ^ 8 * (b2 % 256) + b3 % 256) < 2 ^ 24 by omega)]

theorem received_lt (env : Env) : env.received < 2 ^ 32 := by
  unfold Env.received
  rw [rxWord_eq]
  omega

theorem rxWord_txBytes (w : Nat) (hw : w < 2 ^ 32) :
    rxWord (0xFF &&& (w >>> 24)) (0xFF &&& (w >>> 16)) (0xFF &&& (w >>> 8)) (0xFF &&& w)
      = w := by
  rw [rxWord_eq]
  simp only [and_0xFF, Nat.shiftRight_eq_div_pow]
  omega

namespace Station

/-- The station's state change in `MIRRORLINK_RECEIVE` when a packet has been
received and read without error: the command is executed on the record that
holds the received word, then the timer is set and the mode is
`MIRRORLINK_SEND`. -/
theorem state_receive_ok (cfg : Config) (env : Env) (s : MIRRORLINK)
    (hmode : s.mirrorlinkState = MirrorlinkModes.MIRRORLINK_RECEIVE)
    (hflag : s.receivedFlag = true) (hok : env.readData = ERR_NONE) :
    MirrorLinkState cfg env s =
      { execCommand cfg env
          { s with
            receivedFlag := false
            module_state := env.readData
            command := env.received
            log := s.log ++ [Call.readData, Call.startReceive]
            enableInterrupt := true } with
        timer := env.now 0 + cfg.MIRRORLINK_RXTX_MAX_TIME
        mirrorlinkState := MirrorlinkModes.MIRRORLINK_SEND } := by
  simp [MirrorLinkState, hmode, MirrorLinkReceiveStatus, hflag, hok, Env.received]

/-- Execution of a ProgramAddDel word, written out. -/
theorem execCommand_addDel (cfg : Config) (env : Env) (t : MIRRORLINK)
    (hne : t.command ≠ 0) (hop : t.command >>> 27 = cfg.ML_PROGRAMADDDEL)
    (hlabel : cfg.ML_TESTSTATION ≠ cfg.ML_PROGRAMADDDEL) (h32 : t.command < 2 ^ 32) :
    execCommand cfg env t =
      if ((t.command &&& 0x7FFFFFF) >>> 7) &&& 0x1 ≠ 0 then
        if 0x7F &&& (t.command &&& 0x7FFFFFF) ≠ env.nprograms then
          { t with
            mirrorlinkProg :=
              { t.mirrorlinkProg with name := toString (0x7F &&& (t.command &&& 0x7FFFFFF)) }
            log := t.log ++ [Call.delete_program_data (-1)]
            command := (cfg.ML_SYNCERROR <<< 27) % 2 ^ 32 }
        else
          { t with
            mirrorlinkProg :=
              { t.mirrorlinkProg with name := toString (0x7F &&& (t.command &&& 0x7FFFFFF)) }
            log := t.log ++ [Call.change_program_data
              ((0x7F &&& (t.command &&& 0x7FFFFFF) : Nat) : Int) env.nprograms
              { t.mirrorlinkProg with name := toString (0x7F &&& (t.command &&& 0x7FFFFFF)) }] }
      else
        if 0x7F &&& (t.command &&& 0x7FFFFFF) ≥ env.nprograms then
          { t with
            mirrorlinkProg :=
              { t.mirrorlinkProg with name := toString (0x7F &&& (t.command &&& 0x7FFFFFF)) }
            log := t.log ++ [Call.delete_program_data (-1)]
            command := (cfg.ML_SYNCERROR <<< 27) % 2 ^ 32 }
        else
          { t with
            mirrorlinkProg :=
              { t.mirrorlinkProg with name := toString (0x7F &&& (t.command &&& 0x7FFFFFF)) }
            log := t.log ++ [Call.delete_program_data
              ((0x7F &&& (t.command &&& 0x7FFFFFF) : Nat) : Int)] } := by
  have hlt : cfg.ML_PROGRAMADDDEL < 32 := by
    rw [← hop, Nat.shiftRight_eq_div_pow]; omega
  have hmod : cfg.ML_PROGRAMADDDEL % 256 = cfg.ML_PROGRAMADDDEL := Nat.mod_eq_of_lt (by omega)
  have hne' : ¬ cfg.ML_PROGRAMADDDEL = cfg.ML_TESTSTATION := fun h => hlabel h.symm
  simp only [execCommand, hne, ne_eq, not_false_eq_true, if_true, hop, hne', if_false,
    MirrorLinkGetCmd, hmod]

end Station

theorem labels_testStation_ne_addDel (cfg : Config) (h : cfg.caseLabels.Nodup) :
    cfg.ML_TESTSTATION ≠ cfg.ML_PROGRAMADDDEL := by
  simp only [Config.caseLabels, List.nodup_cons, List.mem_cons, not_or] at h
  exact h.1.1

/-- C4 (ProgramAddDel, add). The station is in `MIRRORLINK_RECEIVE`, a packet
has been received and read without error, its word `w` has opcode
`ML_PROGRAMADDDEL` and payload bit 7 set, and the `switch` labels are pairwise
different. With `slot` the payload bits 0-6 and `n = pd.nprograms`: if
`slot = n`, the state change calls `change_program_data(slot, n, staging)` once
and nothing else of the store (the calls of the step are `readData`,
`startReceive` and this one), and the command register holds `w`; if
`slot ≠ n`, it calls `delete_program_data(-1)` once and no commit, and the
command register holds `ML_SYNCERROR << 27`. -/
theorem C4_station_add (cfg : Config) (env : Env) (s : Station.MIRRORLINK)
    (hmode : s.mirrorlinkState = Station.MirrorlinkModes.MIRRORLINK_RECEIVE)
    (hflag : s.receivedFlag = true) (hok : env.readData = ERR_NONE)
    (hlabels : cfg.caseLabels.Nodup)
    (hop : env.received >>> 27 = cfg.ML_PROGRAMADDDEL)
    (hadd : ((env.received &&& 0x7FFFFFF) >>> 7) &&& 0x1 = 1) :
    (0x7F &&& (env.received &&& 0x7FFFFFF) = env.nprograms →
      (Station.MirrorLinkState cfg env s).log = s.log ++
        [Call.readData, Call.startReceive,
          Call.change_program_data ((0x7F &&& (env.received &&& 0x7FFFFFF) : Nat) : Int)
            env.nprograms
            { s.mirrorlinkProg with
              name := toString (0x7F &&& (env.received &&& 0x7FFFFFF)) }] ∧
      (Station.MirrorLinkState cfg env s).command = env.received) ∧
    (0x7F &&& (env.received &&& 0x7FFFFFF) ≠ env.nprograms →
      (Station.MirrorLinkState cfg env s).log = s.log ++
        [Call.readData, Call.startReceive, Call.delete_program_data (-1)] ∧
      (Station.MirrorLinkState cfg env s).command = (cfg.ML_SYNCERROR <<< 27) % 2 ^ 32) := by
  have hne : env.received ≠ 0 := by
    intro h0
    rw [h0] at hadd
    simp at hadd
  have hexec := Station.execCommand_addDel cfg env
    { s with
      receivedFlag := false
      module_state := env.readData
      command := env.received
      log := s.log ++ [Call.readData, Call.startReceive]
      enableInterrupt := true }
    hne hop (labels_testStation_ne_addDel cfg hlabels) (received_lt env)
  rw [Station.state_receive_ok cfg env s hmode hflag hok, hexec,
    if_pos (by rw [hadd]; decide)]
  constructor
  · intro heq
    rw [if_neg (by simp only [ne_eq, heq, not_true_eq_false, not_false_eq_true])]
    exact ⟨by simp, rfl⟩
  · intro hneq
    rw [if_pos hneq]
    exact ⟨by simp, rfl⟩

/-- C4 at the sample constants: an add of slot 3 reaches a station whose store
holds 3 programs, and one whose store holds 5. -/
theorem C4_station_add_witness :
    ((Station.MirrorLinkState sampleConfig (sampleEnv 268435587 3) Station.sampleReceived).log
        = Station.sampleReceived.log ++
          [Call.readData, Call.startReceive,
            Call.change_program_data 3 3
              { Station.sampleReceived.mirrorlinkProg with name := "3" }] ∧
      (Station.MirrorLinkState sampleConfig (sampleEnv 268435587 3)
        Station.sampleReceived).command = 268435587) ∧
    ((Station.MirrorLinkState sampleConfig (sampleEnv 268435587 5) Station.sampleReceived).log
        = Station.sampleReceived.log ++
          [Call.readData, Call.startReceive, Call.delete_program_data (-1)] ∧
      (Station.MirrorLinkState sampleConfig (sampleEnv 268435587 5)
        Station.sampleReceived).command = 12 * 2 ^ 27) :=
  ⟨(C4_station_add sampleConfig (sampleEnv 268435587 3) Station.sampleReceived
      (by decide) (by decide) (by decide) (by decide) (by decide) (by decide)).1 (by decide),
    (C4_station_add sampleConfig (sampleEnv 268435587 5) Station.sampleReceived
      (by decide) (by decide) (by decide) (by decide) (by decide) (by decide)).2 (by decide)⟩

/-- C5, as stated, fails. At the sample constants a delete of slot 3 reaches a
station whose store holds 3 programs (slot id = program count): the step calls
`delete_program_data(-1)`, does not call `delete_program_data(3)`, and puts
`ML_SYNCERROR << 27` in the command register. -/
theorem C5_station_delete_count_counterexample :
    0x7F &&& ((sampleEnv 268435459 3).received &&& 0x7FFFFFF) = (sampleEnv 268435459 3).nprograms ∧
    (Station.MirrorLinkState sampleConfig (sampleEnv 268435459 3) Station.sampleReceived).log
      = Station.sampleReceived.log ++
        [Call.readData, Call.startReceive, Call.delete_program_data (-1)] ∧
    Call.delete_program_data 3 ∉
      (Station.MirrorLinkState sampleConfig (sampleEnv 268435459 3) Station.sampleReceived).log ∧
    (Station.MirrorLinkState sampleConfig (sampleEnv 268435459 3) Station.sampleReceived).command
      = sampleConfig.ML_SYNCERROR <<< 27 := by
  decide

/-- C5, amended (ProgramAddDel, delete of the last valid slot). The station is
in `MIRRORLINK_RECEIVE`, a packet has been received and read without error,
its word is not zero, has opcode `ML_PROGRAMADDDEL` and payload bit 7 clear,
and the `switch` labels are pairwise different. With `slot` the payload bits
0-6 and `n = pd.nprograms`: if `slot + 1 = n` (the last valid slot), the state
change calls `delete_program_data(slot)` once, makes no other store call, and
leaves the received word in the command register; if `slot = n`, it calls
`delete_program_data(-1)` and puts `ML_SYNCERROR << 27` in the command
register. -/
theorem C5_station_delete_last (cfg : Config) (env : Env) (s : Station.MIRRORLINK)
    (hmode : s.mirrorlinkState = Station.MirrorlinkModes.MIRRORLINK_RECEIVE)
    (hflag : s.receivedFlag = true) (hok : env.readData = ERR_NONE)
    (hlabels : cfg.caseLabels.Nodup)
    (hne : env.received ≠ 0)
    (hop : env.received >>> 27 = cfg.ML_PROGRAMADDDEL)
    (hdel : ((env.received &&& 0x7FFFFFF) >>> 7) &&& 0x1 = 0) :
    ((0x7F &&& (env.received &&& 0x7FFFFFF)) + 1 = env.nprograms →
      (Station.MirrorLinkState cfg env s).log = s.log ++
        [Call.readData, Call.startReceive,
          Call.delete_program_data ((0x7F &&& (env.received &&& 0x7FFFFFF) : Nat) : Int)] ∧
      (Station.MirrorLinkState cfg env s).command = env.received) ∧
    (0x7F &&& (env.received &&& 0x7FFFFFF) = env.nprograms →
      (Station.MirrorLinkState cfg env s).log = s.log ++
        [Call.readData, Call.startReceive, Call.delete_program_data (-1)] ∧
      (Station.MirrorLinkState cfg env s).command = (cfg.ML_SYNCERROR <<< 27) % 2 ^ 32) := by
  have hexec := Station.execCommand_addDel cfg env
    { s with
      receivedFlag := false
      module_state := env.readData
      command := env.received
      log := s.log ++ [Call.readData, Call.startReceive]
      enableInterrupt := true }
    hne hop (labels_testStation_ne_addDel cfg hlabels) (received_lt env)
  rw [Station.state_receive_ok cfg env s hmode hflag hok, hexec,
    if_neg (by rw [hdel]; decide)]
  constructor
  · intro hlast
    rw [if_neg (by dsimp only; omega)]
    exact ⟨by simp, rfl⟩
  · intro heq
    rw [if_pos (by dsimp only; omega)]
    exact ⟨by simp, rfl⟩

/-- C5, amended, at the sample constants: a delete of slot 2 reaches a station
whose store holds 3 programs. -/
theorem C5_station_delete_last_witness :
    (Station.MirrorLinkState sampleConfig (sampleEnv 268435458 3) Station.sampleReceived).log
      = Station.sampleReceived.log ++
        [Call.readData, Call.startReceive, Call.delete_program_data 2] ∧
    (Station.MirrorLinkState sampleConfig (sampleEnv 268435458 3) Station.sampleReceived).command
      = 268435458 :=
  (C5_station_delete_last sampleConfig (sampleEnv 268435458 3) Station.sampleReceived
    (by decide) (by decide) (by decide) (by decide) (by decide) (by decide) (by decide)).1
    (by decide)

/-- C6 (ProgramAddDel, delete). The station is in `MIRRORLINK_RECEIVE`, a
packet has been received and read without error, its word is not zero, has
opcode `ML_PROGRAMADDDEL` and payload bit 7 clear, and the `switch` labels are
pairwise different. With `slot` the payload bits 0-6 and `n = pd.nprograms`:
if `slot < n`, the state change calls `delete_program_data(slot)` once and
nothing else of the store, and the command register holds the received word;
if `slot ≥ n`, it calls `delete_program_data(-1)` once and nothing else of the
store, and the command register holds `ML_SYNCERROR << 27`. -/
theorem C6_station_delete (cfg : Config) (env : Env) (s : Station.MIRRORLINK)
    (hmode : s.mirrorlinkState = Station.MirrorlinkModes.MIRRORLINK_RECEIVE)
    (hflag : s.receivedFlag = true) (hok : env.readData = ERR_NONE)
    (hlabels : cfg.caseLabels.Nodup)
    (hne : env.received ≠ 0)
    (hop : env.received >>> 27 = cfg.ML_PROGRAMADDDEL)
    (hdel : ((env.received &&& 0x7FFFFFF) >>> 7) &&& 0x1 = 0) :
    (0x7F &&& (env.received &&& 0x7FFFFFF) < env.nprograms →
      (Station.MirrorLinkState cfg env s).log = s.log ++
        [Call.readData, Call.startReceive,
          Call.delete_program_data ((0x7F &&& (env.received &&& 0x7FFFFFF) : Nat) : Int)] ∧
      (Station.MirrorLinkState cfg env s).command = env.received) ∧
    (0x7F &&& (env.received &&& 0x7FFFFFF) ≥ env.nprograms →
      (Station.MirrorLinkState cfg env s).log = s.log ++
        [Call.readData, Call.startReceive, Call.delete_program_data (-1)] ∧
      Call.delete_program_data ((0x7F &&& (env.received &&& 0x7FFFFFF) : Nat) : Int)
        ≠ Call.delete_program_data (-1) ∧
      (Station.MirrorLinkState cfg env s).command = (cfg.ML_SYNCERROR <<< 27) % 2 ^ 32) := by
  have hexec := Station.execCommand_addDel cfg env
    { s with
      receivedFlag := false
      module_state := env.readData
      command := env.received
      log := s.log ++ [Call.readData, Call.startReceive]
      enableInterrupt := true }
    hne hop (labels_testStation_ne_addDel cfg hlabels) (received_lt env)
  rw [Station.state_receive_ok cfg env s hmode hflag hok, hexec,
    if_neg (by rw [hdel]; decide)]
  constructor
  · intro hlt
    rw [if_neg (by dsimp only; omega)]
    exact ⟨by simp, rfl⟩
  · intro hge
    rw [if_pos hge]
    refine ⟨by simp, ?_, rfl⟩
    intro h
    injection h with h
    omega

/-- C6 at the sample constants: deletes of slot 1 and of slot 4 reach a
station whose store holds 3 programs. -/
theorem C6_station_delete_witness :
    ((Station.MirrorLinkState sampleConfig (sampleEnv 268435457 3) Station.sampleReceived).log
        = Station.sampleReceived.log ++
          [Call.readData, Call.startReceive, Call.delete_program_data 1] ∧
      (Station.MirrorLinkState sampleConfig (sampleEnv 268435457 3)
        Station.sampleReceived).command = 268435457) ∧
    ((Station.MirrorLinkState sampleConfig (sampleEnv 268435460 3) Station.sampleReceived).log
        = Station.sampleReceived.log ++
          [Call.readData, Call.startReceive, Call.delete_program_data (-1)] ∧
      (Station.MirrorLinkState sampleConfig (sampleEnv 268435460 3)
        Station.sampleReceived).command = 12 * 2 ^ 27) :=
  ⟨(C6_station_delete sampleConfig (sampleEnv 268435457 3) Station.sampleReceived
      (by decide) (by decide) (by decide) (by decide) (by decide) (by decide) (by decide)).1
      (by decide),
    have h := (C6_station_delete sampleConfig (sampleEnv 268435460 3) Station.sampleReceived
      (by decide) (by decide) (by decide) (by decide) (by decide) (by decide) (by decide)).2
      (by decide)
    ⟨h.1, h.2.2⟩⟩

/-! ## The remote's send and receive states -/

namespace Remote

theorem transmitStatus_true (s : MIRRORLINK)
    (h : s.transmittedFlag = true ∧ s.module_state = ERR_NONE) :
    MirrorLinkTransmitStatus s =
      (true, { s with transmittedFlag := false, enableInterrupt := true }) := by
  simp [MirrorLinkTransmitStatus, h.1, h.2]

theorem transmitStatus_false (s : MIRRORLINK)
    (h : ¬ (s.transmittedFlag = true ∧ s.module_state = ERR_NONE)) :
    (MirrorLinkTransmitStatus s).1 = false ∧
    (MirrorLinkTransmitStatus s).2.timer = s.timer ∧
    (MirrorLinkTransmitStatus s).2.log = s.log ∧
    (MirrorLinkTransmitStatus s).2.mirrorlinkState = s.mirrorlinkState ∧
    (MirrorLinkTransmitStatus s).2.bufferedCommands = s.bufferedCommands ∧
    (MirrorLinkTransmitStatus s).2.buffer = s.buffer := by
  unfold MirrorLinkTransmitStatus
  by_cases hf : s.transmittedFlag = true
  · have hm : ¬ s.module_state = ERR_NONE := fun hm => h ⟨hf, hm⟩
    simp [hf, hm]
  · simp [hf]

theorem receiveInit_fields (cfg : Config) (env : Env) (s : MIRRORLINK) :
    (MirrorLinkReceiveInit cfg env s).mirrorlinkState = s.mirrorlinkState ∧
    (MirrorLinkReceiveInit cfg env s).timer = s.timer ∧
    (MirrorLinkReceiveInit cfg env s).log = s.log ++ [Call.startReceive] ∧
    (env.startReceive = ERR_NONE →
      (MirrorLinkReceiveInit cfg env s).flagRxTx = cfg.ML_RECEIVING % 2) := by
  unfold MirrorLinkReceiveInit
  split <;> simp_all

theorem receiveStatus_ok (env : Env) (s : MIRRORLINK)
    (hflag : s.receivedFlag = true) (hok : env.readData = ERR_NONE) :
    MirrorLinkReceiveStatus env s =
      (true,
        { s with
          receivedFlag := false
          module_state := env.readData
          response := env.received
          log := s.log ++ [Call.readData, Call.startReceive]
          enableInterrupt := true }) := by
  simp [MirrorLinkReceiveStatus, hflag, hok, Env.received]

theorem receiveStatus_none (env : Env) (s : MIRRORLINK)
    (h : ¬ (s.receivedFlag = true ∧ env.readData = ERR_NONE)) :
    (MirrorLinkReceiveStatus env s).1 = false ∧
    (MirrorLinkReceiveStatus env s).2.timer = s.timer ∧
    (MirrorLinkReceiveStatus env s).2.log
      = s.log ++ (if s.receivedFlag = true then [Call.readData, Call.startReceive] else []) ∧
    (MirrorLinkReceiveStatus env s).2.bufferedCommands = s.bufferedCommands ∧
    (MirrorLinkReceiveStatus env s).2.buffer = s.buffer := by
  unfold MirrorLinkReceiveStatus
  by_cases hf : s.receivedFlag = true
  · have hm : ¬ env.readData = ERR_NONE := fun hm => h ⟨hf, hm⟩
    simp [hf, hm]
  · simp [hf]

/-- The receive state when the response read is the top word and does not
carry the SyncError opcode: the radio calls are the only calls, the top word
is released and the mode is `MIRRORLINK_BUFFERING`. -/
theorem state_receive_match (cfg : Config) (env : Env) (s : MIRRORLINK)
    (hmode : s.mirrorlinkState = MirrorlinkModes.MIRRORLINK_RECEIVE)
    (hflag : s.receivedFlag = true) (hok : env.readData = ERR_NONE)
    (hhold : 0 < s.bufferedCommands)
    (hwin : env.now 1 < env.now 0 + cfg.MIRRORLINK_RXTX_MAX_TIME)
    (hop : ¬ env.received >>> 27 = cfg.ML_SYNCERROR)
    (htop : topWord s = some env.received) :
    (MirrorLinkState cfg env s).log = s.log ++ [Call.readData, Call.startReceive] ∧
    (MirrorLinkState cfg env s).mirrorlinkState = MirrorlinkModes.MIRRORLINK_BUFFERING ∧
    (MirrorLinkState cfg env s).bufferedCommands = s.bufferedCommands - 1 := by
  have hnot : ¬ (env.now 0 + cfg.MIRRORLINK_RXTX_MAX_TIME ≤ env.now 1) := by
    omega
  simp only [topWord] at htop
  simp only [MirrorLinkState, hmode, receiveStatus_ok env s hflag hok, if_true]
  simp [hop, htop, hnot, hhold, releaseTop, topWord]

end Remote

/-- C7, as stated, fails. At the sample constants the remote is in
`MIRRORLINK_SEND` with timer 110 and no transmission reported; the state
change at clock 200 leaves it in `MIRRORLINK_BUFFERING`, not in
`MIRRORLINK_RECEIVE`. -/
theorem C7_remote_send_timeout_counterexample :
    Remote.sampleSending.mirrorlinkState = Remote.MirrorlinkModes.MIRRORLINK_SEND ∧
    Remote.sampleSending.transmittedFlag = false ∧
    Remote.sampleSending.timer ≤ (sampleEnvAt 200 0 0).now 0 ∧
    (Remote.MirrorLinkState sampleConfig (sampleEnvAt 200 0 0) Remote.sampleSending).mirrorlinkState
      = Remote.MirrorlinkModes.MIRRORLINK_BUFFERING ∧
    (Remote.MirrorLinkState sampleConfig (sampleEnvAt 200 0 0) Remote.sampleSending).mirrorlinkState
      ≠ Remote.MirrorlinkModes.MIRRORLINK_RECEIVE := by
  decide

/-- C7, amended (the remote's send state). For a remote in `MIRRORLINK_SEND`,
one state change does the following. If the end of the transmission has been
reported and the radio status is `ERR_NONE`, the mode becomes
`MIRRORLINK_RECEIVE`, the timer is the clock reading plus
`MIRRORLINK_RXTX_MAX_TIME`, and the receiver is armed (`startReceive` is the
one call made; the flag is `ML_RECEIVING` when the radio accepts). If not, and
`timer ≤ now`, the mode becomes `MIRRORLINK_BUFFERING`, the timer is the next
clock reading plus `MIRRORLINK_RXTX_MAX_TIME`, the receiver is armed, and the
buffer and its counter are unchanged. Otherwise the mode stays
`MIRRORLINK_SEND` and the timer is unchanged. -/
theorem C7_remote_send (cfg : Config) (env : Env) (s : Remote.MIRRORLINK)
    (hmode : s.mirrorlinkState = Remote.MirrorlinkModes.MIRRORLINK_SEND) :
    ((s.transmittedFlag = true ∧ s.module_state = ERR_NONE) →
      (Remote.MirrorLinkState cfg env s).mirrorlinkState
        = Remote.MirrorlinkModes.MIRRORLINK_RECEIVE ∧
      (Remote.MirrorLinkState cfg env s).timer = env.now 0 + cfg.MIRRORLINK_RXTX_MAX_TIME ∧
      (Remote.MirrorLinkState cfg env s).log = s.log ++ [Call.startReceive] ∧
      (env.startReceive = ERR_NONE →
        (Remote.MirrorLinkState cfg env s).flagRxTx = cfg.ML_RECEIVING % 2)) ∧
    (¬ (s.transmittedFlag = true ∧ s.module_state = ERR_NONE) → s.timer ≤ env.now 0 →
      (Remote.MirrorLinkState cfg env s).mirrorlinkState
        = Remote.MirrorlinkModes.MIRRORLINK_BUFFERING ∧
      (Remote.MirrorLinkState cfg env s).timer = env.now 1 + cfg.MIRRORLINK_RXTX_MAX_TIME ∧
      (Remote.MirrorLinkState cfg env s).log = s.log ++ [Call.startReceive] ∧
      (env.startReceive = ERR_NONE →
        (Remote.MirrorLinkState cfg env s).flagRxTx = cfg.ML_RECEIVING % 2) ∧
      (Remote.MirrorLinkState cfg env s).bufferedCommands = s.bufferedCommands ∧
      (Remote.MirrorLinkState cfg env s).buffer = s.buffer) ∧
    (¬ (s.transmittedFlag = true ∧ s.module_state = ERR_NONE) → env.now 0 < s.timer →
      (Remote.MirrorLinkState cfg env s).mirrorlinkState
        = Remote.MirrorlinkModes.MIRRORLINK_SEND ∧
      (Remote.MirrorLinkState cfg env s).timer = s.timer) := by
  refine ⟨?_, ?_, ?_⟩
  · intro hdone
    simp only [Remote.MirrorLinkState, hmode, Remote.transmitStatus_true s hdone, if_true]
    have h := Remote.receiveInit_fields cfg env
      { s with
        transmittedFlag := false
        enableInterrupt := true
        timer := env.now 0 + cfg.MIRRORLINK_RXTX_MAX_TIME
        mirrorlinkState := Remote.MirrorlinkModes.MIRRORLINK_RECEIVE }
    exact ⟨h.1, h.2.1, h.2.2.1, h.2.2.2⟩
  · intro hnot hexp
    have hT := Remote.transmitStatus_false s hnot
    have hexp' : (Remote.MirrorLinkTransmitStatus s).2.timer ≤ env.now 0 := by
      rw [hT.2.1]; exact hexp
    simp only [Remote.MirrorLinkState, hmode, hT.1, Bool.false_eq_true, if_false, hexp', if_true]
    have h := Remote.receiveInit_fields cfg env
      { (Remote.MirrorLinkTransmitStatus s).2 with
        timer := env.now 1 + cfg.MIRRORLINK_RXTX_MAX_TIME
        mirrorlinkState := Remote.MirrorlinkModes.MIRRORLINK_BUFFERING }
    have hh := Remote.receiveInit_hold cfg env
      { (Remote.MirrorLinkTransmitStatus s).2 with
        timer := env.now 1 + cfg.MIRRORLINK_RXTX_MAX_TIME
        mirrorlinkState := Remote.MirrorlinkModes.MIRRORLINK_BUFFERING }
    refine ⟨h.1, h.2.1, ?_, h.2.2.2, ?_, ?_⟩
    · rw [h.2.2.1]; simp only [hT.2.2.1]
    · rw [hh.1]; exact hT.2.2.2.2.1
    · rw [hh.2]; exact hT.2.2.2.2.2
  · intro hnot hlt
    have hT := Remote.transmitStatus_false s hnot
    have hexp' : ¬ (Remote.MirrorLinkTransmitStatus s).2.timer ≤ env.now 0 := by
      rw [hT.2.1]; omega
    simp only [Remote.MirrorLinkState, hmode, hT.1, Bool.false_eq_true, if_false, hexp']
    exact ⟨by rw [hT.2.2.2.1]; exact hmode, hT.2.1⟩

/-- C7, amended, at the sample constants: the sending remote with timer 110
and no transmission reported, at clock 200. -/
theorem C7_remote_send_witness :
    (Remote.MirrorLinkState sampleConfig (sampleEnvAt 200 0 0) Remote.sampleSending).mirrorlinkState
      = Remote.MirrorlinkModes.MIRRORLINK_BUFFERING ∧
    (Remote.MirrorLinkState sampleConfig (sampleEnvAt 200 0 0) Remote.sampleSending).timer = 210 ∧
    (Remote.MirrorLinkState sampleConfig (sampleEnvAt 200 0 0) Remote.sampleSending).log
      = Remote.sampleSending.log ++ [Call.startReceive] :=
  have h := (C7_remote_send sampleConfig (sampleEnvAt 200 0 0) Remote.sampleSending
    (by decide)).2.1 (by decide) (by decide)
  ⟨h.1, h.2.1, h.2.2.1⟩

/-- C8 (the remote's receive state, response read). The remote is in
`MIRRORLINK_RECEIVE` with a non-empty buffer, a packet has been received and
read without error, and the second clock reading of the step is below the
first plus `MIRRORLINK_RXTX_MAX_TIME` (so it is when that constant is positive
and the clock stands still during the step). Then one state change lowers
`bufferedCommands` by
one and leaves the buffer entries alone, whether or not the response equals
the top word; it sets `response` to 0, the timer to the clock reading plus
`MIRRORLINK_RXTX_MAX_TIME` and the mode to `MIRRORLINK_BUFFERING`. The calls of
the step are `readData`, `startReceive`, then `delete_program_data(-1)` exactly
when the response's top five bits are `ML_SYNCERROR`, then the mismatch report
exactly when the response differs from the top word. -/
theorem C8_remote_receive_response (cfg : Config) (env : Env) (s : Remote.MIRRORLINK)
    (hmode : s.mirrorlinkState = Remote.MirrorlinkModes.MIRRORLINK_RECEIVE)
    (hflag : s.receivedFlag = true) (hok : env.readData = ERR_NONE)
    (hhold : 0 < s.bufferedCommands)
    (hwin : env.now 1 < env.now 0 + cfg.MIRRORLINK_RXTX_MAX_TIME) :
    (Remote.MirrorLinkState cfg env s).bufferedCommands = s.bufferedCommands - 1 ∧
    (Remote.MirrorLinkState cfg env s).buffer = s.buffer ∧
    (Remote.MirrorLinkState cfg env s).response = 0 ∧
    (Remote.MirrorLinkState cfg env s).timer = env.now 0 + cfg.MIRRORLINK_RXTX_MAX_TIME ∧
    (Remote.MirrorLinkState cfg env s).mirrorlinkState
      = Remote.MirrorlinkModes.MIRRORLINK_BUFFERING ∧
    (Remote.MirrorLinkState cfg env s).log
      = s.log ++ [Call.readData, Call.startReceive]
        ++ (if env.received >>> 27 = cfg.ML_SYNCERROR
            then [Call.delete_program_data (-1)] else [])
        ++ (if some env.received ≠ Remote.topWord s then [Call.mismatch] else []) := by
  have hnot : ¬ (env.now 0 + cfg.MIRRORLINK_RXTX_MAX_TIME ≤ env.now 1) := by
    omega
  simp only [Remote.MirrorLinkState, hmode, Remote.receiveStatus_ok env s hflag hok, if_true]
  by_cases hsync : env.received >>> 27 = cfg.ML_SYNCERROR <;>
    by_cases hmis : some env.received ≠ Remote.topWord s <;>
    simp only [Remote.topWord] at hmis <;>
    simp [hsync, hmis, hnot, hhold, Remote.releaseTop, Remote.topWord]

/-- C8 at the sample constants: the listening remote holds one word; the
response that arrives at clock 105 is the SyncError word, which differs from
the word sent. -/
theorem C8_remote_receive_response_witness :
    (Remote.MirrorLinkState sampleConfig (sampleEnvAt 105 (12 * 2 ^ 27) 0)
      Remote.sampleReceived).bufferedCommands = 0 ∧
    (Remote.MirrorLinkState sampleConfig (sampleEnvAt 105 (12 * 2 ^ 27) 0)
      Remote.sampleReceived).mirrorlinkState = Remote.MirrorlinkModes.MIRRORLINK_BUFFERING ∧
    (Remote.MirrorLinkState sampleConfig (sampleEnvAt 105 (12 * 2 ^ 27) 0)
      Remote.sampleReceived).timer = 115 ∧
    (Remote.MirrorLinkState sampleConfig (sampleEnvAt 105 (12 * 2 ^ 27) 0)
      Remote.sampleReceived).log
      = Remote.sampleReceived.log ++
        [Call.readData, Call.startReceive, Call.delete_program_data (-1), Call.mismatch] :=
  have h := C8_remote_receive_response sampleConfig (sampleEnvAt 105 (12 * 2 ^ 27) 0)
    Remote.sampleReceived (by decide) (by decide) (by decide) (by decide) (by decide)
  ⟨h.1, h.2.2.2.2.1, h.2.2.2.1, h.2.2.2.2.2⟩

/-- C9 (the remote's receive state, timeout). The remote is in
`MIRRORLINK_RECEIVE`, no packet has been read (none was reported, or the read
failed) and `timer ≤ now`. Then one state change lowers `bufferedCommands` by
one (it stays 0 when it is 0) and leaves the buffer entries alone, sets the
timer to the next clock reading plus `MIRRORLINK_RXTX_MAX_TIME` and the mode to
`MIRRORLINK_BUFFERING`; the only calls it makes are the radio's `readData` and
`startReceive` of a failed read, so none goes to the program store. With one
buffered command the buffer is empty afterwards. -/
theorem C9_remote_receive_timeout (cfg : Config) (env : Env) (s : Remote.MIRRORLINK)
    (hmode : s.mirrorlinkState = Remote.MirrorlinkModes.MIRRORLINK_RECEIVE)
    (hnone : ¬ (s.receivedFlag = true ∧ env.readData = ERR_NONE))
    (hexp : s.timer ≤ env.now 0) :
    (Remote.MirrorLinkState cfg env s).bufferedCommands = s.bufferedCommands - 1 ∧
    (Remote.MirrorLinkState cfg env s).buffer = s.buffer ∧
    (Remote.MirrorLinkState cfg env s).timer = env.now 1 + cfg.MIRRORLINK_RXTX_MAX_TIME ∧
    (Remote.MirrorLinkState cfg env s).mirrorlinkState
      = Remote.MirrorlinkModes.MIRRORLINK_BUFFERING ∧
    (Remote.MirrorLinkState cfg env s).log
      = s.log ++ (if s.receivedFlag = true then [Call.readData, Call.startReceive] else []) ∧
    (s.bufferedCommands = 1 → (Remote.MirrorLinkState cfg env s).bufferedCommands = 0) := by
  have hR := Remote.receiveStatus_none env s hnone
  have hexp' : (Remote.MirrorLinkReceiveStatus env s).2.timer ≤ env.now 0 := by
    rw [hR.2.1]; exact hexp
  have hrel := Remote.releaseTop_hold (Remote.MirrorLinkReceiveStatus env s).2
  have hlog : (Remote.releaseTop (Remote.MirrorLinkReceiveStatus env s).2).log
      = (Remote.MirrorLinkReceiveStatus env s).2.log := by
    unfold Remote.releaseTop
    split <;> rfl
  simp only [Remote.MirrorLinkState, hmode, hR.1, Bool.false_eq_true, if_false, hexp', if_true]
  refine ⟨?_, ?_, trivial, trivial, ?_, ?_⟩
  · rw [hrel.1, hR.2.2.2.1]
  · rw [hrel.2, hR.2.2.2.2]
  · rw [hlog, hR.2.2.1]
  · intro h1
    rw [hrel.1, hR.2.2.2.1, h1]

/-- C9 at the sample constants: the listening remote holds one word, no
packet is reported, and the clock reaches the timer, 110. -/
theorem C9_remote_receive_timeout_witness :
    (Remote.MirrorLinkState sampleConfig (sampleEnvAt 110 0 0)
      Remote.sampleListening).bufferedCommands = 0 ∧
    (Remote.MirrorLinkState sampleConfig (sampleEnvAt 110 0 0)
      Remote.sampleListening).mirrorlinkState = Remote.MirrorlinkModes.MIRRORLINK_BUFFERING ∧
    (Remote.MirrorLinkState sampleConfig (sampleEnvAt 110 0 0)
      Remote.sampleListening).timer = 120 ∧
    (Remote.MirrorLinkState sampleConfig (sampleEnvAt 110 0 0)
      Remote.sampleListening).log = Remote.sampleListening.log :=
  have h := C9_remote_receive_timeout sampleConfig (sampleEnvAt 110 0 0)
    Remote.sampleListening (by decide) (by decide) (by decide)
  ⟨h.2.2.2.2.2 (by decide), h.2.2.2.1, h.2.2.1, h.2.2.2.2.1⟩

/-! ## One command from the remote to the station and back -/

namespace Station

/-- Execution of a command leaves the command register alone unless the
ProgramAddDel case finds the slot id out of step; it never touches the mode,
the flags of the radio or the timer. -/
theorem execCommand_keeps (cfg : Config) (env : Env) (t : MIRRORLINK)
    (h32 : t.command < 2 ^ 32) (hstep : ¬ outOfStep cfg env.nprograms t.command) :
    (execCommand cfg env t).command = t.command ∧
    (execCommand cfg env t).flagRxTx = t.flagRxTx ∧
    (execCommand cfg env t).transmittedFlag = t.transmittedFlag := by
  have hlt : t.command >>> 27 < 32 := by
    rw [Nat.shiftRight_eq_div_pow]; omega
  unfold execCommand
  by_cases hne : t.command ≠ 0
  · rw [if_pos hne]
    by_cases h1 : t.command >>> 27 = cfg.ML_TESTSTATION
    · rw [if_pos h1]; exact ⟨rfl, rfl, rfl⟩
    · rw [if_neg h1]
      by_cases h2 : t.command >>> 27 = cfg.ML_PROGRAMADDDEL
      · have hmod : cfg.ML_PROGRAMADDDEL % 256 = t.command >>> 27 := by
          rw [← h2]; exact Nat.mod_eq_of_lt (by omega)
        have hget : MirrorLinkGetCmd cfg.ML_PROGRAMADDDEL t = t.command &&& 0x7FFFFFF := by
          simp only [MirrorLinkGetCmd, hmod, if_true]
        rw [if_pos h2]
        simp only [hget]
        unfold outOfStep at hstep
        by_cases hadd : ((t.command &&& 0x7FFFFFF) >>> 7) &&& 0x1 ≠ 0
        · rw [if_pos hadd]
          have hpid : ¬ (0x7F &&& (t.command &&& 0x7FFFFFF) ≠ env.nprograms) := by
            intro hbad
            exact hstep ⟨hne, h2, by rw [if_pos hadd]; exact hbad⟩
          rw [if_neg hpid]
          exact ⟨rfl, rfl, rfl⟩
        · rw [if_neg hadd]
          have hpid : ¬ (0x7F &&& (t.command &&& 0x7FFFFFF) ≥ env.nprograms) := by
            intro hbad
            exact hstep ⟨hne, h2, by rw [if_neg hadd]; exact hbad⟩
          rw [if_neg hpid]
          exact ⟨rfl, rfl, rfl⟩
      · rw [if_neg h2]
        by_cases k0 : t.command >>> 27 = cfg.ML_PROGRAMMAINSETUP
        · rw [if_pos k0]; exact ⟨rfl, rfl, rfl⟩
        rw [if_neg k0]
        by_cases k1 : t.command >>> 27 = cfg.ML_PROGRAMDAYS
        · rw [if_pos k1]; exact ⟨rfl, rfl, rfl⟩
        rw [if_neg k1]
        by_cases k2 : t.command >>> 27 = cfg.ML_PROGRAMSTARTTIME
        · rw [if_pos k2]; exact ⟨rfl, rfl, rfl⟩
        rw [if_neg k2]
        by_cases k3 : t.command >>> 27 = cfg.ML_PROGRAMDURATION
        · rw [if_pos k3]; exact ⟨rfl, rfl, rfl⟩
        rw [if_neg k3]
        by_cases k4 : t.command >>> 27 = cfg.ML_TIMESYNC
        · rw [if_pos k4]; exact ⟨rfl, rfl, rfl⟩
        rw [if_neg k4]
        by_cases k5 : t.command >>> 27 = cfg.ML_TIMEZONESYNC
        · rw [if_pos k5]; exact ⟨rfl, rfl, rfl⟩
        rw [if_neg k5]
        by_cases k6 : t.command >>> 27 = cfg.ML_CURRENTREQUEST
        · rw [if_pos k6]; exact ⟨rfl, rfl, rfl⟩
        rw [if_neg k6]
        by_cases k7 : t.command >>> 27 = cfg.ML_EMERGENCYSHUTDOWN
        · rw [if_pos k7]; exact ⟨rfl, rfl, rfl⟩
        rw [if_neg k7]
        by_cases k8 : t.command >>> 27 = cfg.ML_STATIONREBOOT
        · rw [if_pos k8]; exact ⟨rfl, rfl, rfl⟩
        rw [if_neg k8]
        exact ⟨rfl, rfl, rfl⟩
  · rw [if_neg hne]
    exact ⟨rfl, rfl, rfl⟩

end Station

theorem received_of_carries (env : Env) (w : Nat) (hw : w < 2 ^ 32)
    (h : env.carries (txBytes w)) : env.received = w := by
  unfold Env.carries txBytes at h
  injection h with h0 h1 h2 h3
  unfold Env.received
  rw [← h0, ← h1, ← h2, ← h3]
  exact rxWord_txBytes w hw

theorem cmdWord_lt (c p : Nat) (hc : c < 32) (hp : p < 2 ^ 27) : cmdWord c p < 2 ^ 32 := by
  rw [cmdWord_eq c p hc hp]
  omega

/-- C10 (one command echoed end to end). `c` is a command below 32 that
`MirrorLinkBuffCmd` has a case for, `p` a payload below `2 ^ 27`, and
`cmdWord c p` the word a push stores. `ML_SYNCERROR` is not a `switch` label,
`ML_RECEIVING` is a one-bit value and `ML_TRANSMITTING` differs from it in that
bit. The remote starts in `MIRRORLINK_BUFFERING` holding exactly that word; the
station starts listening in `MIRRORLINK_RECEIVE`. Interrupts are enabled, the
radio returns `ERR_NONE`, each receiver reads the octets the other side
submitted, the clock does not move between the first two readings of the
remote's buffering step nor pass the new deadline inside its receive step,
the station's execution of the word does not find the slot id out of step,
and the station's action runs at the tick its timer gate names. Then: the
remote's state change enters `MIRRORLINK_SEND` and submits the four octets of
the word; the station, after the receive interrupt, enters `MIRRORLINK_SEND`
with the word in the command register, stays as it is through every state
change before its timer expires, and its action submits the four octets of the
word; the remote, after the transmit interrupt, enters `MIRRORLINK_RECEIVE`,
and after the receive interrupt its state change makes the calls `readData`
and `startReceive` only (no `delete_program_data(-1)`, no mismatch report) and
ends in `MIRRORLINK_BUFFERING` with `bufferedCommands = 0`. -/
theorem C10_end_to_end_echo (cfg : Config) (c p : Nat)
    (r0 : Remote.MIRRORLINK) (st0 : Station.MIRRORLINK)
    (eSend eDone eResp eRecv eWork : Env)
    (hsync : cfg.ML_SYNCERROR ∉ cfg.caseLabels)
    (hrx : cfg.ML_RECEIVING < 2) (htx : cfg.ML_TRANSMITTING % 2 ≠ cfg.ML_RECEIVING)
    (hcmd : Remote.isBuffCmd cfg c = true) (hc : c < 32) (hp : p < 2 ^ 27)
    (hr0mode : r0.mirrorlinkState = Remote.MirrorlinkModes.MIRRORLINK_BUFFERING)
    (hr0bc : r0.bufferedCommands = 1)
    (hr0top : Remote.topWord r0 = some (cmdWord c p))
    (hr0int : r0.enableInterrupt = true)
    (hclkSend : eSend.now 1 = eSend.now 0)
    (htxok : eSend.startTransmit = ERR_NONE)
    (harm : eDone.startReceive = ERR_NONE)
    (hst0mode : st0.mirrorlinkState = Station.MirrorlinkModes.MIRRORLINK_RECEIVE)
    (hst0int : st0.enableInterrupt = true)
    (hst0rx : st0.flagRxTx = cfg.ML_RECEIVING)
    (hst0tx : st0.transmittedFlag = false)
    (hread : eRecv.readData = ERR_NONE)
    (hair : eRecv.carries (txBytes (cmdWord c p)))
    (hstep : ¬ Station.outOfStep cfg eRecv.nprograms (cmdWord c p))
    (hgate : (Station.afterCommand cfg eRecv st0).timer
      = eWork.now 0 + (cfg.MIRRORLINK_RXTX_MAX_TIME - cfg.MIRRORLINK_RXTX_DEAD_TIME))
    (hread2 : eResp.readData = ERR_NONE)
    (hair2 : eResp.carries (txBytes (Station.afterCommand cfg eRecv st0).command))
    (hwin : eResp.now 1 < eResp.now 0 + cfg.MIRRORLINK_RXTX_MAX_TIME) :
    (Remote.MirrorLinkState cfg eSend r0).mirrorlinkState
      = Remote.MirrorlinkModes.MIRRORLINK_SEND ∧
    (Remote.MirrorLinkState cfg eSend r0).log = r0.log ++ [txBytes (cmdWord c p)] ∧
    (Station.afterCommand cfg eRecv st0).mirrorlinkState
      = Station.MirrorlinkModes.MIRRORLINK_SEND ∧
    (Station.afterCommand cfg eRecv st0).command = cmdWord c p ∧
    (∀ eIdle : Env, eIdle.now 0 < (Station.afterCommand cfg eRecv st0).timer →
      Station.MirrorLinkState cfg eIdle (Station.afterCommand cfg eRecv st0)
        = Station.afterCommand cfg eRecv st0) ∧
    (Station.MirrorLinkWork cfg eWork (Station.afterCommand cfg eRecv st0)).log
      = (Station.afterCommand cfg eRecv st0).log ++ [txBytes (cmdWord c p)] ∧
    (Remote.afterDone cfg eSend eDone r0).mirrorlinkState
      = Remote.MirrorlinkModes.MIRRORLINK_RECEIVE ∧
    (Remote.afterResponse cfg eSend eDone eResp r0).log
      = (Remote.afterDone cfg eSend eDone r0).log ++ [Call.readData, Call.startReceive] ∧
    (Remote.afterResponse cfg eSend eDone eResp r0).mirrorlinkState
      = Remote.MirrorlinkModes.MIRRORLINK_BUFFERING ∧
    (Remote.afterResponse cfg eSend eDone eResp r0).bufferedCommands = 0 := by
  have hC32 := cmdWord_lt c p hc hp
  have hrxmod : cfg.ML_RECEIVING % 2 = cfg.ML_RECEIVING := Nat.mod_eq_of_lt hrx
  -- the remote enters the send state
  have hr1 : Remote.MirrorLinkState cfg eSend r0 =
      { r0 with
        timer := eSend.now 2 + cfg.MIRRORLINK_RXTX_MAX_TIME
        mirrorlinkState := Remote.MirrorlinkModes.MIRRORLINK_SEND
        module_state := eSend.startTransmit
        flagRxTx := cfg.ML_TRANSMITTING % 2
        log := r0.log ++ [txBytes (cmdWord c p)] } := by
    have htop := hr0top
    simp only [Remote.topWord, hr0bc] at htop
    simp only [Remote.MirrorLinkState, hr0mode, hclkSend, hr0bc, Remote.MirrorLinkTransmit,
      Remote.topWord, htop]
    simp
  -- the station executes the command
  have hrecv : eRecv.received = cmdWord c p := received_of_carries eRecv _ hC32 hair
  have hst0f : Station.setFlag cfg st0 = { st0 with receivedFlag := true } := by
    simp [Station.setFlag, hst0int, hst0rx]
  have hst1 : Station.afterCommand cfg eRecv st0 = _ :=
    Station.state_receive_ok cfg eRecv (Station.setFlag cfg st0)
      (by rw [hst0f]; exact hst0mode) (by rw [hst0f]) hread
  have hkeep := Station.execCommand_keeps cfg eRecv
    { Station.setFlag cfg st0 with
      receivedFlag := false
      module_state := eRecv.readData
      command := eRecv.received
      log := (Station.setFlag cfg st0).log ++ [Call.readData, Call.startReceive]
      enableInterrupt := true }
    (by rw [hrecv]; exact hC32) (by rw [hrecv]; exact hstep)
  have hst1cmd : (Station.afterCommand cfg eRecv st0).command = cmdWord c p := by
    rw [hst1]
    exact hkeep.1.trans hrecv
  have hst1mode : (Station.afterCommand cfg eRecv st0).mirrorlinkState
      = Station.MirrorlinkModes.MIRRORLINK_SEND := by
    rw [hst1]
  have hst1rx : (Station.afterCommand cfg eRecv st0).flagRxTx = cfg.ML_RECEIVING := by
    rw [hst1]
    refine hkeep.2.1.trans ?_
    rw [hst0f]
    exact hst0rx
  have hst1tx : (Station.afterCommand cfg eRecv st0).transmittedFlag = false := by
    rw [hst1]
    refine hkeep.2.2.trans ?_
    rw [hst0f]
    exact hst0tx
  have hidle : ∀ eIdle : Env, eIdle.now 0 < (Station.afterCommand cfg eRecv st0).timer →
      Station.MirrorLinkState cfg eIdle (Station.afterCommand cfg eRecv st0)
        = Station.afterCommand cfg eRecv st0 := by
    intro eIdle hlt
    have hnle : ¬ (Station.afterCommand cfg eRecv st0).timer ≤ eIdle.now 0 := by omega
    simp only [Station.MirrorLinkState, hst1mode, Station.MirrorLinkTransmitStatus, hst1tx,
      Bool.false_eq_true, if_false, hnle]
  have hst2 : (Station.MirrorLinkWork cfg eWork (Station.afterCommand cfg eRecv st0)).log
      = (Station.afterCommand cfg eRecv st0).log ++ [txBytes (cmdWord c p)] := by
    simp only [Station.MirrorLinkWork, hst1mode, hgate, hst1rx, and_self, if_true,
      Station.MirrorLinkTransmit, hst1cmd]
  -- the remote sees the end of its transmission
  have hr1f : Remote.setFlag cfg (Remote.MirrorLinkState cfg eSend r0) =
      { r0 with
        timer := eSend.now 2 + cfg.MIRRORLINK_RXTX_MAX_TIME
        mirrorlinkState := Remote.MirrorlinkModes.MIRRORLINK_SEND
        module_state := eSend.startTransmit
        flagRxTx := cfg.ML_TRANSMITTING % 2
        log := r0.log ++ [txBytes (cmdWord c p)]
        transmittedFlag := true } := by
    rw [hr1]
    simp [Remote.setFlag, hr0int, htx]
  have hr2 : Remote.afterDone cfg eSend eDone r0 =
      { r0 with
        timer := eDone.now 0 + cfg.MIRRORLINK_RXTX_MAX_TIME
        mirrorlinkState := Remote.MirrorlinkModes.MIRRORLINK_RECEIVE
        module_state := eDone.startReceive
        flagRxTx := cfg.ML_RECEIVING
        log := r0.log ++ [txBytes (cmdWord c p)] ++ [Call.startReceive]
        transmittedFlag := false
        enableInterrupt := true } := by
    unfold Remote.afterDone
    rw [hr1f]
    simp [Remote.MirrorLinkState, Remote.MirrorLinkTransmitStatus, htxok,
      Remote.MirrorLinkReceiveInit, harm, hrxmod]
  have hr2f : Remote.setFlag cfg (Remote.afterDone cfg eSend eDone r0) =
      { r0 with
        timer := eDone.now 0 + cfg.MIRRORLINK_RXTX_MAX_TIME
        mirrorlinkState := Remote.MirrorlinkModes.MIRRORLINK_RECEIVE
        module_state := eDone.startReceive
        flagRxTx := cfg.ML_RECEIVING
        log := r0.log ++ [txBytes (cmdWord c p)] ++ [Call.startReceive]
        transmittedFlag := false
        enableInterrupt := true
        receivedFlag := true } := by
    rw [hr2]
    simp [Remote.setFlag]
  -- the remote reads the response
  have hresp : eResp.received = cmdWord c p := by
    rw [hst1cmd] at hair2
    exact received_of_carries eResp _ hC32 hair2
  have hop : ¬ (cmdWord c p >>> 27 = cfg.ML_SYNCERROR) := by
    rw [cmdWord_shiftRight c p hc hp]
    intro hbad
    apply hsync
    rw [← hbad]
    simpa [Remote.isBuffCmd] using hcmd
  have htop2 : Remote.topWord (Remote.setFlag cfg (Remote.afterDone cfg eSend eDone r0))
      = some eResp.received := by
    rw [hr2f, hresp]
    exact hr0top
  have hback : _ ∧ _ ∧ (Remote.afterResponse cfg eSend eDone eResp r0).bufferedCommands = _ :=
    Remote.state_receive_match cfg eResp (Remote.setFlag cfg (Remote.afterDone cfg eSend eDone r0))
      (by rw [hr2f]) (by rw [hr2f]) hread2 (by rw [hr2f]; simp [hr0bc]) hwin
      (by rw [hresp]; exact hop) htop2
  refine ⟨by rw [hr1], by rw [hr1], hst1mode, hst1cmd, hidle, hst2, by rw [hr2], ?_,
    hback.2.1, ?_⟩
  · exact hback.1.trans (by rw [hr2f, hr2])
  · rw [hback.2.2, hr2f]
    simp [hr0bc]

/-- C10 at the sample constants: the remote holds the add of slot 3
(`ML_PROGRAMADDDEL`, payload 131), the station's store holds 3 programs, the
station's action runs at clock 102 and the response reaches the remote at
clock 105. -/
theorem C10_end_to_end_echo_witness :
    (Remote.MirrorLinkState sampleConfig (sampleEnv 0 0) Remote.sampleBuffering).log
      = Remote.sampleBuffering.log ++ [Call.startTransmit 16 0 0 131] ∧
    (Station.afterCommand sampleConfig (sampleEnv 268435587 3) Station.sampleListening).command
      = 268435587 ∧
    (Station.MirrorLinkWork sampleConfig (sampleEnvAt 102 0 0)
      (Station.afterCommand sampleConfig (sampleEnv 268435587 3) Station.sampleListening)).log
      = (Station.afterCommand sampleConfig (sampleEnv 268435587 3) Station.sampleListening).log
        ++ [Call.startTransmit 16 0 0 131] ∧
    (Remote.afterResponse sampleConfig (sampleEnv 0 0) (sampleEnv 0 0)
      (sampleEnvAt 105 268435587 0) Remote.sampleBuffering).mirrorlinkState
      = Remote.MirrorlinkModes.MIRRORLINK_BUFFERING ∧
    (Remote.afterResponse sampleConfig (sampleEnv 0 0) (sampleEnv 0 0)
      (sampleEnvAt 105 268435587 0) Remote.sampleBuffering).bufferedCommands = 0 :=
  have h := C10_end_to_end_echo sampleConfig 2 131 Remote.sampleBuffering Station.sampleListening
    (sampleEnv 0 0) (sampleEnv 0 0) (sampleEnvAt 105 268435587 0) (sampleEnv 268435587 3)
    (sampleEnvAt 102 0 0)
    (by decide) (by decide) (by decide) (by decide) (by decide) (by decide)
    (by decide) (by decide) (by decide) (by decide) (by decide) (by decide) (by decide)
    (by decide) (by decide) (by decide) (by decide) (by decide) (by decide) (by decide)
    (by decide) (by decide) (by decide) (by decide)
  ⟨h.2.1, h.2.2.2.1, h.2.2.2.2.2.1, h.2.2.2.2.2.2.2.2.1, h.2.2.2.2.2.2.2.2.2⟩

/-! ## The codec on arbitrary 32-bit values -/

theorem shiftLeft_or_shiftRight (a p : Nat) : ((a <<< 27) ||| p) >>> 27 = a ||| (p >>> 27) := by
  apply Nat.eq_of_testBit_eq
  intro i
  simp [Nat.testBit_shiftRight, Nat.testBit_or, Nat.testBit_shiftLeft]

theorem shiftLeft_or_mod (a p : Nat) : ((a <<< 27) ||| p) % 2 ^ 27 = p % 2 ^ 27 := by
  apply Nat.eq_of_testBit_eq
  intro i
  simp only [Nat.testBit_mod_two_pow, Nat.testBit_or, Nat.testBit_shiftLeft]
  by_cases h : i < 27
  · have hge : ¬ i ≥ 27 := by omega
    simp [h, hge]
  · simp [h]

theorem cmdWord_opcode (c p : Nat) (hc : c < 32) (hp : p < 2 ^ 32) :
    cmdWord c p >>> 27 = c ||| (p >>> 27) := by
  unfold cmdWord
  rw [Nat.mod_eq_of_lt (show c < 256 by omega), Nat.mod_eq_of_lt hp, and_0x1F_of_lt c hc,
    shiftLeft_or_shiftRight]

theorem cmdWord_low (c p : Nat) : cmdWord c p &&& 0x7FFFFFF = (p % 2 ^ 32) &&& 0x7FFFFFF := by
  unfold cmdWord
  rw [and_0x7FFFFFF, and_0x7FFFFFF, shiftLeft_or_mod]

/-- C11, as stated, fails. At the sample constants a push of `ML_TESTSTATION`
(1) with the 32-bit payload `2 ^ 28` stores the word `3 * 2 ^ 27`, whose top
five bits are 3, not 1: bit 28 of the payload has gone into the opcode
field. -/
theorem C11_encode_overwide_counterexample :
    Remote.isBuffCmd sampleConfig 1 = true ∧ 2 ^ 28 < 2 ^ 32 ∧
    Remote.topWord (Remote.MirrorLinkBuffCmd sampleConfig 1 (2 ^ 28) Remote.sampleInit)
      = some (3 * 2 ^ 27) ∧
    (3 * 2 ^ 27) >>> 27 = 3 ∧ (3 * 2 ^ 27) >>> 27 ≠ 1 := by
  decide

/-- C11, amended (what the encoder does with its fields). For a command `c`
below 32 that `MirrorLinkBuffCmd` has a case for and any 32-bit payload `p`, a
push that finds room stores a word whose low 27 bits are the low 27 bits of
`p` and whose top five bits are `c | (p >> 27)`: bits 27-31 of the payload are
not cut off, they are or-ed into the opcode field. The opcode field is `c`
whenever `p < 2 ^ 27`. -/
theorem C11_encode_fields (cfg : Config) (c p : Nat) (s : Remote.MIRRORLINK)
    (hcmd : Remote.isBuffCmd cfg c = true) (hc : c < 32) (hp : p < 2 ^ 32)
    (hroom : s.bufferedCommands < cfg.MIRRORLINK_BUFFERLENGTH)
    (hlen : s.buffer.length = cfg.MIRRORLINK_BUFFERLENGTH)
    (hK : cfg.MIRRORLINK_BUFFERLENGTH ≤ 255) :
    Remote.topWord (Remote.MirrorLinkBuffCmd cfg c p s) = some (cmdWord c p) ∧
    cmdWord c p &&& 0x7FFFFFF = p &&& 0x7FFFFFF ∧
    cmdWord c p >>> 27 = c ||| (p >>> 27) ∧
    (p < 2 ^ 27 → cmdWord c p >>> 27 = c) := by
  have hc256 : c % 256 = c := Nat.mod_eq_of_lt (by omega)
  refine ⟨Remote.topWord_buffCmd cfg c p s (by rw [hc256]; exact hcmd) hroom hlen hK, ?_,
    cmdWord_opcode c p hc hp, fun hp27 => cmdWord_shiftRight c p hc hp27⟩
  rw [cmdWord_low, Nat.mod_eq_of_lt hp]

/-- C11, amended, at the sample constants: `ML_TESTSTATION` pushed with the
payload `2 ^ 28 + 5` on the freshly initialised remote. -/
theorem C11_encode_fields_witness :
    Remote.topWord (Remote.MirrorLinkBuffCmd sampleConfig 1 (2 ^ 28 + 5) Remote.sampleInit)
      = some (cmdWord 1 (2 ^ 28 + 5)) ∧
    cmdWord 1 (2 ^ 28 + 5) &&& 0x7FFFFFF = 5 ∧
    cmdWord 1 (2 ^ 28 + 5) >>> 27 = 3 :=
  have h := C11_encode_fields sampleConfig 1 (2 ^ 28 + 5) Remote.sampleInit
    (by decide) (by decide) (by decide) (by decide) (by decide) (by decide)
  ⟨h.1, h.2.1, h.2.2.1⟩

/-- C12 (payload extraction). For a command register holding the 32-bit value
`w` and an 8-bit expected opcode `e`, `MirrorLinkGetCmd(e)` returns
`w & 0x7FFFFFF` when `e = w >> 27` and 0 otherwise; it returns 0 for every
`e > 31`. The function only reads the record. -/
theorem C12_extract (e w : Nat) (s : Station.MIRRORLINK)
    (he : e < 256) (hw : w < 2 ^ 32) (hs : s.command = w) :
    Station.MirrorLinkGetCmd e s = (if e = w >>> 27 then w &&& 0x7FFFFFF else 0) ∧
    (31 < e → Station.MirrorLinkGetCmd e s = 0) := by
  have hmod : e % 256 = e := Nat.mod_eq_of_lt he
  have hop : w >>> 27 < 32 := by
    rw [Nat.shiftRight_eq_div_pow]; omega
  constructor
  · simp only [Station.MirrorLinkGetCmd, hmod, hs]
  · intro hbig
    have hne : ¬ e = w >>> 27 := by omega
    simp only [Station.MirrorLinkGetCmd, hmod, hs, hne, if_false]

/-- C12 at the sample values: the register holds `2 * 2 ^ 27 + 131`; the
expected opcodes 2 and 40 are asked for. -/
theorem C12_extract_witness :
    Station.MirrorLinkGetCmd 2 { Station.zero with command := 2 * 2 ^ 27 + 131 } = 131 ∧
    Station.MirrorLinkGetCmd 40 { Station.zero with command := 2 * 2 ^ 27 + 131 } = 0 :=
  ⟨(C12_extract 2 (2 * 2 ^ 27 + 131) { Station.zero with command := 2 * 2 ^ 27 + 131 }
      (by decide) (by decide) rfl).1,
    (C12_extract 40 (2 * 2 ^ 27 + 131) { Station.zero with command := 2 * 2 ^ 27 + 131 }
      (by decide) (by decide) rfl).2 (by decide)⟩

theorem txBytes_spelled (w : Nat) :
    txBytes w = Call.startTransmit ((w >>> 24) &&& 0xFF) ((w >>> 16) &&& 0xFF)
      ((w >>> 8) &&& 0xFF) (w &&& 0xFF) := by
  unfold txBytes
  rw [Nat.and_comm 0xFF (w >>> 24), Nat.and_comm 0xFF (w >>> 16), Nat.and_comm 0xFF (w >>> 8),
    Nat.and_comm 0xFF w]

theorem txBytes_rxWord (b0 b1 b2 b3 : Nat)
    (h0 : b0 < 256) (h1 : b1 < 256) (h2 : b2 < 256) (h3 : b3 < 256) :
    txBytes (rxWord b0 b1 b2 b3) = Call.startTransmit b0 b1 b2 b3 := by
  unfold txBytes
  rw [rxWord_eq]
  simp only [and_0xFF, Nat.shiftRight_eq_div_pow]
  congr 1 <;> omega

/-- C13 (wire format). For a 32-bit word `w`: `MirrorLinkTransmit` submits
exactly the four octets `w>>24 & 0xFF, w>>16 & 0xFF, w>>8 & 0xFF, w & 0xFF`, on
the station for the command register and on the remote for the top buffer
entry; `MirrorLinkReceiveStatus`, reading those octets without error, puts `w`
back in the command register (station) or in `response` (remote). Conversely,
for any four octets, the word assembled from them is submitted as the same
four octets. -/
theorem C13_wire_round_trip (cfg : Config) (env : Env) (s sr : Station.MIRRORLINK)
    (r rr : Remote.MIRRORLINK) (w b0 b1 b2 b3 : Nat)
    (hw : w < 2 ^ 32)
    (h0 : b0 < 256) (h1 : b1 < 256) (h2 : b2 < 256) (h3 : b3 < 256) :
    (s.command = w →
      (Station.MirrorLinkTransmit cfg env s).log = s.log ++
        [Call.startTransmit ((w >>> 24) &&& 0xFF) ((w >>> 16) &&& 0xFF)
          ((w >>> 8) &&& 0xFF) (w &&& 0xFF)]) ∧
    (Remote.topWord r = some w →
      (Remote.MirrorLinkTransmit cfg env r).log = r.log ++
        [Call.startTransmit ((w >>> 24) &&& 0xFF) ((w >>> 16) &&& 0xFF)
          ((w >>> 8) &&& 0xFF) (w &&& 0xFF)]) ∧
    (env.carries (Call.startTransmit ((w >>> 24) &&& 0xFF) ((w >>> 16) &&& 0xFF)
        ((w >>> 8) &&& 0xFF) (w &&& 0xFF)) →
      env.readData = ERR_NONE →
      (sr.receivedFlag = true → (Station.MirrorLinkReceiveStatus env sr).2.command = w) ∧
      (rr.receivedFlag = true → (Remote.MirrorLinkReceiveStatus env rr).2.response = w)) ∧
    txBytes (rxWord b0 b1 b2 b3) = Call.startTransmit b0 b1 b2 b3 := by
  refine ⟨?_, ?_, ?_, txBytes_rxWord b0 b1 b2 b3 h0 h1 h2 h3⟩
  · intro hs
    simp only [Station.MirrorLinkTransmit, hs, txBytes_spelled]
  · intro hr
    simp only [Remote.MirrorLinkTransmit, hr, Option.getD_some, txBytes_spelled]
  · intro hair hok
    rw [← txBytes_spelled] at hair
    have hrecv : env.received = w := received_of_carries env w hw hair
    constructor
    · intro hflag
      simp [Station.MirrorLinkReceiveStatus, hflag, hok, ← hrecv, Env.received]
    · intro hflag
      rw [Remote.receiveStatus_ok env rr hflag hok]
      exact hrecv

/-- C13 at the sample values: the word `2 * 2 ^ 27 + 131` is submitted from a
station's command register and from the sample remote's buffer, and read
back by the sample station and the sample remote that have a packet reported;
the octets 1, 2, 3, 4 are assembled and submitted again. -/
theorem C13_wire_round_trip_witness :
    (Station.MirrorLinkTransmit sampleConfig (sampleEnv 268435587 0)
      { Station.zero with command := 268435587 }).log = [Call.startTransmit 16 0 0 131] ∧
    (Remote.MirrorLinkTransmit sampleConfig (sampleEnv 268435587 0) Remote.sampleBuffering).log
      = [Call.startTransmit 16 0 0 131] ∧
    (Station.MirrorLinkReceiveStatus (sampleEnv 268435587 0)
      Station.sampleReceived).2.command = 268435587 ∧
    (Remote.MirrorLinkReceiveStatus (sampleEnv 268435587 0)
      Remote.sampleReceived).2.response = 268435587 ∧
    txBytes (rxWord 1 2 3 4) = Call.startTransmit 1 2 3 4 :=
  have h := C13_wire_round_trip sampleConfig (sampleEnv 268435587 0)
    { Station.zero with command := 268435587 } Station.sampleReceived
    Remote.sampleBuffering Remote.sampleReceived
    268435587 1 2 3 4 (by decide) (by decide) (by decide) (by decide) (by decide)
  ⟨h.1 rfl, h.2.1 (by decide), (h.2.2.1 (by decide) (by decide)).1 (by decide),
    (h.2.2.1 (by decide) (by decide)).2 (by decide), h.2.2.2⟩

/-! ## The station's receive and send states -/

namespace Station

theorem station_receiveStatus_none (env : Env) (s : MIRRORLINK)
    (h : ¬ (s.receivedFlag = true ∧ env.readData = ERR_NONE)) :
    (MirrorLinkReceiveStatus env s).1 = false ∧
    (MirrorLinkReceiveStatus env s).2.mirrorlinkState = s.mirrorlinkState ∧
    (MirrorLinkReceiveStatus env s).2.timer = s.timer ∧
    (MirrorLinkReceiveStatus env s).2.command = s.command ∧
    (MirrorLinkReceiveStatus env s).2.mirrorlinkProg = s.mirrorlinkProg := by
  unfold MirrorLinkReceiveStatus
  by_cases hf : s.receivedFlag = true
  · have hm : ¬ env.readData = ERR_NONE := fun hm => h ⟨hf, hm⟩
    simp [hf, hm]
  · simp [hf]

theorem station_transmitStatus_true (s : MIRRORLINK)
    (h : s.transmittedFlag = true ∧ s.module_state = ERR_NONE) :
    MirrorLinkTransmitStatus s =
      (true, { s with transmittedFlag := false, enableInterrupt := true }) := by
  simp [MirrorLinkTransmitStatus, h.1, h.2]

theorem station_transmitStatus_false (s : MIRRORLINK)
    (h : ¬ (s.transmittedFlag = true ∧ s.module_state = ERR_NONE)) :
    (MirrorLinkTransmitStatus s).1 = false ∧
    (MirrorLinkTransmitStatus s).2.timer = s.timer ∧
    (MirrorLinkTransmitStatus s).2.log = s.log ∧
    (MirrorLinkTransmitStatus s).2.mirrorlinkState = s.mirrorlinkState := by
  unfold MirrorLinkTransmitStatus
  by_cases hf : s.transmittedFlag = true
  · have hm : ¬ s.module_state = ERR_NONE := fun hm => h ⟨hf, hm⟩
    simp [hf, hm]
  · simp [hf]

theorem station_receiveInit_fields (cfg : Config) (env : Env) (s : MIRRORLINK) :
    (MirrorLinkReceiveInit cfg env s).mirrorlinkState = s.mirrorlinkState ∧
    (MirrorLinkReceiveInit cfg env s).timer = s.timer ∧
    (MirrorLinkReceiveInit cfg env s).log = s.log ++ [Call.startReceive] ∧
    (env.startReceive = ERR_NONE →
      (MirrorLinkReceiveInit cfg env s).flagRxTx = cfg.ML_RECEIVING % 2) := by
  unfold MirrorLinkReceiveInit
  split <;> simp_all

/-- The send state, written out by cases. -/
theorem state_send (cfg : Config) (env : Env) (s : MIRRORLINK)
    (hmode : s.mirrorlinkState = MirrorlinkModes.MIRRORLINK_SEND) :
    ((s.transmittedFlag = true ∧ s.module_state = ERR_NONE) →
      (MirrorLinkState cfg env s).mirrorlinkState = MirrorlinkModes.MIRRORLINK_RECEIVE ∧
      (MirrorLinkState cfg env s).timer = env.now 0 + cfg.MIRRORLINK_RXTX_MAX_TIME ∧
      (MirrorLinkState cfg env s).log = s.log ++ [Call.startReceive]) ∧
    (¬ (s.transmittedFlag = true ∧ s.module_state = ERR_NONE) → s.timer ≤ env.now 0 →
      (MirrorLinkState cfg env s).mirrorlinkState = MirrorlinkModes.MIRRORLINK_RECEIVE ∧
      (MirrorLinkState cfg env s).timer = env.now 1 + cfg.MIRRORLINK_RXTX_MAX_TIME ∧
      (MirrorLinkState cfg env s).log = s.log ++ [Call.startReceive]) ∧
    (¬ (s.transmittedFlag = true ∧ s.module_state = ERR_NONE) → env.now 0 < s.timer →
      (MirrorLinkState cfg env s).mirrorlinkState = MirrorlinkModes.MIRRORLINK_SEND ∧
      (MirrorLinkState cfg env s).timer = s.timer) := by
  refine ⟨?_, ?_, ?_⟩
  · intro hdone
    simp only [MirrorLinkState, hmode, station_transmitStatus_true s hdone, if_true]
    have h := station_receiveInit_fields cfg env
      { s with
        transmittedFlag := false
        enableInterrupt := true
        timer := env.now 0 + cfg.MIRRORLINK_RXTX_MAX_TIME
        mirrorlinkState := MirrorlinkModes.MIRRORLINK_RECEIVE }
    exact ⟨h.1, h.2.1, h.2.2.1⟩
  · intro hnot hexp
    have hT := station_transmitStatus_false s hnot
    have hexp' : (MirrorLinkTransmitStatus s).2.timer ≤ env.now 0 := by
      rw [hT.2.1]; exact hexp
    simp only [MirrorLinkState, hmode, hT.1, Bool.false_eq_true, if_false, hexp', if_true]
    have h := station_receiveInit_fields cfg env
      { (MirrorLinkTransmitStatus s).2 with
        timer := env.now 1 + cfg.MIRRORLINK_RXTX_MAX_TIME
        mirrorlinkState := MirrorlinkModes.MIRRORLINK_RECEIVE }
    refine ⟨h.1, h.2.1, ?_⟩
    rw [h.2.2.1]
    simp only [hT.2.2.1]
  · intro hnot hlt
    have hT := station_transmitStatus_false s hnot
    have hexp' : ¬ (MirrorLinkTransmitStatus s).2.timer ≤ env.now 0 := by
      rw [hT.2.1]; omega
    simp only [MirrorLinkState, hmode, hT.1, Bool.false_eq_true, if_false, hexp']
    exact ⟨by rw [hT.2.2.2]; exact hmode, hT.2.1⟩

theorem work_mode (cfg : Config) (env : Env) (s : MIRRORLINK) :
    (MirrorLinkWork cfg env s).mirrorlinkState = s.mirrorlinkState ∧
    (MirrorLinkWork cfg env s).timer = s.timer := by
  cases hm : s.mirrorlinkState <;> simp only [MirrorLinkWork, hm] <;> (try split_ifs) <;>
    simp [MirrorLinkTransmit, hm]

theorem setFlag_mode (cfg : Config) (s : MIRRORLINK) :
    (setFlag cfg s).mirrorlinkState = s.mirrorlinkState ∧
    (setFlag cfg s).timer = s.timer := by
  unfold setFlag
  split_ifs <;> simp

end Station

namespace Station

/-- One tick on a station in the send state: it ends in the receive state, or
still in the send state with the timer it had; it ends in the receive state
when the state change reads a clock at or past the timer. -/
theorem tick_send (cfg : Config) (e : Bool × Env × Env) (s : MIRRORLINK)
    (hmode : s.mirrorlinkState = MirrorlinkModes.MIRRORLINK_SEND) :
    ((tick cfg e s).mirrorlinkState = MirrorlinkModes.MIRRORLINK_RECEIVE ∨
      ((tick cfg e s).mirrorlinkState = MirrorlinkModes.MIRRORLINK_SEND ∧
        (tick cfg e s).timer = s.timer)) ∧
    (s.timer ≤ e.2.1.now 0 →
      (tick cfg e s).mirrorlinkState = MirrorlinkModes.MIRRORLINK_RECEIVE) := by
  have h0 : (if e.1 = true then setFlag cfg s else s).mirrorlinkState
        = MirrorlinkModes.MIRRORLINK_SEND ∧
      (if e.1 = true then setFlag cfg s else s).timer = s.timer := by
    split
    · exact ⟨(setFlag_mode cfg s).1.trans hmode, (setFlag_mode cfg s).2⟩
    · exact ⟨hmode, rfl⟩
  have hS := state_send cfg e.2.1 (if e.1 = true then setFlag cfg s else s) h0.1
  have hW := work_mode cfg e.2.2
    (MirrorLinkState cfg e.2.1 (if e.1 = true then setFlag cfg s else s))
  unfold tick MirrorLinkMain
  rw [hW.1, hW.2]
  by_cases hdone : (if e.1 = true then setFlag cfg s else s).transmittedFlag = true ∧
      (if e.1 = true then setFlag cfg s else s).module_state = ERR_NONE
  · exact ⟨Or.inl (hS.1 hdone).1, fun _ => (hS.1 hdone).1⟩
  · by_cases hexp : (if e.1 = true then setFlag cfg s else s).timer ≤ e.2.1.now 0
    · exact ⟨Or.inl (hS.2.1 hdone hexp).1, fun _ => (hS.2.1 hdone hexp).1⟩
    · have hlt : e.2.1.now 0 < (if e.1 = true then setFlag cfg s else s).timer := by omega
      refine ⟨Or.inr ⟨(hS.2.2 hdone hlt).1, (hS.2.2 hdone hlt).2.trans h0.2⟩, ?_⟩
      intro hle
      rw [h0.2] at hexp
      exact absurd hle hexp

/-- A run of ticks that starts in the send state and whose last tick reads a
clock at or past the timer passes through the receive state. -/
theorem ticks_send_reach (cfg : Config) (es : List (Bool × Env × Env)) :
    ∀ (s : MIRRORLINK) (e : Bool × Env × Env),
      s.mirrorlinkState = MirrorlinkModes.MIRRORLINK_SEND → s.timer ≤ e.2.1.now 0 →
      ∃ s' ∈ ticks cfg (es ++ [e]) s,
        s'.mirrorlinkState = MirrorlinkModes.MIRRORLINK_RECEIVE := by
  induction es with
  | nil =>
    intro s e hmode hexp
    exact ⟨tick cfg e s, by simp [ticks], (tick_send cfg e s hmode).2 hexp⟩
  | cons a es ih =>
    intro s e hmode hexp
    rcases (tick_send cfg a s hmode).1 with hrecv | ⟨hsend, htimer⟩
    · exact ⟨tick cfg a s, by simp [ticks], hrecv⟩
    · obtain ⟨s', hmem, hs'⟩ := ih (tick cfg a s) e hsend (by rw [htimer]; exact hexp)
      exact ⟨s', by simp only [List.cons_append, ticks, List.mem_cons]; exact Or.inr hmem, hs'⟩

theorem execCommand_outOfStep (cfg : Config) (env : Env) (t : MIRRORLINK)
    (hlabel : cfg.ML_TESTSTATION ≠ cfg.ML_PROGRAMADDDEL) (h32 : t.command < 2 ^ 32)
    (hstep : outOfStep cfg env.nprograms t.command) :
    (execCommand cfg env t).command = (cfg.ML_SYNCERROR <<< 27) % 2 ^ 32 := by
  obtain ⟨hne, hop, hcond⟩ := hstep
  rw [execCommand_addDel cfg env t hne hop hlabel h32]
  by_cases hadd : ((t.command &&& 0x7FFFFFF) >>> 7) &&& 0x1 ≠ 0
  · rw [if_pos hadd] at hcond
    rw [if_pos hadd, if_pos hcond]
  · rw [if_neg hadd] at hcond
    rw [if_neg hadd, if_pos hcond]

end Station

/-- C14 (the station's receive state). For a station in `MIRRORLINK_RECEIVE`:
when a packet has been reported and read without error, whatever its word,
one state change ends in `MIRRORLINK_SEND` with the timer at the clock reading
plus `MIRRORLINK_RXTX_MAX_TIME`; when no packet has been read (none reported, or
the read failed), the state change leaves the mode, the timer, the command
register and the staging program as they were. -/
theorem C14_station_receive (cfg : Config) (env : Env) (s : Station.MIRRORLINK)
    (hmode : s.mirrorlinkState = Station.MirrorlinkModes.MIRRORLINK_RECEIVE) :
    ((s.receivedFlag = true ∧ env.readData = ERR_NONE) →
      (Station.MirrorLinkState cfg env s).mirrorlinkState
        = Station.MirrorlinkModes.MIRRORLINK_SEND ∧
      (Station.MirrorLinkState cfg env s).timer = env.now 0 + cfg.MIRRORLINK_RXTX_MAX_TIME) ∧
    (¬ (s.receivedFlag = true ∧ env.readData = ERR_NONE) →
      (Station.MirrorLinkState cfg env s).mirrorlinkState = s.mirrorlinkState ∧
      (Station.MirrorLinkState cfg env s).timer = s.timer ∧
      (Station.MirrorLinkState cfg env s).command = s.command ∧
      (Station.MirrorLinkState cfg env s).mirrorlinkProg = s.mirrorlinkProg) := by
  constructor
  · intro hgot
    rw [Station.state_receive_ok cfg env s hmode hgot.1 hgot.2]
    exact ⟨rfl, rfl⟩
  · intro hnone
    have hR := Station.station_receiveStatus_none env s hnone
    simp only [Station.MirrorLinkState, hmode, hR.1, Bool.false_eq_true, if_false]
    exact ⟨hR.2.1.trans hmode, hR.2.2.1, hR.2.2.2.1, hR.2.2.2.2⟩

/-- C14 at the sample constants: the sample station with a packet reported
reads the zero word at clock 100; the listening sample station with no packet
reported is left alone. -/
theorem C14_station_receive_witness :
    ((Station.MirrorLinkState sampleConfig (sampleEnv 0 0) Station.sampleReceived).mirrorlinkState
        = Station.MirrorlinkModes.MIRRORLINK_SEND ∧
      (Station.MirrorLinkState sampleConfig (sampleEnv 0 0) Station.sampleReceived).timer
        = 110) ∧
    (Station.MirrorLinkState sampleConfig (sampleEnvAt 105 7 0) Station.sampleListening).timer
      = Station.sampleListening.timer :=
  ⟨(C14_station_receive sampleConfig (sampleEnv 0 0) Station.sampleReceived (by decide)).1
      (by decide),
    ((C14_station_receive sampleConfig (sampleEnvAt 105 7 0) Station.sampleListening
      (by decide)).2 (by decide)).2.1⟩

/-- C15 (the station's send state). For a station in `MIRRORLINK_SEND`, one
state change ends in `MIRRORLINK_RECEIVE` exactly when the end of the
transmission has been reported with radio status `ERR_NONE`, or `timer ≤ now`;
it then arms the receiver (`startReceive` is the one call made) and sets the
timer to a clock reading plus `MIRRORLINK_RXTX_MAX_TIME` (the first reading in
the first case, the second reading in the second). Otherwise the mode and the
timer are unchanged. Hence every run of ticks (interrupt or not, then
`MirrorLinkMain`) that starts in `MIRRORLINK_SEND` and whose last tick reads a
clock at or past the timer has passed through `MIRRORLINK_RECEIVE`. -/
theorem C15_station_send (cfg : Config) (env : Env) (s : Station.MIRRORLINK)
    (hmode : s.mirrorlinkState = Station.MirrorlinkModes.MIRRORLINK_SEND) :
    ((Station.MirrorLinkState cfg env s).mirrorlinkState
        = Station.MirrorlinkModes.MIRRORLINK_RECEIVE ↔
      ((s.transmittedFlag = true ∧ s.module_state = ERR_NONE) ∨ s.timer ≤ env.now 0)) ∧
    ((s.transmittedFlag = true ∧ s.module_state = ERR_NONE) →
      (Station.MirrorLinkState cfg env s).timer = env.now 0 + cfg.MIRRORLINK_RXTX_MAX_TIME ∧
      (Station.MirrorLinkState cfg env s).log = s.log ++ [Call.startReceive]) ∧
    (¬ (s.transmittedFlag = true ∧ s.module_state = ERR_NONE) → s.timer ≤ env.now 0 →
      (Station.MirrorLinkState cfg env s).timer = env.now 1 + cfg.MIRRORLINK_RXTX_MAX_TIME ∧
      (Station.MirrorLinkState cfg env s).log = s.log ++ [Call.startReceive]) ∧
    (¬ (s.transmittedFlag = true ∧ s.module_state = ERR_NONE) → env.now 0 < s.timer →
      (Station.MirrorLinkState cfg env s).mirrorlinkState = s.mirrorlinkState ∧
      (Station.MirrorLinkState cfg env s).timer = s.timer) ∧
    (∀ (es : List (Bool × Env × Env)) (e : Bool × Env × Env), s.timer ≤ e.2.1.now 0 →
      ∃ s' ∈ Station.ticks cfg (es ++ [e]) s,
        s'.mirrorlinkState = Station.MirrorlinkModes.MIRRORLINK_RECEIVE) := by
  have hS := Station.state_send cfg env s hmode
  refine ⟨?_, fun hdone => (hS.1 hdone).2, fun hnot hexp => (hS.2.1 hnot hexp).2, ?_,
    fun es e hexp => Station.ticks_send_reach cfg es s e hmode hexp⟩
  · constructor
    · intro hrecv
      by_contra hneither
      rw [not_or] at hneither
      have hstay := (hS.2.2 hneither.1 (by omega)).1
      rw [hstay] at hrecv
      exact absurd hrecv (by decide)
    · intro h
      by_cases hdone : s.transmittedFlag = true ∧ s.module_state = ERR_NONE
      · exact (hS.1 hdone).1
      · rcases h with h | h
        · exact absurd h hdone
        · exact (hS.2.1 hdone h).1
  · intro hnot hlt
    exact ⟨(hS.2.2 hnot hlt).1.trans hmode.symm, (hS.2.2 hnot hlt).2⟩

/-- C15 at the sample constants: the answering sample station (timer 110) at
clock 110, and a run of two ticks at clocks 102 and 110. -/
theorem C15_station_send_witness :
    (Station.MirrorLinkState sampleConfig (sampleEnvAt 110 0 0)
      Station.sampleAnswering).mirrorlinkState = Station.MirrorlinkModes.MIRRORLINK_RECEIVE ∧
    (Station.MirrorLinkState sampleConfig (sampleEnvAt 110 0 0) Station.sampleAnswering).timer
      = 120 ∧
    (∃ s' ∈ Station.ticks sampleConfig
        ([(false, sampleEnvAt 102 0 0, sampleEnvAt 102 0 0)]
          ++ [(false, sampleEnvAt 110 0 0, sampleEnvAt 110 0 0)]) Station.sampleAnswering,
      s'.mirrorlinkState = Station.MirrorlinkModes.MIRRORLINK_RECEIVE) :=
  have h := C15_station_send sampleConfig (sampleEnvAt 110 0 0) Station.sampleAnswering
    (by decide)
  ⟨h.1.2 (Or.inr (by decide)), (h.2.2.1 (by decide) (by decide)).1,
    h.2.2.2.2 [(false, sampleEnvAt 102 0 0, sampleEnvAt 102 0 0)]
      (false, sampleEnvAt 110 0 0, sampleEnvAt 110 0 0) (by decide)⟩

namespace Station

theorem setFlag_keeps (cfg : Config) (s : MIRRORLINK) :
    (setFlag cfg s).log = s.log ∧ (setFlag cfg s).command = s.command ∧
    (setFlag cfg s).flagRxTx = s.flagRxTx := by
  unfold setFlag
  split_ifs <;> simp

/-- Outside the receive state the state change leaves the command register
as it is. -/
theorem state_keeps_command (cfg : Config) (env : Env) (t : MIRRORLINK)
    (h : t.mirrorlinkState ≠ MirrorlinkModes.MIRRORLINK_RECEIVE) :
    (MirrorLinkState cfg env t).command = t.command := by
  cases hm : t.mirrorlinkState
  · simp only [MirrorLinkState, hm, MirrorLinkReceiveInit]
    split_ifs <;> rfl
  · simp only [MirrorLinkState, hm, MirrorLinkReceiveInit]
    split_ifs <;> rfl
  · simp only [MirrorLinkState, hm, MirrorLinkReceiveInit, MirrorLinkTransmitStatus]
    split_ifs <;> rfl
  · exact absurd hm h

/-- In the receive state with no packet read the state change leaves the
command register as it is. -/
theorem state_receive_idle_command (cfg : Config) (env : Env) (t : MIRRORLINK)
    (hmode : t.mirrorlinkState = MirrorlinkModes.MIRRORLINK_RECEIVE)
    (h : ¬ (t.receivedFlag = true ∧ env.readData = ERR_NONE)) :
    (MirrorLinkState cfg env t).command = t.command := by
  have hN := station_receiveStatus_none env t h
  simp only [MirrorLinkState, hmode, hN.1, Bool.false_eq_true, if_false]
  exact hN.2.2.2.1

/-- The state action does nothing or is a call of `MirrorLinkTransmit`. -/
theorem work_idle_or_transmit (cfg : Config) (env : Env) (t : MIRRORLINK) :
    MirrorLinkWork cfg env t = t ∨
    MirrorLinkWork cfg env t = MirrorLinkTransmit cfg env t := by
  cases hm : t.mirrorlinkState <;> simp only [MirrorLinkWork, hm] <;>
    first
    | exact Or.inl rfl
    | exact Or.inl trivial
    | (split_ifs
       · exact Or.inr rfl
       · exact Or.inl rfl)

end Station

/-- C16, as stated, fails. At the sample constants the station reads the add
of slot 3 with 3 programs in the store (no slot id out of step); at the end of
the state change the command register holds the received word, not 0. -/
theorem C16_register_after_dispatch_counterexample :
    Station.sampleReceived.mirrorlinkState = Station.MirrorlinkModes.MIRRORLINK_RECEIVE ∧
    Station.sampleReceived.receivedFlag = true ∧
    (sampleEnv 268435587 3).readData = ERR_NONE ∧
    ¬ Station.outOfStep sampleConfig 3 (sampleEnv 268435587 3).received ∧
    (Station.MirrorLinkState sampleConfig (sampleEnv 268435587 3) Station.sampleReceived).command
      = 268435587 ∧
    (Station.MirrorLinkState sampleConfig (sampleEnv 268435587 3) Station.sampleReceived).command
      ≠ 0 := by
  decide

/-- C16, amended (the command register after execution). The station is in
`MIRRORLINK_RECEIVE`, a packet has been received and read without error, and
the `switch` labels are pairwise different. At the end of the state change the
command register holds the received word, unless the ProgramAddDel case found
the slot id out of step, in which case it holds `ML_SYNCERROR << 27`. The
register becomes 0 in `MirrorLinkTransmit`, which first submits the octets of
the word the register holds, and nothing else writes it: for every record of
the station, `setFlag`, `MirrorLinkInit`, the state change in a mode other
than `MIRRORLINK_RECEIVE` or with no packet read without error, and a state
action that does not call `MirrorLinkTransmit` leave the register as it
is. -/
theorem C16_register_after_dispatch (cfg : Config) (env envT : Env) (s : Station.MIRRORLINK)
    (hmode : s.mirrorlinkState = Station.MirrorlinkModes.MIRRORLINK_RECEIVE)
    (hflag : s.receivedFlag = true) (hok : env.readData = ERR_NONE)
    (hlabels : cfg.caseLabels.Nodup) :
    (¬ Station.outOfStep cfg env.nprograms env.received →
      (Station.MirrorLinkState cfg env s).command = env.received) ∧
    (Station.outOfStep cfg env.nprograms env.received →
      (Station.MirrorLinkState cfg env s).command = (cfg.ML_SYNCERROR <<< 27) % 2 ^ 32) ∧
    (Station.MirrorLinkTransmit cfg envT (Station.MirrorLinkState cfg env s)).log
      = (Station.MirrorLinkState cfg env s).log
        ++ [txBytes (Station.MirrorLinkState cfg env s).command] ∧
    (Station.MirrorLinkTransmit cfg envT (Station.MirrorLinkState cfg env s)).command = 0 ∧
    (∀ (e : Env) (t : Station.MIRRORLINK),
      (Station.setFlag cfg t).command = t.command ∧
      (Station.MirrorLinkInit cfg e t).command = t.command ∧
      (t.mirrorlinkState ≠ Station.MirrorlinkModes.MIRRORLINK_RECEIVE →
        (Station.MirrorLinkState cfg e t).command = t.command) ∧
      (t.mirrorlinkState = Station.MirrorlinkModes.MIRRORLINK_RECEIVE →
        ¬ (t.receivedFlag = true ∧ e.readData = ERR_NONE) →
        (Station.MirrorLinkState cfg e t).command = t.command) ∧
      (Station.MirrorLinkWork cfg e t = t ∨
        Station.MirrorLinkWork cfg e t = Station.MirrorLinkTransmit cfg e t) ∧
      (Station.MirrorLinkTransmit cfg e t).log = t.log ++ [txBytes t.command] ∧
      (Station.MirrorLinkTransmit cfg e t).command = 0) := by
  rw [Station.state_receive_ok cfg env s hmode hflag hok]
  refine ⟨?_, ?_, rfl, rfl, fun e t => ⟨(Station.setFlag_keeps cfg t).2.1, rfl,
    Station.state_keeps_command cfg e t, Station.state_receive_idle_command cfg e t,
    Station.work_idle_or_transmit cfg e t, rfl, rfl⟩⟩
  · intro hstep
    exact (Station.execCommand_keeps cfg env
      { s with
        receivedFlag := false
        module_state := env.readData
        command := env.received
        log := s.log ++ [Call.readData, Call.startReceive]
        enableInterrupt := true }
      (received_lt env) hstep).1
  · intro hstep
    exact Station.execCommand_outOfStep cfg env
      { s with
        receivedFlag := false
        module_state := env.readData
        command := env.received
        log := s.log ++ [Call.readData, Call.startReceive]
        enableInterrupt := true }
      (labels_testStation_ne_addDel cfg hlabels) (received_lt env) hstep

/-- C16, amended, at the sample constants: the add of slot 3 read with 3
programs in the store, and with 5. -/
theorem C16_register_after_dispatch_witness :
    (Station.MirrorLinkState sampleConfig (sampleEnv 268435587 3) Station.sampleReceived).command
      = 268435587 ∧
    (Station.MirrorLinkState sampleConfig (sampleEnv 268435587 5) Station.sampleReceived).command
      = 12 * 2 ^ 27 ∧
    (Station.MirrorLinkTransmit sampleConfig (sampleEnvAt 102 0 0)
      (Station.MirrorLinkState sampleConfig (sampleEnv 268435587 3)
        Station.sampleReceived)).command = 0 :=
  ⟨(C16_register_after_dispatch sampleConfig (sampleEnv 268435587 3) (sampleEnvAt 102 0 0)
      Station.sampleReceived (by decide) (by decide) (by decide) (by decide)).1 (by decide),
    (C16_register_after_dispatch sampleConfig (sampleEnv 268435587 5) (sampleEnvAt 102 0 0)
      Station.sampleReceived (by decide) (by decide) (by decide) (by decide)).2.1 (by decide),
    (C16_register_after_dispatch sampleConfig (sampleEnv 268435587 3) (sampleEnvAt 102 0 0)
      Station.sampleReceived (by decide) (by decide) (by decide) (by decide)).2.2.2.1⟩

/-! ## The remote after a transmission that does not complete -/

namespace Remote

/-- The remote's send state at timer expiry with no successful transmission,
followed by the next state change: the first goes to `MIRRORLINK_BUFFERING`
with the buffer untouched, the second submits the top word again. -/
theorem state_send_timeout_then_buffering (cfg : Config) (e1 e2 : Env) (s : MIRRORLINK)
    (hmode : s.mirrorlinkState = MirrorlinkModes.MIRRORLINK_SEND)
    (hnot : ¬ (s.transmittedFlag = true ∧ s.module_state = ERR_NONE))
    (hexp : s.timer ≤ e1.now 0) (hhold : 0 < s.bufferedCommands)
    (hclk : e2.now 1 = e2.now 0) :
    (MirrorLinkState cfg e1 s).mirrorlinkState = MirrorlinkModes.MIRRORLINK_BUFFERING ∧
    (MirrorLinkState cfg e1 s).transmittedFlag = false ∧
    topWord (MirrorLinkState cfg e1 s) = topWord s ∧
    (MirrorLinkState cfg e1 s).log = s.log ++ [Call.startReceive] ∧
    (MirrorLinkState cfg e2 (MirrorLinkState cfg e1 s)).mirrorlinkState
      = MirrorlinkModes.MIRRORLINK_SEND ∧
    (MirrorLinkState cfg e2 (MirrorLinkState cfg e1 s)).transmittedFlag = false ∧
    (MirrorLinkState cfg e2 (MirrorLinkState cfg e1 s)).bufferedCommands
      = s.bufferedCommands ∧
    (MirrorLinkState cfg e2 (MirrorLinkState cfg e1 s)).log
      = s.log ++ [Call.startReceive, txBytes ((topWord s).getD 0)] := by
  have hpos : s.bufferedCommands > 0 := hhold
  by_cases hf : s.transmittedFlag = true
  · have hm : ¬ s.module_state = ERR_NONE := fun hm => hnot ⟨hf, hm⟩
    by_cases hr : e1.startReceive = ERR_NONE <;>
      simp [MirrorLinkState, MirrorLinkTransmitStatus, MirrorLinkReceiveInit, MirrorLinkTransmit,
        topWord, hmode, hf, hm, hr, hexp, hclk, hhold]
  · by_cases hr : e1.startReceive = ERR_NONE <;>
      simp [MirrorLinkState, MirrorLinkTransmitStatus, MirrorLinkReceiveInit, MirrorLinkTransmit,
        topWord, hmode, hf, hr, hexp, hclk, hhold]

theorem work_idle (cfg : Config) (env : Env) (s : MIRRORLINK)
    (h : s.mirrorlinkState ≠ MirrorlinkModes.MIRRORLINK_SEND ∨ s.transmittedFlag = false) :
    MirrorLinkWork cfg env s = s := by
  cases hm : s.mirrorlinkState <;> simp only [MirrorLinkWork, hm]
  rcases h with h | h
  · exact absurd hm h
  · simp [MirrorLinkTransmitStatus, h]

theorem buffCmd_mode_count (cfg : Config) (c p : Nat) (s : MIRRORLINK)
    (hK : cfg.MIRRORLINK_BUFFERLENGTH ≤ 255) :
    (MirrorLinkBuffCmd cfg c p s).mirrorlinkState = s.mirrorlinkState ∧
    s.bufferedCommands ≤ (MirrorLinkBuffCmd cfg c p s).bufferedCommands := by
  unfold MirrorLinkBuffCmd
  split_ifs
  · refine ⟨rfl, ?_⟩
    dsimp only
    omega
  · exact ⟨rfl, le_refl _⟩
  · exact ⟨rfl, le_refl _⟩

/-- The receive state without a response read: the counter. -/
theorem state_receive_silent_count (cfg : Config) (env : Env) (s : MIRRORLINK)
    (hmode : s.mirrorlinkState = MirrorlinkModes.MIRRORLINK_RECEIVE)
    (h : ¬ (s.receivedFlag = true ∧ env.readData = ERR_NONE)) :
    (MirrorLinkState cfg env s).bufferedCommands
      = (if s.timer ≤ env.now 0 then s.bufferedCommands - 1 else s.bufferedCommands) := by
  have hN := receiveStatus_none env s h
  simp only [MirrorLinkState, hmode, hN.1, Bool.false_eq_true, if_false, hN.2.1]
  split_ifs
  · simp only [(releaseTop_hold _).1, hN.2.2.2.1]
  · exact hN.2.2.2.1

/-- Outside the receive state the state change keeps the counter. -/
theorem state_count_outside_receive (cfg : Config) (env : Env) (t : MIRRORLINK)
    (h : t.mirrorlinkState ≠ MirrorlinkModes.MIRRORLINK_RECEIVE) :
    (MirrorLinkState cfg env t).bufferedCommands = t.bufferedCommands := by
  have hT := transmitStatus_hold t
  cases hm : t.mirrorlinkState
  · simp only [MirrorLinkState, hm]
    split_ifs <;> rfl
  · simp only [MirrorLinkState, hm]
    split_ifs <;> rfl
  · simp only [MirrorLinkState, hm, MirrorLinkTransmit]
    split_ifs <;> rfl
  · simp only [MirrorLinkState, hm]
    split_ifs <;> simp [receiveInit_hold, hT]
  · exact absurd hm h

end Remote

/-- C17, as stated, fails. At the sample constants the remote has submitted
the word `2 * 2 ^ 27 + 131` (octets 16, 0, 0, 131) and is in `MIRRORLINK_SEND`
with timer 110 and no transmission reported. After the ticks at clocks 200 and
201 the same octets have been submitted a second time. -/
theorem C17_remote_retry_counterexample :
    Remote.sampleSending.mirrorlinkState = Remote.MirrorlinkModes.MIRRORLINK_SEND ∧
    Remote.sampleSending.transmittedFlag = false ∧
    Remote.sampleSending.log = [Call.startTransmit 16 0 0 131] ∧
    (Remote.MirrorLinkMain sampleConfig (sampleEnvAt 201 0 0) (sampleEnvAt 201 0 0)
      (Remote.MirrorLinkMain sampleConfig (sampleEnvAt 200 0 0) (sampleEnvAt 200 0 0)
        Remote.sampleSending)).log
      = [Call.startTransmit 16 0 0 131, Call.startReceive, Call.startTransmit 16 0 0 131] := by
  decide

/-- C17, amended (a transmission that does not complete is repeated). The
remote is in `MIRRORLINK_SEND` with the word `C` on top of a non-empty buffer,
no successful end of transmission has been reported (none reported, or the
radio status is not `ERR_NONE`) and `timer ≤ now`. Then the tick
(`MirrorLinkMain`) ends in `MIRRORLINK_BUFFERING` with `C` still on top, and the
next tick, whose first two clock readings agree, ends in `MIRRORLINK_SEND`
having submitted the octets of `C` again: the calls of the two ticks are
`startReceive` and the `startTransmit` of `C`. A held word is released
(`bufferedCommands` lowered) only by the state change in `MIRRORLINK_RECEIVE`,
once a response has been read or `timer ≤ now`: for every record of the
remote, the state change in any other mode, the state change in
`MIRRORLINK_RECEIVE` with no response read and `now < timer`, the state
action and `setFlag` keep `bufferedCommands`, and a push does not lower it
when `MIRRORLINK_BUFFERLENGTH ≤ 255`; `MirrorLinkInit` sets it to 0. -/
theorem C17_remote_send_timeout_resubmits (cfg : Config) (e1 w1 e2 w2 : Env)
    (s : Remote.MIRRORLINK) (C : Nat)
    (hmode : s.mirrorlinkState = Remote.MirrorlinkModes.MIRRORLINK_SEND)
    (hnot : ¬ (s.transmittedFlag = true ∧ s.module_state = ERR_NONE))
    (hexp : s.timer ≤ e1.now 0) (hhold : 0 < s.bufferedCommands)
    (htop : Remote.topWord s = some C)
    (hclk : e2.now 1 = e2.now 0) :
    (Remote.MirrorLinkMain cfg e1 w1 s).mirrorlinkState
      = Remote.MirrorlinkModes.MIRRORLINK_BUFFERING ∧
    Remote.topWord (Remote.MirrorLinkMain cfg e1 w1 s) = some C ∧
    (Remote.MirrorLinkMain cfg e2 w2 (Remote.MirrorLinkMain cfg e1 w1 s)).mirrorlinkState
      = Remote.MirrorlinkModes.MIRRORLINK_SEND ∧
    (Remote.MirrorLinkMain cfg e2 w2 (Remote.MirrorLinkMain cfg e1 w1 s)).bufferedCommands
      = s.bufferedCommands ∧
    (Remote.MirrorLinkMain cfg e2 w2 (Remote.MirrorLinkMain cfg e1 w1 s)).log
      = s.log ++ [Call.startReceive, txBytes C] ∧
    (∀ (e : Env) (t : Remote.MIRRORLINK) (c p : Nat),
      (t.mirrorlinkState ≠ Remote.MirrorlinkModes.MIRRORLINK_RECEIVE →
        (Remote.MirrorLinkState cfg e t).bufferedCommands = t.bufferedCommands) ∧
      (t.mirrorlinkState = Remote.MirrorlinkModes.MIRRORLINK_RECEIVE →
        ¬ (t.receivedFlag = true ∧ e.readData = ERR_NONE) → e.now 0 < t.timer →
        (Remote.MirrorLinkState cfg e t).bufferedCommands = t.bufferedCommands) ∧
      (Remote.MirrorLinkWork cfg e t).bufferedCommands = t.bufferedCommands ∧
      (Remote.setFlag cfg t).bufferedCommands = t.bufferedCommands ∧
      (cfg.MIRRORLINK_BUFFERLENGTH ≤ 255 →
        t.bufferedCommands ≤ (Remote.MirrorLinkBuffCmd cfg c p t).bufferedCommands) ∧
      (Remote.MirrorLinkInit cfg e t).bufferedCommands = 0) := by
  have honly : ∀ (e : Env) (t : Remote.MIRRORLINK) (c p : Nat),
      (t.mirrorlinkState ≠ Remote.MirrorlinkModes.MIRRORLINK_RECEIVE →
        (Remote.MirrorLinkState cfg e t).bufferedCommands = t.bufferedCommands) ∧
      (t.mirrorlinkState = Remote.MirrorlinkModes.MIRRORLINK_RECEIVE →
        ¬ (t.receivedFlag = true ∧ e.readData = ERR_NONE) → e.now 0 < t.timer →
        (Remote.MirrorLinkState cfg e t).bufferedCommands = t.bufferedCommands) ∧
      (Remote.MirrorLinkWork cfg e t).bufferedCommands = t.bufferedCommands ∧
      (Remote.setFlag cfg t).bufferedCommands = t.bufferedCommands ∧
      (cfg.MIRRORLINK_BUFFERLENGTH ≤ 255 →
        t.bufferedCommands ≤ (Remote.MirrorLinkBuffCmd cfg c p t).bufferedCommands) ∧
      (Remote.MirrorLinkInit cfg e t).bufferedCommands = 0 := by
    intro e t c p
    refine ⟨Remote.state_count_outside_receive cfg e t, ?_, (Remote.work_hold cfg e t).1,
      (Remote.setFlag_hold cfg t).1, fun hK => (Remote.buffCmd_mode_count cfg c p t hK).2, rfl⟩
    intro hm hsilent hwait
    rw [Remote.state_receive_silent_count cfg e t hm hsilent, if_neg (by omega)]
  have h := Remote.state_send_timeout_then_buffering cfg e1 e2 s hmode hnot hexp hhold hclk
  have hmain1 : Remote.MirrorLinkMain cfg e1 w1 s = Remote.MirrorLinkState cfg e1 s := by
    unfold Remote.MirrorLinkMain
    exact Remote.work_idle cfg w1 _ (Or.inl (by rw [h.1]; decide))
  have hmain2 : Remote.MirrorLinkMain cfg e2 w2 (Remote.MirrorLinkState cfg e1 s)
      = Remote.MirrorLinkState cfg e2 (Remote.MirrorLinkState cfg e1 s) := by
    unfold Remote.MirrorLinkMain
    exact Remote.work_idle cfg w2 _ (Or.inr h.2.2.2.2.2.1)
  rw [hmain1, hmain2]
  refine ⟨h.1, h.2.2.1.trans htop, h.2.2.2.2.1, h.2.2.2.2.2.2.1, ?_, honly⟩
  rw [h.2.2.2.2.2.2.2, htop, Option.getD_some]

/-- C17, amended, at the sample constants: the sending sample remote, timer
110, at the ticks of clocks 200 and 201. -/
theorem C17_remote_send_timeout_resubmits_witness :
    (Remote.MirrorLinkMain sampleConfig (sampleEnvAt 200 0 0) (sampleEnvAt 200 0 0)
      Remote.sampleSending).mirrorlinkState = Remote.MirrorlinkModes.MIRRORLINK_BUFFERING ∧
    (Remote.MirrorLinkMain sampleConfig (sampleEnvAt 201 0 0) (sampleEnvAt 201 0 0)
      (Remote.MirrorLinkMain sampleConfig (sampleEnvAt 200 0 0) (sampleEnvAt 200 0 0)
        Remote.sampleSending)).log
      = Remote.sampleSending.log ++ [Call.startReceive, txBytes 268435587] :=
  have h := C17_remote_send_timeout_resubmits sampleConfig (sampleEnvAt 200 0 0)
    (sampleEnvAt 200 0 0) (sampleEnvAt 201 0 0) (sampleEnvAt 201 0 0) Remote.sampleSending
    268435587 (by decide) (by decide) (by decide) (by decide) (by decide) (by decide)
  ⟨h.1, h.2.2.2.2.1⟩

/-! ## The station's staging commands and the clock -/

theorem labels_ne (cfg : Config) (h : cfg.caseLabels.Nodup) :
    (¬ cfg.ML_PROGRAMMAINSETUP = cfg.ML_TESTSTATION ∧
      ¬ cfg.ML_PROGRAMMAINSETUP = cfg.ML_PROGRAMADDDEL) ∧
    (¬ cfg.ML_PROGRAMDAYS = cfg.ML_TESTSTATION ∧
      ¬ cfg.ML_PROGRAMDAYS = cfg.ML_PROGRAMADDDEL ∧
      ¬ cfg.ML_PROGRAMDAYS = cfg.ML_PROGRAMMAINSETUP) ∧
    (¬ cfg.ML_PROGRAMSTARTTIME = cfg.ML_TESTSTATION ∧
      ¬ cfg.ML_PROGRAMSTARTTIME = cfg.ML_PROGRAMADDDEL ∧
      ¬ cfg.ML_PROGRAMSTARTTIME = cfg.ML_PROGRAMMAINSETUP ∧
      ¬ cfg.ML_PROGRAMSTARTTIME = cfg.ML_PROGRAMDAYS) ∧
    (¬ cfg.ML_PROGRAMDURATION = cfg.ML_TESTSTATION ∧
      ¬ cfg.ML_PROGRAMDURATION = cfg.ML_PROGRAMADDDEL ∧
      ¬ cfg.ML_PROGRAMDURATION = cfg.ML_PROGRAMMAINSETUP ∧
      ¬ cfg.ML_PROGRAMDURATION = cfg.ML_PROGRAMDAYS ∧
      ¬ cfg.ML_PROGRAMDURATION = cfg.ML_PROGRAMSTARTTIME) ∧
    (¬ cfg.ML_TIMESYNC = cfg.ML_TESTSTATION ∧
      ¬ cfg.ML_TIMESYNC = cfg.ML_PROGRAMADDDEL ∧
      ¬ cfg.ML_TIMESYNC = cfg.ML_PROGRAMMAINSETUP ∧
      ¬ cfg.ML_TIMESYNC = cfg.ML_PROGRAMDAYS ∧
      ¬ cfg.ML_TIMESYNC = cfg.ML_PROGRAMSTARTTIME ∧
      ¬ cfg.ML_TIMESYNC = cfg.ML_PROGRAMDURATION) := by
  have hb : ∀ i : Nat, i < 11 → i < cfg.caseLabels.length := fun _ hi => hi
  have k : ∀ (i j : Nat) (hi : i < cfg.caseLabels.length) (hj : j < cfg.caseLabels.length),
      i ≠ j → ¬ cfg.caseLabels[i] = cfg.caseLabels[j] :=
    fun i j hi hj hij e => hij ((List.Nodup.getElem_inj_iff h).mp e)
  exact ⟨⟨k 2 0 (hb 2 (by decide)) (hb 0 (by decide)) (by decide),
      k 2 1 (hb 2 (by decide)) (hb 1 (by decide)) (by decide)⟩,
    ⟨k 3 0 (hb 3 (by decide)) (hb 0 (by decide)) (by decide),
      k 3 1 (hb 3 (by decide)) (hb 1 (by decide)) (by decide),
      k 3 2 (hb 3 (by decide)) (hb 2 (by decide)) (by decide)⟩,
    ⟨k 4 0 (hb 4 (by decide)) (hb 0 (by decide)) (by decide),
      k 4 1 (hb 4 (by decide)) (hb 1 (by decide)) (by decide),
      k 4 2 (hb 4 (by decide)) (hb 2 (by decide)) (by decide),
      k 4 3 (hb 4 (by decide)) (hb 3 (by decide)) (by decide)⟩,
    ⟨k 5 0 (hb 5 (by decide)) (hb 0 (by decide)) (by decide),
      k 5 1 (hb 5 (by decide)) (hb 1 (by decide)) (by decide),
      k 5 2 (hb 5 (by decide)) (hb 2 (by decide)) (by decide),
      k 5 3 (hb 5 (by decide)) (hb 3 (by decide)) (by decide),
      k 5 4 (hb 5 (by decide)) (hb 4 (by decide)) (by decide)⟩,
    ⟨k 6 0 (hb 6 (by decide)) (hb 0 (by decide)) (by decide),
      k 6 1 (hb 6 (by decide)) (hb 1 (by decide)) (by decide),
      k 6 2 (hb 6 (by decide)) (hb 2 (by decide)) (by decide),
      k 6 3 (hb 6 (by decide)) (hb 3 (by decide)) (by decide),
      k 6 4 (hb 6 (by decide)) (hb 4 (by decide)) (by decide),
      k 6 5 (hb 6 (by decide)) (hb 5 (by decide)) (by decide)⟩⟩

namespace Station

/-- Execution of a ProgramMainSetup word, written out. -/
theorem execCommand_mainSetup (cfg : Config) (env : Env) (t : MIRRORLINK)
    (hne : t.command ≠ 0) (hop : t.command >>> 27 = cfg.ML_PROGRAMMAINSETUP)
    (hlabels : cfg.caseLabels.Nodup) (h32 : t.command < 2 ^ 32) :
    execCommand cfg env t =
      { t with
        mirrorlinkProg :=
          { t.mirrorlinkProg with
            enabled := 0x1 &&& ((t.command &&& 0x7FFFFFF) >>> 7)
            use_weather := 0x1 &&& ((t.command &&& 0x7FFFFFF) >>> 8)
            oddeven := 0x3 &&& ((t.command &&& 0x7FFFFFF) >>> 9)
            name := toString (0x7F &&& (t.command &&& 0x7FFFFFF)) }
        log := t.log ++ [Call.change_program_data
          ((0x7F &&& (t.command &&& 0x7FFFFFF) : Nat) : Int) env.nprograms
          { t.mirrorlinkProg with
            enabled := 0x1 &&& ((t.command &&& 0x7FFFFFF) >>> 7)
            use_weather := 0x1 &&& ((t.command &&& 0x7FFFFFF) >>> 8)
            oddeven := 0x3 &&& ((t.command &&& 0x7FFFFFF) >>> 9)
            name := toString (0x7F &&& (t.command &&& 0x7FFFFFF)) }] } := by
  have hl := (labels_ne cfg hlabels).1
  have hlt : cfg.ML_PROGRAMMAINSETUP < 32 := by
    rw [← hop, Nat.shiftRight_eq_div_pow]; omega
  have hmod : cfg.ML_PROGRAMMAINSETUP % 256 = cfg.ML_PROGRAMMAINSETUP :=
    Nat.mod_eq_of_lt (by omega)
  simp only [execCommand, hne, ne_eq, not_false_eq_true, if_true, hop, hl.1, hl.2, if_false,
    MirrorLinkGetCmd, hmod]

/-- Execution of a ProgramDays word, written out. -/
theorem execCommand_days (cfg : Config) (env : Env) (t : MIRRORLINK)
    (hne : t.command ≠ 0) (hop : t.command >>> 27 = cfg.ML_PROGRAMDAYS)
    (hlabels : cfg.caseLabels.Nodup) (h32 : t.command < 2 ^ 32) :
    execCommand cfg env t =
      { t with
        mirrorlinkProg :=
          { t.mirrorlinkProg with
            days := (t.mirrorlinkProg.days.set 0
              (0xFF &&& ((t.command &&& 0x7FFFFFF) >>> 15))).set 1
              (0xFF &&& ((t.command &&& 0x7FFFFFF) >>> 7)) } } := by
  have hl := (labels_ne cfg hlabels).2.1
  have hlt : cfg.ML_PROGRAMDAYS < 32 := by
    rw [← hop, Nat.shiftRight_eq_div_pow]; omega
  have hmod : cfg.ML_PROGRAMDAYS % 256 = cfg.ML_PROGRAMDAYS := Nat.mod_eq_of_lt (by omega)
  simp only [execCommand, hne, ne_eq, not_false_eq_true, if_true, hop, hl.1, hl.2.1, hl.2.2,
    if_false, MirrorLinkGetCmd, hmod]

/-- Execution of a ProgramStartTime word, written out. -/
theorem execCommand_startTime (cfg : Config) (env : Env) (t : MIRRORLINK)
    (hne : t.command ≠ 0) (hop : t.command >>> 27 = cfg.ML_PROGRAMSTARTTIME)
    (hlabels : cfg.caseLabels.Nodup) (h32 : t.command < 2 ^ 32) :
    execCommand cfg env t =
      { t with
        mirrorlinkProg :=
          { t.mirrorlinkProg with
            starttimes := t.mirrorlinkProg.starttimes.set
              (((t.command &&& 0x7FFFFFF) >>> 7) &&& 0x3)
              (toInt16 (((t.command &&& 0x7FFFFFF) >>> 9) &&& 0xFFFF))
            starttime_type := ((t.command &&& 0x7FFFFFF) >>> 25) &&& 0x1 }
        outside :=
          if ((t.command &&& 0x7FFFFFF) >>> 7) &&& 0x3 < t.mirrorlinkProg.starttimes.length then
            t.outside
          else t.outside ++
            [OutsideStore.starttimes (((t.command &&& 0x7FFFFFF) >>> 7) &&& 0x3)
              (toInt16 (((t.command &&& 0x7FFFFFF) >>> 9) &&& 0xFFFF))] } := by
  have hl := (labels_ne cfg hlabels).2.2.1
  have hlt : cfg.ML_PROGRAMSTARTTIME < 32 := by
    rw [← hop, Nat.shiftRight_eq_div_pow]; omega
  have hmod : cfg.ML_PROGRAMSTARTTIME % 256 = cfg.ML_PROGRAMSTARTTIME :=
    Nat.mod_eq_of_lt (by omega)
  simp only [execCommand, hne, ne_eq, not_false_eq_true, if_true, hop, hl.1, hl.2.1, hl.2.2.1,
    hl.2.2.2, if_false, MirrorLinkGetCmd, hmod]

/-- Execution of a ProgramDuration word, written out. -/
theorem execCommand_duration (cfg : Config) (env : Env) (t : MIRRORLINK)
    (hne : t.command ≠ 0) (hop : t.command >>> 27 = cfg.ML_PROGRAMDURATION)
    (hlabels : cfg.caseLabels.Nodup) (h32 : t.command < 2 ^ 32) :
    execCommand cfg env t =
      { t with
        mirrorlinkProg :=
          { t.mirrorlinkProg with
            durations := t.mirrorlinkProg.durations.set
              (((t.command &&& 0x7FFFFFF) >>> 7) &&& 0xFF)
              ((60 * (((t.command &&& 0x7FFFFFF) >>> 15) &&& 0x7FF)) % 65536) }
        outside :=
          if ((t.command &&& 0x7FFFFFF) >>> 7) &&& 0xFF < t.mirrorlinkProg.durations.length then
            t.outside
          else t.outside ++
            [OutsideStore.durations (((t.command &&& 0x7FFFFFF) >>> 7) &&& 0xFF)
              ((60 * (((t.command &&& 0x7FFFFFF) >>> 15) &&& 0x7FF)) % 65536)] } := by
  have hl := (labels_ne cfg hlabels).2.2.2.1
  have hlt : cfg.ML_PROGRAMDURATION < 32 := by
    rw [← hop, Nat.shiftRight_eq_div_pow]; omega
  have hmod : cfg.ML_PROGRAMDURATION % 256 = cfg.ML_PROGRAMDURATION :=
    Nat.mod_eq_of_lt (by omega)
  simp only [execCommand, hne, ne_eq, not_false_eq_true, if_true, hop, hl.1, hl.2.1, hl.2.2.1,
    hl.2.2.2.1, hl.2.2.2.2, if_false, MirrorLinkGetCmd, hmod]

/-- Execution of a TimeSync word, written out. -/
theorem execCommand_timeSync (cfg : Config) (env : Env) (t : MIRRORLINK)
    (hne : t.command ≠ 0) (hop : t.command >>> 27 = cfg.ML_TIMESYNC)
    (hlabels : cfg.caseLabels.Nodup) (h32 : t.command < 2 ^ 32) :
    execCommand cfg env t =
      { t with
        log := t.log ++
          [Call.setTime ((60 * (0x7FFFFFF &&& (t.command &&& 0x7FFFFFF))) % 2 ^ 32),
            Call.RTC_set ((60 * (0x7FFFFFF &&& (t.command &&& 0x7FFFFFF))) % 2 ^ 32)] } := by
  have hl := (labels_ne cfg hlabels).2.2.2.2
  have hlt : cfg.ML_TIMESYNC < 32 := by
    rw [← hop, Nat.shiftRight_eq_div_pow]; omega
  have hmod : cfg.ML_TIMESYNC % 256 = cfg.ML_TIMESYNC := Nat.mod_eq_of_lt (by omega)
  simp only [execCommand, hne, ne_eq, not_false_eq_true, if_true, hop, hl.1, hl.2.1, hl.2.2.1,
    hl.2.2.2.1, hl.2.2.2.2.1, hl.2.2.2.2.2, if_false, MirrorLinkGetCmd, hmod]

end Station

theorem days_mask (p : Nat) :
    (0xFF &&& (p >>> 15)) * 256 + (0xFF &&& (p >>> 7)) = (p >>> 7) &&& 0xFFFF := by
  have h16 : (p >>> 7) &&& 0xFFFF = (p >>> 7) % 2 ^ 16 :=
    Nat.and_pow_two_sub_one_eq_mod (p >>> 7) 16
  rw [h16, and_0xFF, and_0xFF]
  simp only [Nat.shiftRight_eq_div_pow]
  omega

theorem toInt16_pattern (p : Nat) :
    Station.toInt16 (p &&& 0xFFFF) % 65536 = ((p &&& 0xFFFF : Nat) : Int) := by
  have h16 : p &&& 0xFFFF = p % 2 ^ 16 := Nat.and_pow_two_sub_one_eq_mod p 16
  have hlt : p % 2 ^ 16 < 65536 := Nat.mod_lt _ (by decide)
  rw [h16]
  unfold Station.toInt16
  split <;> omega

/-- Commands that only touch the staging program. The station is in
`MIRRORLINK_RECEIVE`, a packet has been received and read without error, its
word is not zero and has payload `p`, and the `switch` labels are pairwise
different. For each of the opcodes `ML_PROGRAMDAYS`, `ML_PROGRAMSTARTTIME` and
`ML_PROGRAMDURATION` the calls of the state change are `readData` and
`startReceive` only (no store call) and the command register holds the
received word. For ProgramDays, `days[0]` is bits 15-22 and `days[1]` is bits
7-14 of `p`, which together are the 16 bits 7-22, and no store is made outside
an array. For ProgramStartTime, `starttime_type` is bit 25 and, with `k` =
bits 7-8 inside `starttimes[]`, `starttimes[k]` is bits 9-24 read as `int16_t`
(the same 16 bits), every other start time is kept and no store is made
outside an array. For ProgramDuration with `sid` = bits 7-14: inside
`durations[]` the entry `durations[sid]` is the only one written and no store
is made outside an array; at or past the end of `durations[]` no entry
changes and the store is one outside the array. -/
theorem staging_only_inside (cfg : Config) (env : Env) (s : Station.MIRRORLINK) (p : Nat)
    (hmode : s.mirrorlinkState = Station.MirrorlinkModes.MIRRORLINK_RECEIVE)
    (hflag : s.receivedFlag = true) (hok : env.readData = ERR_NONE)
    (hlabels : cfg.caseLabels.Nodup)
    (hne : env.received ≠ 0) (hp : env.received &&& 0x7FFFFFF = p) :
    (env.received >>> 27 = cfg.ML_PROGRAMDAYS →
      (Station.MirrorLinkState cfg env s).log = s.log ++ [Call.readData, Call.startReceive] ∧
      (Station.MirrorLinkState cfg env s).command = env.received ∧
      (Station.MirrorLinkState cfg env s).mirrorlinkProg =
        { s.mirrorlinkProg with
          days := (s.mirrorlinkProg.days.set 0 (0xFF &&& (p >>> 15))).set 1
            (0xFF &&& (p >>> 7)) } ∧
      (0xFF &&& (p >>> 15)) * 256 + (0xFF &&& (p >>> 7)) = (p >>> 7) &&& 0xFFFF ∧
      (Station.MirrorLinkState cfg env s).outside = s.outside) ∧
    (env.received >>> 27 = cfg.ML_PROGRAMSTARTTIME →
      (Station.MirrorLinkState cfg env s).log = s.log ++ [Call.readData, Call.startReceive] ∧
      (Station.MirrorLinkState cfg env s).command = env.received ∧
      (Station.MirrorLinkState cfg env s).mirrorlinkProg =
        { s.mirrorlinkProg with
          starttimes := s.mirrorlinkProg.starttimes.set ((p >>> 7) &&& 0x3)
            (Station.toInt16 ((p >>> 9) &&& 0xFFFF))
          starttime_type := (p >>> 25) &&& 0x1 } ∧
      (∀ j : Nat, j ≠ (p >>> 7) &&& 0x3 →
        (Station.MirrorLinkState cfg env s).mirrorlinkProg.starttimes[j]?
          = s.mirrorlinkProg.starttimes[j]?) ∧
      ((p >>> 7) &&& 0x3 < s.mirrorlinkProg.starttimes.length →
        (Station.MirrorLinkState cfg env s).mirrorlinkProg.starttimes[(p >>> 7) &&& 0x3]?
          = some (Station.toInt16 ((p >>> 9) &&& 0xFFFF))) ∧
      Station.toInt16 ((p >>> 9) &&& 0xFFFF) % 65536 = (((p >>> 9) &&& 0xFFFF : Nat) : Int) ∧
      ((p >>> 7) &&& 0x3 < s.mirrorlinkProg.starttimes.length →
        (Station.MirrorLinkState cfg env s).outside = s.outside)) ∧
    (env.received >>> 27 = cfg.ML_PROGRAMDURATION →
      (Station.MirrorLinkState cfg env s).log = s.log ++ [Call.readData, Call.startReceive] ∧
      (Station.MirrorLinkState cfg env s).command = env.received ∧
      (Station.MirrorLinkState cfg env s).mirrorlinkProg =
        { s.mirrorlinkProg with
          durations := s.mirrorlinkProg.durations.set ((p >>> 7) &&& 0xFF)
            ((60 * ((p >>> 15) &&& 0x7FF)) % 65536) } ∧
      (∀ j : Nat, j ≠ (p >>> 7) &&& 0xFF →
        (Station.MirrorLinkState cfg env s).mirrorlinkProg.durations[j]?
          = s.mirrorlinkProg.durations[j]?) ∧
      ((p >>> 7) &&& 0xFF < s.mirrorlinkProg.durations.length →
        (Station.MirrorLinkState cfg env s).mirrorlinkProg.durations[(p >>> 7) &&& 0xFF]?
          = some ((60 * ((p >>> 15) &&& 0x7FF)) % 65536)) ∧
      ((p >>> 7) &&& 0xFF < s.mirrorlinkProg.durations.length →
        (Station.MirrorLinkState cfg env s).outside = s.outside) ∧
      (s.mirrorlinkProg.durations.length ≤ (p >>> 7) &&& 0xFF →
        (Station.MirrorLinkState cfg env s).mirrorlinkProg.durations
          = s.mirrorlinkProg.durations ∧
        (Station.MirrorLinkState cfg env s).outside = s.outside ++
          [Station.OutsideStore.durations ((p >>> 7) &&& 0xFF)
            ((60 * ((p >>> 15) &&& 0x7FF)) % 65536)])) := by
  have hstate := Station.state_receive_ok cfg env s hmode hflag hok
  refine ⟨?_, ?_, ?_⟩
  · intro hop
    have hexec := Station.execCommand_days cfg env
      { s with
      receivedFlag := false
      module_state := env.readData
      command := env.received
      log := s.log ++ [Call.readData, Call.startReceive]
      enableInterrupt := true }
      hne hop hlabels (received_lt env)
    rw [hstate, hexec]
    dsimp only
    rw [hp]
    exact ⟨rfl, rfl, rfl, days_mask p, rfl⟩
  · intro hop
    have hexec := Station.execCommand_startTime cfg env
      { s with
      receivedFlag := false
      module_state := env.readData
      command := env.received
      log := s.log ++ [Call.readData, Call.startReceive]
      enableInterrupt := true }
      hne hop hlabels (received_lt env)
    rw [hstate, hexec]
    dsimp only
    rw [hp]
    refine ⟨rfl, rfl, rfl, ?_, ?_, toInt16_pattern _, fun hk => if_pos hk⟩
    · intro j hj
      exact List.getElem?_set_ne (Ne.symm hj)
    · intro hk
      exact List.getElem?_set_self hk
  · intro hop
    have hexec := Station.execCommand_duration cfg env
      { s with
      receivedFlag := false
      module_state := env.readData
      command := env.received
      log := s.log ++ [Call.readData, Call.startReceive]
      enableInterrupt := true }
      hne hop hlabels (received_lt env)
    rw [hstate, hexec]
    dsimp only
    rw [hp]
    refine ⟨rfl, rfl, rfl, ?_, ?_, fun hk => if_pos hk, ?_⟩
    · intro j hj
      exact List.getElem?_set_ne (Ne.symm hj)
    · intro hk
      exact List.getElem?_set_self hk
    · intro hk
      exact ⟨List.set_eq_of_length_le hk, if_neg (by omega)⟩

/-- The staging commands at the sample constants: a ProgramDays word with day
mask `0xABCD`, a ProgramStartTime word with start time 360 in slot 2 and type
1, and a ProgramDuration word with 10 minutes for station 3, each read by the
sample station. -/
theorem staging_only_inside_sample :
    (Station.MirrorLinkState sampleConfig (sampleEnv (4 * 2 ^ 27 + 5629569) 3)
      Station.sampleReceived).mirrorlinkProg.days = [171, 205] ∧
    (Station.MirrorLinkState sampleConfig (sampleEnv (5 * 2 ^ 27 + 33739009) 3)
      Station.sampleReceived).mirrorlinkProg.starttimes = [0, 0, 360, 0] ∧
    (Station.MirrorLinkState sampleConfig (sampleEnv (6 * 2 ^ 27 + 328065) 3)
      Station.sampleReceived).mirrorlinkProg.durations = [0, 0, 0, 600, 0, 0, 0, 0] ∧
    (Station.MirrorLinkState sampleConfig (sampleEnv (6 * 2 ^ 27 + 328065) 3)
      Station.sampleReceived).log = Station.sampleReceived.log ++
        [Call.readData, Call.startReceive] :=
  have hd := (staging_only_inside sampleConfig (sampleEnv (4 * 2 ^ 27 + 5629569) 3)
    Station.sampleReceived 5629569 (by decide) (by decide) (by decide) (by decide) (by decide)
    (by decide)).1 (by decide)
  have hs := (staging_only_inside sampleConfig (sampleEnv (5 * 2 ^ 27 + 33739009) 3)
    Station.sampleReceived 33739009 (by decide) (by decide) (by decide) (by decide) (by decide)
    (by decide)).2.1 (by decide)
  have hu := (staging_only_inside sampleConfig (sampleEnv (6 * 2 ^ 27 + 328065) 3)
    Station.sampleReceived 328065 (by decide) (by decide) (by decide) (by decide) (by decide)
    (by decide)).2.2 (by decide)
  ⟨congrArg ProgramStruct.days hd.2.2.1, congrArg ProgramStruct.starttimes hs.2.2.1,
    congrArg ProgramStruct.durations hu.2.2.1, hu.1⟩

/-- C18 fails on the code for a station id at or past the end of
`durations[]`. At the sample constants `MAX_NUM_STATIONS` is 8, so the array
has the entries 0 to 7. The station reads the ProgramDuration word 805635073
(octets 48, 5, 4, 1: slot 1, station id 8, 10 minutes). The state change makes
the store `durations[8] = 600`: no entry of the array changes and the store
goes outside the array, where the claim has the dispatch change
`durations[sid]` and nothing else. -/
theorem C18_duration_store_outside :
    Station.sampleReceived.mirrorlinkState = Station.MirrorlinkModes.MIRRORLINK_RECEIVE ∧
    Station.sampleReceived.receivedFlag = true ∧
    (sampleEnv 805635073 3).readData = ERR_NONE ∧
    (sampleEnv 805635073 3).received = 805635073 ∧
    (sampleEnv 805635073 3).received >>> 27 = sampleConfig.ML_PROGRAMDURATION ∧
    (((sampleEnv 805635073 3).received &&& 0x7FFFFFF) >>> 7) &&& 0xFF = 8 ∧
    Station.sampleReceived.mirrorlinkProg.durations.length = sampleConfig.MAX_NUM_STATIONS ∧
    sampleConfig.MAX_NUM_STATIONS = 8 ∧
    (Station.MirrorLinkState sampleConfig (sampleEnv 805635073 3)
      Station.sampleReceived).mirrorlinkProg.durations
      = Station.sampleReceived.mirrorlinkProg.durations ∧
    Station.sampleReceived.outside = [] ∧
    (Station.MirrorLinkState sampleConfig (sampleEnv 805635073 3)
      Station.sampleReceived).outside = [Station.OutsideStore.durations 8 600] := by
  decide

/-- C19 (ProgramMainSetup). The station is in `MIRRORLINK_RECEIVE`, a packet
has been received and read without error, its word is not zero, has opcode
`ML_PROGRAMMAINSETUP` and payload `p`, and the `switch` labels are pairwise
different. Whatever `n = pd.nprograms` is, the state change sets the staging
`enabled` to bit 7, `use_weather` to bit 8 and `oddeven` to bits 9-10 of `p`
(and the name to the slot number), keeps `type`, `days`, the start times,
`starttime_type` and the durations, then calls
`change_program_data(slot, n, staging)` once with `slot` = bits 0-6 and the
updated staging program; it makes no other store call and the command
register keeps the received word. -/
theorem C19_main_setup (cfg : Config) (env : Env) (s : Station.MIRRORLINK) (p : Nat)
    (hmode : s.mirrorlinkState = Station.MirrorlinkModes.MIRRORLINK_RECEIVE)
    (hflag : s.receivedFlag = true) (hok : env.readData = ERR_NONE)
    (hlabels : cfg.caseLabels.Nodup)
    (hne : env.received ≠ 0) (hp : env.received &&& 0x7FFFFFF = p)
    (hop : env.received >>> 27 = cfg.ML_PROGRAMMAINSETUP) :
    (Station.MirrorLinkState cfg env s).mirrorlinkProg =
      { s.mirrorlinkProg with
        enabled := 0x1 &&& (p >>> 7)
        use_weather := 0x1 &&& (p >>> 8)
        oddeven := 0x3 &&& (p >>> 9)
        name := toString (0x7F &&& p) } ∧
    (Station.MirrorLinkState cfg env s).log = s.log ++
      [Call.readData, Call.startReceive,
        Call.change_program_data ((0x7F &&& p : Nat) : Int) env.nprograms
          (Station.MirrorLinkState cfg env s).mirrorlinkProg] ∧
    (Station.MirrorLinkState cfg env s).command = env.received ∧
    (Station.MirrorLinkState cfg env s).mirrorlinkProg.type = s.mirrorlinkProg.type ∧
    (Station.MirrorLinkState cfg env s).mirrorlinkProg.days = s.mirrorlinkProg.days ∧
    (Station.MirrorLinkState cfg env s).mirrorlinkProg.starttimes
      = s.mirrorlinkProg.starttimes ∧
    (Station.MirrorLinkState cfg env s).mirrorlinkProg.starttime_type
      = s.mirrorlinkProg.starttime_type ∧
    (Station.MirrorLinkState cfg env s).mirrorlinkProg.durations
      = s.mirrorlinkProg.durations := by
  have hexec := Station.execCommand_mainSetup cfg env
    { s with
      receivedFlag := false
      module_state := env.readData
      command := env.received
      log := s.log ++ [Call.readData, Call.startReceive]
      enableInterrupt := true }
    hne hop hlabels (received_lt env)
  rw [Station.state_receive_ok cfg env s hmode hflag hok, hexec]
  dsimp only
  rw [hp]
  exact ⟨rfl, by simp, rfl, rfl, rfl, rfl, rfl, rfl⟩

/-- C19 at the sample constants: a ProgramMainSetup word for slot 2 with
`enabled` 1, `use_weather` 0 and `oddeven` 2, read with 5 programs in the
store. -/
theorem C19_main_setup_witness :
    (Station.MirrorLinkState sampleConfig (sampleEnv (3 * 2 ^ 27 + 1154) 5)
      Station.sampleReceived).mirrorlinkProg
      = { Station.sampleReceived.mirrorlinkProg with
          enabled := 1, use_weather := 0, oddeven := 2, name := "2" } ∧
    (Station.MirrorLinkState sampleConfig (sampleEnv (3 * 2 ^ 27 + 1154) 5)
      Station.sampleReceived).log
      = Station.sampleReceived.log ++
        [Call.readData, Call.startReceive,
          Call.change_program_data 2 5
            (Station.MirrorLinkState sampleConfig (sampleEnv (3 * 2 ^ 27 + 1154) 5)
              Station.sampleReceived).mirrorlinkProg] :=
  have h := C19_main_setup sampleConfig (sampleEnv (3 * 2 ^ 27 + 1154) 5)
    Station.sampleReceived 1154 (by decide) (by decide) (by decide) (by decide) (by decide)
    (by decide) (by decide)
  ⟨h.1, h.2.1⟩

theorem and_mask_idem (w : Nat) : 0x7FFFFFF &&& (w &&& 0x7FFFFFF) = w &&& 0x7FFFFFF := by
  rw [Nat.and_comm, Nat.and_assoc, Nat.and_self]

/-- C20 (TimeSync). The station is in `MIRRORLINK_RECEIVE`, a packet has been
received and read without error, its word is not zero, has opcode
`ML_TIMESYNC` and payload `m` (a timestamp in minutes), and the `switch` labels
are pairwise different. Then `m < 2 ^ 27`, and the state change calls
`setTime` and `RTC.set`, once each and in that order, with `60 * m` computed
in 32-bit unsigned arithmetic, that is `(60 * m) mod 2 ^ 32`; this is `60 * m`
itself whenever `m ≤ 71582788`. -/
theorem C20_time_sync (cfg : Config) (env : Env) (s : Station.MIRRORLINK) (m : Nat)
    (hmode : s.mirrorlinkState = Station.MirrorlinkModes.MIRRORLINK_RECEIVE)
    (hflag : s.receivedFlag = true) (hok : env.readData = ERR_NONE)
    (hlabels : cfg.caseLabels.Nodup)
    (hne : env.received ≠ 0) (hm : env.received &&& 0x7FFFFFF = m)
    (hop : env.received >>> 27 = cfg.ML_TIMESYNC) :
    m < 2 ^ 27 ∧
    (Station.MirrorLinkState cfg env s).log = s.log ++
      [Call.readData, Call.startReceive,
        Call.setTime ((60 * m) % 2 ^ 32), Call.RTC_set ((60 * m) % 2 ^ 32)] ∧
    (m ≤ 71582788 → (60 * m) % 2 ^ 32 = 60 * m) := by
  have hexec := Station.execCommand_timeSync cfg env
    { s with
      receivedFlag := false
      module_state := env.readData
      command := env.received
      log := s.log ++ [Call.readData, Call.startReceive]
      enableInterrupt := true }
    hne hop hlabels (received_lt env)
  have hlt : m < 2 ^ 27 := by
    rw [← hm, and_0x7FFFFFF]
    exact Nat.mod_lt _ (by decide)
  refine ⟨hlt, ?_, fun hsmall => Nat.mod_eq_of_lt (by omega)⟩
  rw [Station.state_receive_ok cfg env s hmode hflag hok, hexec]
  dsimp only
  rw [and_mask_idem, hm]
  simp

/-- C20 at the sample constants: a TimeSync word carrying 28000000 minutes. -/
theorem C20_time_sync_witness :
    (Station.MirrorLinkState sampleConfig (sampleEnv (7 * 2 ^ 27 + 28000000) 3)
      Station.sampleReceived).log
      = Station.sampleReceived.log ++
        [Call.readData, Call.startReceive, Call.setTime 1680000000,
          Call.RTC_set 1680000000] :=
  (C20_time_sync sampleConfig (sampleEnv (7 * 2 ^ 27 + 28000000) 3)
    Station.sampleReceived 28000000 (by decide) (by decide) (by decide) (by decide) (by decide)
    (by decide) (by decide)).2.1

/-! ## Opcodes without a case, and the remote's buffering state -/

namespace Station

/-- Execution of a word whose opcode is none of the `switch` labels changes
nothing. -/
theorem execCommand_unlisted (cfg : Config) (env : Env) (t : MIRRORLINK)
    (h : t.command >>> 27 ∉ cfg.caseLabels) : execCommand cfg env t = t := by
  simp only [Config.caseLabels, List.mem_cons, List.mem_singleton, List.not_mem_nil, or_false,
    not_or] at h
  simp only [execCommand, h.1, h.2.1, h.2.2.1, h.2.2.2.1, h.2.2.2.2.1, h.2.2.2.2.2.1,
    h.2.2.2.2.2.2.1, h.2.2.2.2.2.2.2.1, h.2.2.2.2.2.2.2.2.1, h.2.2.2.2.2.2.2.2.2.1,
    h.2.2.2.2.2.2.2.2.2.2, if_false, ite_self]

end Station

namespace Remote

theorem buffCmd_unlisted (cfg : Config) (cmd payload : Nat) (r : MIRRORLINK)
    (h : cmd % 256 ∉ cfg.caseLabels) : MirrorLinkBuffCmd cfg cmd payload r = r := by
  have hc : isBuffCmd cfg (cmd % 256) = false := by
    simpa [isBuffCmd] using h
  simp only [MirrorLinkBuffCmd, hc, Bool.false_eq_true, if_false]

end Remote

/-- C21 (opcodes without a case). On the station in `MIRRORLINK_RECEIVE` with
a packet received and read without error: when the top five bits of the word
are none of the labels of the `switch` (in particular when they are
`ML_SYNCERROR`, which is not a label), the calls of the state change are
`readData` and `startReceive` only, the staging program and the reboot request
are unchanged, and the command register holds the received word. On the
remote: for a `cmd` that is none of the labels of the `switch` of
`MirrorLinkBuffCmd` (in particular `ML_SYNCERROR`), the push returns the record
as it was, so the counter and every buffer entry are unchanged. -/
theorem C21_unrecognised_noop (cfg : Config) (env : Env) (s : Station.MIRRORLINK)
    (r : Remote.MIRRORLINK) (cmd payload : Nat)
    (hmode : s.mirrorlinkState = Station.MirrorlinkModes.MIRRORLINK_RECEIVE)
    (hflag : s.receivedFlag = true) (hok : env.readData = ERR_NONE) :
    (env.received >>> 27 ∉ cfg.caseLabels →
      (Station.MirrorLinkState cfg env s).log = s.log ++ [Call.readData, Call.startReceive] ∧
      (Station.MirrorLinkState cfg env s).mirrorlinkProg = s.mirrorlinkProg ∧
      (Station.MirrorLinkState cfg env s).rebootRequest = s.rebootRequest ∧
      (Station.MirrorLinkState cfg env s).command = env.received) ∧
    (cfg.ML_SYNCERROR ∉ cfg.caseLabels → env.received >>> 27 = cfg.ML_SYNCERROR →
      (Station.MirrorLinkState cfg env s).log = s.log ++ [Call.readData, Call.startReceive] ∧
      (Station.MirrorLinkState cfg env s).mirrorlinkProg = s.mirrorlinkProg ∧
      (Station.MirrorLinkState cfg env s).rebootRequest = s.rebootRequest ∧
      (Station.MirrorLinkState cfg env s).command = env.received) ∧
    (cmd % 256 ∉ cfg.caseLabels → Remote.MirrorLinkBuffCmd cfg cmd payload r = r) ∧
    (cfg.ML_SYNCERROR % 256 ∉ cfg.caseLabels →
      Remote.MirrorLinkBuffCmd cfg cfg.ML_SYNCERROR payload r = r) := by
  have hstation : env.received >>> 27 ∉ cfg.caseLabels →
      (Station.MirrorLinkState cfg env s).log = s.log ++ [Call.readData, Call.startReceive] ∧
      (Station.MirrorLinkState cfg env s).mirrorlinkProg = s.mirrorlinkProg ∧
      (Station.MirrorLinkState cfg env s).rebootRequest = s.rebootRequest ∧
      (Station.MirrorLinkState cfg env s).command = env.received := by
    intro h
    have hexec := Station.execCommand_unlisted cfg env
      { s with
        receivedFlag := false
        module_state := env.readData
        command := env.received
        log := s.log ++ [Call.readData, Call.startReceive]
        enableInterrupt := true }
      h
    rw [Station.state_receive_ok cfg env s hmode hflag hok, hexec]
    exact ⟨rfl, rfl, rfl, rfl⟩
  refine ⟨hstation, ?_, Remote.buffCmd_unlisted cfg cmd payload r,
    Remote.buffCmd_unlisted cfg cfg.ML_SYNCERROR payload r⟩
  intro hsync hop
  exact hstation (by rw [hop]; exact hsync)

/-- C21 at the sample constants: the station reads a word with opcode 12
(`ML_SYNCERROR`) and payload 5; the remote is asked to push command 12. -/
theorem C21_unrecognised_noop_witness :
    ((Station.MirrorLinkState sampleConfig (sampleEnv (12 * 2 ^ 27 + 5) 3)
        Station.sampleReceived).log
        = Station.sampleReceived.log ++ [Call.readData, Call.startReceive] ∧
      (Station.MirrorLinkState sampleConfig (sampleEnv (12 * 2 ^ 27 + 5) 3)
        Station.sampleReceived).command = 12 * 2 ^ 27 + 5) ∧
    Remote.MirrorLinkBuffCmd sampleConfig 12 7 Remote.sampleBuffering = Remote.sampleBuffering :=
  have h := C21_unrecognised_noop sampleConfig (sampleEnv (12 * 2 ^ 27 + 5) 3)
    Station.sampleReceived Remote.sampleBuffering 12 7 (by decide) (by decide) (by decide)
  ⟨⟨(h.1 (by decide)).1, (h.1 (by decide)).2.2.2⟩, h.2.2.1 (by decide)⟩

namespace Remote

/-- The buffering state, written out: the timer is set to the first clock
reading, and the word on top is submitted when the second reading equals it
and the buffer is not empty. -/
theorem state_buffering (cfg : Config) (env : Env) (s : MIRRORLINK)
    (hmode : s.mirrorlinkState = MirrorlinkModes.MIRRORLINK_BUFFERING) :
    MirrorLinkState cfg env s =
      if env.now 0 = env.now 1 ∧ s.bufferedCommands > 0 then
        { s with
          timer := env.now 2 + cfg.MIRRORLINK_RXTX_MAX_TIME
          mirrorlinkState := MirrorlinkModes.MIRRORLINK_SEND
          module_state := env.startTransmit
          flagRxTx := cfg.ML_TRANSMITTING % 2
          log := s.log ++ [txBytes ((topWord s).getD 0)] }
      else { s with timer := env.now 0 } := by
  simp only [MirrorLinkState, hmode, MirrorLinkTransmit, topWord]

end Remote

/-- C22 (the remote's buffering gate). For a remote in `MIRRORLINK_BUFFERING`
and a clock that reads `now` at every reading of the step, whatever the timer
was on entry: one state change ends in `MIRRORLINK_SEND` exactly when
`bufferedCommands > 0`. When it does, the timer is `now` plus
`MIRRORLINK_RXTX_MAX_TIME`, the one call made is the `startTransmit` of the top
entry `buffer[bufferedCommands - 1]`, and the buffer and its counter are
unchanged. When the buffer is empty the mode stays `MIRRORLINK_BUFFERING`, no
call is made, and the timer is `now`. -/
theorem C22_remote_buffering_gate (cfg : Config) (env : Env) (s : Remote.MIRRORLINK)
    (now : Int)
    (hmode : s.mirrorlinkState = Remote.MirrorlinkModes.MIRRORLINK_BUFFERING)
    (hclk : ∀ k : Nat, env.now k = now) :
    ((Remote.MirrorLinkState cfg env s).mirrorlinkState
        = Remote.MirrorlinkModes.MIRRORLINK_SEND ↔ 0 < s.bufferedCommands) ∧
    (0 < s.bufferedCommands →
      (Remote.MirrorLinkState cfg env s).timer = now + cfg.MIRRORLINK_RXTX_MAX_TIME ∧
      (Remote.MirrorLinkState cfg env s).log
        = s.log ++ [txBytes ((Remote.topWord s).getD 0)] ∧
      (∀ w : Nat, Remote.topWord s = some w →
        (Remote.MirrorLinkState cfg env s).log = s.log ++ [txBytes w]) ∧
      (Remote.MirrorLinkState cfg env s).bufferedCommands = s.bufferedCommands ∧
      (Remote.MirrorLinkState cfg env s).buffer = s.buffer) ∧
    (s.bufferedCommands = 0 →
      (Remote.MirrorLinkState cfg env s).mirrorlinkState
        = Remote.MirrorlinkModes.MIRRORLINK_BUFFERING ∧
      (Remote.MirrorLinkState cfg env s).log = s.log ∧
      (Remote.MirrorLinkState cfg env s).timer = now) := by
  have hstate := Remote.state_buffering cfg env s hmode
  rw [hclk 0, hclk 1, hclk 2] at hstate
  rw [hstate]
  by_cases hpos : s.bufferedCommands > 0
  · rw [if_pos ⟨rfl, hpos⟩]
    refine ⟨⟨fun _ => hpos, fun _ => rfl⟩, fun _ => ⟨rfl, rfl, ?_, rfl, rfl⟩, ?_⟩
    · intro w hw
      simp only [hw, Option.getD_some]
    · intro h0
      omega
  · rw [if_neg (fun h => hpos h.2)]
    refine ⟨⟨?_, fun h => absurd h hpos⟩, fun h => absurd h hpos, fun _ => ⟨hmode, rfl, rfl⟩⟩
    intro h
    rw [hmode] at h
    exact absurd h (by decide)

/-- C22 at the sample constants: the buffering sample remote, which holds one
word, at clock 100; and the remote with an empty buffer. -/
theorem C22_remote_buffering_gate_witness :
    (Remote.MirrorLinkState sampleConfig (sampleEnv 0 0) Remote.sampleBuffering).mirrorlinkState
      = Remote.MirrorlinkModes.MIRRORLINK_SEND ∧
    (Remote.MirrorLinkState sampleConfig (sampleEnv 0 0) Remote.sampleBuffering).timer = 110 ∧
    (Remote.MirrorLinkState sampleConfig (sampleEnv 0 0) Remote.sampleBuffering).log
      = [Call.startTransmit 16 0 0 131] ∧
    (Remote.MirrorLinkState sampleConfig (sampleEnv 0 0)
      (Remote.MirrorLinkState sampleConfig (sampleEnv 0 0) Remote.sampleInit)).log = [] :=
  have h := C22_remote_buffering_gate sampleConfig (sampleEnv 0 0) Remote.sampleBuffering 100
    (by decide) (fun _ => rfl)
  have h0 := C22_remote_buffering_gate sampleConfig (sampleEnv 0 0)
    (Remote.MirrorLinkState sampleConfig (sampleEnv 0 0) Remote.sampleInit) 100
    (by decide) (fun _ => rfl)
  ⟨h.1.2 (by decide), (h.2.1 (by decide)).1, (h.2.1 (by decide)).2.2.1 268435587 (by decide),
    (h0.2.2 (by decide)).2.1⟩

/-! ## Releases in the remote's receive state, and the duration entry -/

namespace Remote

/-- The receive state with a response read, for a clock that reads `now`
throughout: the counter, the mode and the timer. -/
theorem state_receive_response_count (cfg : Config) (env : Env) (s : MIRRORLINK) (now : Int)
    (hmode : s.mirrorlinkState = MirrorlinkModes.MIRRORLINK_RECEIVE)
    (hflag : s.receivedFlag = true) (hok : env.readData = ERR_NONE)
    (hclk : ∀ k : Nat, env.now k = now) :
    (MirrorLinkState cfg env s).bufferedCommands
      = (if cfg.MIRRORLINK_RXTX_MAX_TIME ≤ 0 then s.bufferedCommands - 1 - 1
          else s.bufferedCommands - 1) ∧
    (MirrorLinkState cfg env s).mirrorlinkState = MirrorlinkModes.MIRRORLINK_BUFFERING ∧
    (MirrorLinkState cfg env s).timer = now + cfg.MIRRORLINK_RXTX_MAX_TIME := by
  simp only [MirrorLinkState, hmode, receiveStatus_ok env s hflag hok, if_true, hclk]
  by_cases hW : cfg.MIRRORLINK_RXTX_MAX_TIME ≤ 0
  · have hyes : now + cfg.MIRRORLINK_RXTX_MAX_TIME ≤ now := by omega
    rw [if_pos hyes, if_pos hW]
    refine ⟨?_, rfl, rfl⟩
    simp only [(releaseTop_hold _).1]
    split_ifs <;> rfl
  · have hnot : ¬ (now + cfg.MIRRORLINK_RXTX_MAX_TIME ≤ now) := by omega
    rw [if_neg hnot, if_neg hW]
    refine ⟨?_, rfl, rfl⟩
    simp only [(releaseTop_hold _).1]
    split_ifs <;> rfl

end Remote

/-- C24 (releases in one receive step). For a remote in `MIRRORLINK_RECEIVE`
and a clock that reads `now` at every reading of the step: when
`MIRRORLINK_RXTX_MAX_TIME` is positive the state change lowers
`bufferedCommands` by at most one. In particular, when a response has been
received and read without error, whatever the timer was on entry (also when
it had expired), the counter goes down by exactly one (staying at zero from
zero), the mode is `MIRRORLINK_BUFFERING` and the timer is `now` plus
`MIRRORLINK_RXTX_MAX_TIME`: the timeout branch does not run as well. When
`MIRRORLINK_RXTX_MAX_TIME` is zero the same step releases twice, so from two
or more held words the counter goes down by two. -/
theorem C24_receive_releases (cfg : Config) (env : Env) (s : Remote.MIRRORLINK) (now : Int)
    (hmode : s.mirrorlinkState = Remote.MirrorlinkModes.MIRRORLINK_RECEIVE)
    (hclk : ∀ k : Nat, env.now k = now) :
    (0 < cfg.MIRRORLINK_RXTX_MAX_TIME →
      (Remote.MirrorLinkState cfg env s).bufferedCommands ≤ s.bufferedCommands ∧
      s.bufferedCommands ≤ (Remote.MirrorLinkState cfg env s).bufferedCommands + 1) ∧
    (0 < cfg.MIRRORLINK_RXTX_MAX_TIME → s.receivedFlag = true → env.readData = ERR_NONE →
      (Remote.MirrorLinkState cfg env s).bufferedCommands = s.bufferedCommands - 1 ∧
      (Remote.MirrorLinkState cfg env s).mirrorlinkState
        = Remote.MirrorlinkModes.MIRRORLINK_BUFFERING ∧
      (Remote.MirrorLinkState cfg env s).timer = now + cfg.MIRRORLINK_RXTX_MAX_TIME) ∧
    (cfg.MIRRORLINK_RXTX_MAX_TIME = 0 → s.receivedFlag = true → env.readData = ERR_NONE →
      (Remote.MirrorLinkState cfg env s).bufferedCommands = s.bufferedCommands - 2 ∧
      (2 ≤ s.bufferedCommands →
        (Remote.MirrorLinkState cfg env s).bufferedCommands + 2 = s.bufferedCommands)) := by
  refine ⟨?_, ?_, ?_⟩
  · intro hW
    by_cases h : s.receivedFlag = true ∧ env.readData = ERR_NONE
    · have hR := Remote.state_receive_response_count cfg env s now hmode h.1 h.2 hclk
      rw [hR.1, if_neg (by omega)]
      omega
    · rw [Remote.state_receive_silent_count cfg env s hmode h]
      split_ifs <;> omega
  · intro hW hflag hok
    have hR := Remote.state_receive_response_count cfg env s now hmode hflag hok hclk
    rw [hR.1, if_neg (by omega)]
    exact ⟨rfl, hR.2.1, hR.2.2⟩
  · intro hW hflag hok
    have hR := Remote.state_receive_response_count cfg env s now hmode hflag hok hclk
    rw [hR.1, if_pos (by omega)]
    omega

/-- C24 at the sample constants: the full sample remote, moved to
`MIRRORLINK_RECEIVE` with three words held and timer 50, reads a response at
clock 100; with the window set to zero the same step releases two words. -/
theorem C24_receive_releases_witness :
    (Remote.MirrorLinkState sampleConfig (sampleEnv 7 0)
      { Remote.sampleFull with
        mirrorlinkState := Remote.MirrorlinkModes.MIRRORLINK_RECEIVE
        receivedFlag := true
        timer := 50 }).bufferedCommands = 2 ∧
    (Remote.MirrorLinkState { sampleConfig with MIRRORLINK_RXTX_MAX_TIME := 0 } (sampleEnv 7 0)
      { Remote.sampleFull with
        mirrorlinkState := Remote.MirrorlinkModes.MIRRORLINK_RECEIVE
        receivedFlag := true
        timer := 50 }).bufferedCommands = 1 :=
  have h := C24_receive_releases sampleConfig (sampleEnv 7 0)
    { Remote.sampleFull with
      mirrorlinkState := Remote.MirrorlinkModes.MIRRORLINK_RECEIVE
      receivedFlag := true
      timer := 50 } 100 (by decide) (fun _ => rfl)
  have h0 := C24_receive_releases { sampleConfig with MIRRORLINK_RXTX_MAX_TIME := 0 }
    (sampleEnv 7 0)
    { Remote.sampleFull with
      mirrorlinkState := Remote.MirrorlinkModes.MIRRORLINK_RECEIVE
      receivedFlag := true
      timer := 50 } 100 (by decide) (fun _ => rfl)
  ⟨(h.2.1 (by decide) (by decide) (by decide)).1,
    (h0.2.2 (by decide) (by decide) (by decide)).1⟩

/-- C25 (the duration entry wraps at 16 bits). The station is in
`MIRRORLINK_RECEIVE`, a packet has been received and read without error, its
word is not zero, has opcode `ML_PROGRAMDURATION` and payload `p`, and the
`switch` labels are pairwise different. With `m` the 11 bits 15-25 of `p` and
`sid` the bits 7-14, the state change writes `(60 * m) mod 65536` at
`durations[sid]` (stated as the list update, and as the entry for an index
inside the array). `m` is at most 2047; the value written equals `60 * m`
exactly when `m ≤ 1092`, and for `1093 ≤ m` it is `60 * m - 65536`, strictly
below `60 * m`. -/
theorem C25_duration_wraps (cfg : Config) (env : Env) (s : Station.MIRRORLINK) (p m : Nat)
    (hmode : s.mirrorlinkState = Station.MirrorlinkModes.MIRRORLINK_RECEIVE)
    (hflag : s.receivedFlag = true) (hok : env.readData = ERR_NONE)
    (hlabels : cfg.caseLabels.Nodup)
    (hne : env.received ≠ 0) (hp : env.received &&& 0x7FFFFFF = p)
    (hop : env.received >>> 27 = cfg.ML_PROGRAMDURATION)
    (hm : (p >>> 15) &&& 0x7FF = m) :
    (Station.MirrorLinkState cfg env s).mirrorlinkProg.durations
      = s.mirrorlinkProg.durations.set ((p >>> 7) &&& 0xFF) ((60 * m) % 65536) ∧
    ((p >>> 7) &&& 0xFF < s.mirrorlinkProg.durations.length →
      (Station.MirrorLinkState cfg env s).mirrorlinkProg.durations[(p >>> 7) &&& 0xFF]?
        = some ((60 * m) % 65536)) ∧
    m ≤ 2047 ∧
    ((60 * m) % 65536 = 60 * m ↔ m ≤ 1092) ∧
    (1093 ≤ m → (60 * m) % 65536 = 60 * m - 65536 ∧ (60 * m) % 65536 < 60 * m) := by
  have hstate := Station.state_receive_ok cfg env s hmode hflag hok
  have hexec := Station.execCommand_duration cfg env
    { s with
      receivedFlag := false
      module_state := env.readData
      command := env.received
      log := s.log ++ [Call.readData, Call.startReceive]
      enableInterrupt := true }
    hne hop hlabels (received_lt env)
  have hle : m ≤ 2047 := by
    rw [← hm]
    exact Nat.and_le_right
  rw [hstate, hexec]
  dsimp only
  rw [hp, hm]
  refine ⟨rfl, fun hk => List.getElem?_set_self hk, hle, ?_, ?_⟩
  · omega
  · intro h
    omega

/-- C25 at the sample constants: a ProgramDuration word with 1093 minutes for
station 3 leaves 44 seconds in the entry, and one with 1092 minutes leaves
65520. -/
theorem C25_duration_wraps_witness :
    (Station.MirrorLinkState sampleConfig (sampleEnv (6 * 2 ^ 27 + 35815809) 3)
      Station.sampleReceived).mirrorlinkProg.durations = [0, 0, 0, 44, 0, 0, 0, 0] ∧
    (Station.MirrorLinkState sampleConfig (sampleEnv (6 * 2 ^ 27 + 35783041) 3)
      Station.sampleReceived).mirrorlinkProg.durations = [0, 0, 0, 65520, 0, 0, 0, 0] :=
  ⟨(C25_duration_wraps sampleConfig (sampleEnv (6 * 2 ^ 27 + 35815809) 3)
      Station.sampleReceived 35815809 1093 (by decide) (by decide) (by decide) (by decide)
      (by decide) (by decide) (by decide) (by decide)).1,
    (C25_duration_wraps sampleConfig (sampleEnv (6 * 2 ^ 27 + 35783041) 3)
      Station.sampleReceived 35783041 1092 (by decide) (by decide) (by decide) (by decide)
      (by decide) (by decide) (by decide) (by decide)).1⟩

/-! ## The top index while the remote sends or listens -/

namespace Remote

theorem remote_work_mode (cfg : Config) (env : Env) (s : MIRRORLINK) :
    (MirrorLinkWork cfg env s).mirrorlinkState = s.mirrorlinkState := by
  cases hm : s.mirrorlinkState <;> simp only [MirrorLinkWork, hm, MirrorLinkTransmitStatus]
  split_ifs <;> simp [MirrorLinkTransmit, hm]

theorem remote_setFlag_mode (cfg : Config) (s : MIRRORLINK) :
    (setFlag cfg s).mirrorlinkState = s.mirrorlinkState := by
  unfold setFlag
  split_ifs <;> rfl

/-- The send state keeps the counter. -/
theorem state_send_count (cfg : Config) (env : Env) (s : MIRRORLINK)
    (hm : s.mirrorlinkState = MirrorlinkModes.MIRRORLINK_SEND) :
    (MirrorLinkState cfg env s).bufferedCommands = s.bufferedCommands := by
  have hT := transmitStatus_hold s
  simp only [MirrorLinkState, hm]
  split_ifs <;> simp [receiveInit_hold, hT]

/-- The receive state either ends in `MIRRORLINK_BUFFERING` or keeps the mode
and the counter. -/
theorem state_receive_mode (cfg : Config) (env : Env) (s : MIRRORLINK)
    (hm : s.mirrorlinkState = MirrorlinkModes.MIRRORLINK_RECEIVE) :
    (MirrorLinkState cfg env s).mirrorlinkState = MirrorlinkModes.MIRRORLINK_BUFFERING ∨
    (MirrorLinkState cfg env s).bufferedCommands = s.bufferedCommands := by
  have hR := receiveStatus_hold env s
  simp only [MirrorLinkState, hm]
  split_ifs <;> first | exact Or.inl rfl | exact Or.inr hR.1

/-- One state change keeps the fact that the counter is at least one while the
mode is `MIRRORLINK_SEND` or `MIRRORLINK_RECEIVE`. -/
theorem state_active (cfg : Config) (env : Env) (s : MIRRORLINK)
    (h : s.mirrorlinkState = MirrorlinkModes.MIRRORLINK_SEND ∨
      s.mirrorlinkState = MirrorlinkModes.MIRRORLINK_RECEIVE → 1 ≤ s.bufferedCommands) :
    (MirrorLinkState cfg env s).mirrorlinkState = MirrorlinkModes.MIRRORLINK_SEND ∨
      (MirrorLinkState cfg env s).mirrorlinkState = MirrorlinkModes.MIRRORLINK_RECEIVE →
    1 ≤ (MirrorLinkState cfg env s).bufferedCommands := by
  cases hm : s.mirrorlinkState
  · simp only [MirrorLinkState, hm]
    split_ifs <;> simp [hm]
  · simp only [MirrorLinkState, hm]
    split_ifs <;> simp [hm]
  · rw [state_buffering cfg env s hm]
    split_ifs with hg
    · intro _
      exact hg.2
    · simp [hm]
  · intro _
    rw [state_send_count cfg env s hm]
    exact h (Or.inl hm)
  · intro hS
    rcases state_receive_mode cfg env s hm with hB | hB
    · rw [hB] at hS
      simp at hS
    · rw [hB]
      exact h (Or.inr hm)

/-- In every reachable state whose mode is `MIRRORLINK_SEND` or
`MIRRORLINK_RECEIVE` the counter is at least one. -/
theorem reachable_active (cfg : Config) (s : MIRRORLINK) (h : Reachable cfg s) :
    s.mirrorlinkState = MirrorlinkModes.MIRRORLINK_SEND ∨
      s.mirrorlinkState = MirrorlinkModes.MIRRORLINK_RECEIVE → 1 ≤ s.bufferedCommands := by
  induction h with
  | init env s hK => simp [MirrorLinkInit]
  | push cmd payload s hs ih =>
    have hH := reachable_hold cfg s hs
    have hP := buffCmd_mode_count cfg cmd payload s hH.2.2
    rw [hP.1]
    intro hm
    exact le_trans (ih hm) hP.2
  | state env s _ ih => exact state_active cfg env s ih
  | work env s _ ih =>
    rw [remote_work_mode cfg env s, (work_hold cfg env s).1]
    exact ih
  | interrupt s _ ih =>
    rw [remote_setFlag_mode cfg s, (setFlag_hold cfg s).1]
    exact ih

/-- A tick of `MirrorLinkMain` leads from a reachable state to a reachable
state: it is a state change followed by a state action. -/
theorem reachable_main (cfg : Config) (envState envWork : Env) (s : MIRRORLINK)
    (h : Reachable cfg s) : Reachable cfg (MirrorLinkMain cfg envState envWork s) :=
  Reachable.work envWork _ (Reachable.state envState s h)

/-- With the counter between one and the length of the buffer, the top entry
is read inside the buffer. -/
theorem topWord_inside (s : MIRRORLINK) (h1 : 1 ≤ s.bufferedCommands)
    (h2 : s.bufferedCommands ≤ s.buffer.length) :
    topWord s = s.buffer[s.bufferedCommands - 1]? ∧ ∃ w : Nat, topWord s = some w := by
  have hpos : (0 : Int) ≤ (s.bufferedCommands : Int) - 1 := by omega
  have hidx : ((s.bufferedCommands : Int) - 1).toNat = s.bufferedCommands - 1 := by omega
  have hlt : s.bufferedCommands - 1 < s.buffer.length := by omega
  have hread : topWord s = s.buffer[s.bufferedCommands - 1]? := by
    unfold topWord bufRead
    rw [if_pos hpos, hidx]
  exact ⟨hread, ⟨s.buffer[s.bufferedCommands - 1], by rw [hread, List.getElem?_eq_getElem hlt]⟩⟩

end Remote

/-- C23 (the top index is inside the buffer). For every state of the remote
reached from `MirrorLinkInit` by pushes (`MirrorLinkBuffCmd`), state changes
and state actions (a tick of `MirrorLinkMain` is one of each), and radio
interrupts, in any order and with any clock readings and radio results: when
the mode is `MIRRORLINK_SEND` or `MIRRORLINK_RECEIVE`,
`1 ≤ bufferedCommands ≤ MIRRORLINK_BUFFERLENGTH`, the buffer has
`MIRRORLINK_BUFFERLENGTH` entries, and `buffer[bufferedCommands - 1]` reads an
entry of the buffer. -/
theorem C23_top_index_inside (cfg : Config) (s : Remote.MIRRORLINK)
    (h : Remote.Reachable cfg s)
    (hmode : s.mirrorlinkState = Remote.MirrorlinkModes.MIRRORLINK_SEND ∨
      s.mirrorlinkState = Remote.MirrorlinkModes.MIRRORLINK_RECEIVE) :
    1 ≤ s.bufferedCommands ∧
    s.bufferedCommands ≤ cfg.MIRRORLINK_BUFFERLENGTH ∧
    s.buffer.length = cfg.MIRRORLINK_BUFFERLENGTH ∧
    Remote.topWord s = s.buffer[s.bufferedCommands - 1]? ∧
    ∃ w : Nat, Remote.topWord s = some w := by
  have hH := Remote.reachable_hold cfg s h
  have h1 := Remote.reachable_active cfg s h hmode
  have hT := Remote.topWord_inside s h1 (by rw [hH.1]; exact hH.2.1)
  exact ⟨h1, hH.2.1, hH.1, hT.1, hT.2⟩

/-- C23 at the sample constants: after `MirrorLinkInit`, a tick, a push of
`ML_PROGRAMADDDEL` with payload 131 and a second tick, the remote is in
`MIRRORLINK_SEND` with one word held, read at index 0. -/
theorem C23_top_index_inside_witness :
    (Remote.MirrorLinkMain sampleConfig (sampleEnv 0 0) (sampleEnv 0 0)
      (Remote.MirrorLinkBuffCmd sampleConfig 2 131
        (Remote.MirrorLinkMain sampleConfig (sampleEnv 0 0) (sampleEnv 0 0)
          Remote.sampleInit))).mirrorlinkState = Remote.MirrorlinkModes.MIRRORLINK_SEND ∧
    1 ≤ (Remote.MirrorLinkMain sampleConfig (sampleEnv 0 0) (sampleEnv 0 0)
      (Remote.MirrorLinkBuffCmd sampleConfig 2 131
        (Remote.MirrorLinkMain sampleConfig (sampleEnv 0 0) (sampleEnv 0 0)
          Remote.sampleInit))).bufferedCommands ∧
    Remote.topWord (Remote.MirrorLinkMain sampleConfig (sampleEnv 0 0) (sampleEnv 0 0)
      (Remote.MirrorLinkBuffCmd sampleConfig 2 131
        (Remote.MirrorLinkMain sampleConfig (sampleEnv 0 0) (sampleEnv 0 0)
          Remote.sampleInit))) = some 268435587 :=
  have h := C23_top_index_inside sampleConfig
    (Remote.MirrorLinkMain sampleConfig (sampleEnv 0 0) (sampleEnv 0 0)
      (Remote.MirrorLinkBuffCmd sampleConfig 2 131
        (Remote.MirrorLinkMain sampleConfig (sampleEnv 0 0) (sampleEnv 0 0)
          Remote.sampleInit)))
    (Remote.reachable_main sampleConfig (sampleEnv 0 0) (sampleEnv 0 0) _
      (Remote.Reachable.push 2 131 _
        (Remote.reachable_main sampleConfig (sampleEnv 0 0) (sampleEnv 0 0) _
          (Remote.Reachable.init (sampleEnv 0 0) Remote.zero (by decide)))))
    (by decide)
  ⟨by decide, h.1, by decide⟩

/-! ## The station's answer inside one send window -/

namespace Station

/-- The state action in the send state, written out. -/
theorem work_send (cfg : Config) (env : Env) (s : MIRRORLINK)
    (hmode : s.mirrorlinkState = MirrorlinkModes.MIRRORLINK_SEND) :
    MirrorLinkWork cfg env s =
      if s.timer = env.now 0 + (cfg.MIRRORLINK_RXTX_MAX_TIME - cfg.MIRRORLINK_RXTX_DEAD_TIME)
          ∧ s.flagRxTx = cfg.ML_RECEIVING then
        MirrorLinkTransmit cfg env s
      else s := by
  simp only [MirrorLinkWork, hmode]

/-- The state action outside the send state does nothing. -/
theorem work_other (cfg : Config) (env : Env) (s : MIRRORLINK)
    (hmode : s.mirrorlinkState ≠ MirrorlinkModes.MIRRORLINK_SEND) :
    MirrorLinkWork cfg env s = s := by
  cases hm : s.mirrorlinkState <;> simp only [MirrorLinkWork, hm]
  exact absurd hm hmode

/-- A state change that stays in the send state keeps the timer, the log, the
command register and the direction flag. -/
theorem state_send_stay (cfg : Config) (env : Env) (s : MIRRORLINK)
    (hmode : s.mirrorlinkState = MirrorlinkModes.MIRRORLINK_SEND)
    (hstay : (MirrorLinkState cfg env s).mirrorlinkState = MirrorlinkModes.MIRRORLINK_SEND) :
    (MirrorLinkState cfg env s).timer = s.timer ∧
    (MirrorLinkState cfg env s).log = s.log ∧
    (MirrorLinkState cfg env s).command = s.command ∧
    (MirrorLinkState cfg env s).flagRxTx = s.flagRxTx := by
  have hS := state_send cfg env s hmode
  by_cases hdone : s.transmittedFlag = true ∧ s.module_state = ERR_NONE
  · rw [(hS.1 hdone).1] at hstay
    exact absurd hstay (by decide)
  · by_cases hexp : s.timer ≤ env.now 0
    · rw [(hS.2.1 hdone hexp).1] at hstay
      exact absurd hstay (by decide)
    · have hT := station_transmitStatus_false s hdone
      have hexp1 : ¬ (MirrorLinkTransmitStatus s).2.timer ≤ env.now 0 := by
        rw [hT.2.1]; exact hexp
      simp only [MirrorLinkState, hmode, hT.1, Bool.false_eq_true, if_false, hexp1]
      unfold MirrorLinkTransmitStatus
      split_ifs <;> exact ⟨rfl, rfl, rfl, rfl⟩

/-- One tick that starts and ends in the send state keeps the timer; its state
action submits the command register exactly when it reads the clock at
`timer - (MIRRORLINK_RXTX_MAX_TIME - MIRRORLINK_RXTX_DEAD_TIME)` with the
direction flag at `ML_RECEIVING`. -/
theorem tick_send_step (cfg : Config) (e : Bool × Env × Env) (s : MIRRORLINK)
    (hmode : s.mirrorlinkState = MirrorlinkModes.MIRRORLINK_SEND)
    (hstay : (tick cfg e s).mirrorlinkState = MirrorlinkModes.MIRRORLINK_SEND) :
    (tick cfg e s).timer = s.timer ∧
    ((s.timer = e.2.2.now 0 + (cfg.MIRRORLINK_RXTX_MAX_TIME - cfg.MIRRORLINK_RXTX_DEAD_TIME)
        ∧ s.flagRxTx = cfg.ML_RECEIVING) →
      (tick cfg e s).log = s.log ++ [txBytes s.command] ∧
      (tick cfg e s).command = 0 ∧
      (tick cfg e s).flagRxTx = cfg.ML_TRANSMITTING % 2) ∧
    (¬ (s.timer = e.2.2.now 0 + (cfg.MIRRORLINK_RXTX_MAX_TIME - cfg.MIRRORLINK_RXTX_DEAD_TIME)
        ∧ s.flagRxTx = cfg.ML_RECEIVING) →
      (tick cfg e s).log = s.log ∧
      (tick cfg e s).command = s.command ∧
      (tick cfg e s).flagRxTx = s.flagRxTx) := by
  have h0 : (if e.1 = true then setFlag cfg s else s).mirrorlinkState = MirrorlinkModes.MIRRORLINK_SEND ∧
      (if e.1 = true then setFlag cfg s else s).timer = s.timer ∧ (if e.1 = true then setFlag cfg s else s).log = s.log ∧ (if e.1 = true then setFlag cfg s else s).command = s.command ∧
      (if e.1 = true then setFlag cfg s else s).flagRxTx = s.flagRxTx := by
    split
    · exact ⟨(setFlag_mode cfg s).1.trans hmode, (setFlag_mode cfg s).2, (setFlag_keeps cfg s).1,
        (setFlag_keeps cfg s).2.1, (setFlag_keeps cfg s).2.2⟩
    · exact ⟨hmode, rfl, rfl, rfl, rfl⟩
  obtain ⟨hXm, hXt, hXl, hXc, hXf⟩ := h0
  unfold tick MirrorLinkMain at hstay ⊢
  rw [(work_mode cfg e.2.2 (MirrorLinkState cfg e.2.1 (if e.1 = true then setFlag cfg s else s))).1] at hstay
  have hS := state_send_stay cfg e.2.1 (if e.1 = true then setFlag cfg s else s) hXm hstay
  rw [work_send cfg e.2.2 (MirrorLinkState cfg e.2.1 (if e.1 = true then setFlag cfg s else s)) hstay]
  by_cases hg : s.timer
      = e.2.2.now 0 + (cfg.MIRRORLINK_RXTX_MAX_TIME - cfg.MIRRORLINK_RXTX_DEAD_TIME)
      ∧ s.flagRxTx = cfg.ML_RECEIVING
  · have hgY : (MirrorLinkState cfg e.2.1 (if e.1 = true then setFlag cfg s else s)).timer
          = e.2.2.now 0 + (cfg.MIRRORLINK_RXTX_MAX_TIME - cfg.MIRRORLINK_RXTX_DEAD_TIME)
        ∧ (MirrorLinkState cfg e.2.1 (if e.1 = true then setFlag cfg s else s)).flagRxTx = cfg.ML_RECEIVING :=
      ⟨by rw [hS.1, hXt]; exact hg.1, by rw [hS.2.2.2, hXf]; exact hg.2⟩
    rw [if_pos hgY]
    refine ⟨hS.1.trans hXt, fun _ => ⟨?_, rfl, rfl⟩, fun h => absurd hg h⟩
    show (MirrorLinkState cfg e.2.1 (if e.1 = true then setFlag cfg s else s)).log
      ++ [txBytes (MirrorLinkState cfg e.2.1 (if e.1 = true then setFlag cfg s else s)).command] = s.log ++ [txBytes s.command]
    rw [hS.2.1, hS.2.2.1, hXl, hXc]
  · have hgY : ¬ ((MirrorLinkState cfg e.2.1 (if e.1 = true then setFlag cfg s else s)).timer
          = e.2.2.now 0 + (cfg.MIRRORLINK_RXTX_MAX_TIME - cfg.MIRRORLINK_RXTX_DEAD_TIME)
        ∧ (MirrorLinkState cfg e.2.1 (if e.1 = true then setFlag cfg s else s)).flagRxTx = cfg.ML_RECEIVING) := by
      intro h
      exact hg ⟨by rw [← hXt, ← hS.1]; exact h.1, by rw [← hXf, ← hS.2.2.2]; exact h.2⟩
    rw [if_neg hgY]
    exact ⟨hS.1.trans hXt, fun h => absurd h hg,
      fun _ => ⟨hS.2.1.trans hXl, hS.2.2.1.trans hXc, hS.2.2.2.trans hXf⟩⟩

/-- The tick that takes the station from the send state to the receive state
makes one call, `startReceive`. -/
theorem tick_send_leave (cfg : Config) (e : Bool × Env × Env) (s : MIRRORLINK)
    (hmode : s.mirrorlinkState = MirrorlinkModes.MIRRORLINK_SEND)
    (hleave : (tick cfg e s).mirrorlinkState = MirrorlinkModes.MIRRORLINK_RECEIVE) :
    (tick cfg e s).log = s.log ++ [Call.startReceive] := by
  have h0 : (if e.1 = true then setFlag cfg s else s).mirrorlinkState = MirrorlinkModes.MIRRORLINK_SEND ∧ (if e.1 = true then setFlag cfg s else s).log = s.log := by
    split
    · exact ⟨(setFlag_mode cfg s).1.trans hmode, (setFlag_keeps cfg s).1⟩
    · exact ⟨hmode, rfl⟩
  obtain ⟨hXm, hXl⟩ := h0
  unfold tick MirrorLinkMain at hleave ⊢
  rw [(work_mode cfg e.2.2 (MirrorLinkState cfg e.2.1 (if e.1 = true then setFlag cfg s else s))).1] at hleave
  rw [work_other cfg e.2.2 (MirrorLinkState cfg e.2.1 (if e.1 = true then setFlag cfg s else s)) (by rw [hleave]; decide)]
  have hS := state_send cfg e.2.1 (if e.1 = true then setFlag cfg s else s) hXm
  by_cases hdone : (if e.1 = true then setFlag cfg s else s).transmittedFlag = true ∧ (if e.1 = true then setFlag cfg s else s).module_state = ERR_NONE
  · rw [(hS.1 hdone).2.2, hXl]
  · by_cases hexp : (if e.1 = true then setFlag cfg s else s).timer ≤ e.2.1.now 0
    · rw [(hS.2.1 hdone hexp).2.2, hXl]
    · rw [(hS.2.2 hdone (by omega)).1] at hleave
      exact absurd hleave (by decide)

/-- Over a run of ticks that stays in the send state, the timer is kept and
the command register is submitted at most once. -/
theorem ticks_send_once (cfg : Config) (L : List Call) (c : Nat) (T : Int)
    (htx : cfg.ML_TRANSMITTING % 2 ≠ cfg.ML_RECEIVING) (es : List (Bool × Env × Env)) :
    ∀ s : MIRRORLINK, s.mirrorlinkState = MirrorlinkModes.MIRRORLINK_SEND → s.timer = T →
      ((s.log = L ∧ s.command = c) ∨
        (s.log = L ++ [txBytes c] ∧ s.command = 0 ∧ s.flagRxTx = cfg.ML_TRANSMITTING % 2)) →
      (∀ t ∈ ticks cfg es s, t.mirrorlinkState = MirrorlinkModes.MIRRORLINK_SEND) →
      ∀ t ∈ ticks cfg es s, t.timer = T ∧
        ((t.log = L ∧ t.command = c) ∨
          (t.log = L ++ [txBytes c] ∧ t.command = 0 ∧
            t.flagRxTx = cfg.ML_TRANSMITTING % 2)) := by
  induction es with
  | nil =>
    intro s _ _ _ _ t ht
    simp [ticks] at ht
  | cons e es ih =>
    intro s hmode htimer hinv hwin t ht
    simp only [ticks, List.mem_cons] at ht hwin
    have hstay := hwin (tick cfg e s) (Or.inl rfl)
    have hstep := tick_send_step cfg e s hmode hstay
    have hinv1 : ((tick cfg e s).log = L ∧ (tick cfg e s).command = c) ∨
        ((tick cfg e s).log = L ++ [txBytes c] ∧ (tick cfg e s).command = 0 ∧
          (tick cfg e s).flagRxTx = cfg.ML_TRANSMITTING % 2) := by
      by_cases hg : s.timer
          = e.2.2.now 0 + (cfg.MIRRORLINK_RXTX_MAX_TIME - cfg.MIRRORLINK_RXTX_DEAD_TIME)
          ∧ s.flagRxTx = cfg.ML_RECEIVING
      · rcases hinv with h | h
        · exact Or.inr ⟨by rw [(hstep.2.1 hg).1, h.1, h.2], (hstep.2.1 hg).2.1,
            (hstep.2.1 hg).2.2⟩
        · exact absurd (h.2.2.symm.trans hg.2) htx
      · rcases hinv with h | h
        · exact Or.inl ⟨(hstep.2.2 hg).1.trans h.1, (hstep.2.2 hg).2.1.trans h.2⟩
        · exact Or.inr ⟨(hstep.2.2 hg).1.trans h.1, (hstep.2.2 hg).2.1.trans h.2.1,
            (hstep.2.2 hg).2.2.trans h.2.2⟩
    rcases ht with ht | ht
    · rw [ht]
      exact ⟨hstep.1.trans htimer, hinv1⟩
    · exact ih (tick cfg e s) hstay (hstep.1.trans htimer) hinv1
        (fun u hu => hwin u (Or.inr hu)) t ht

/-- Over a run of ticks that stays in the send state and whose state actions
never read the clock at `timer - (MIRRORLINK_RXTX_MAX_TIME -
MIRRORLINK_RXTX_DEAD_TIME)`, no call is made. -/
theorem ticks_send_silent (cfg : Config) (L : List Call) (T : Int)
    (es : List (Bool × Env × Env)) :
    ∀ s : MIRRORLINK, s.mirrorlinkState = MirrorlinkModes.MIRRORLINK_SEND → s.timer = T →
      s.log = L →
      (∀ e ∈ es, T ≠ e.2.2.now 0
        + (cfg.MIRRORLINK_RXTX_MAX_TIME - cfg.MIRRORLINK_RXTX_DEAD_TIME)) →
      (∀ t ∈ ticks cfg es s, t.mirrorlinkState = MirrorlinkModes.MIRRORLINK_SEND) →
      ∀ t ∈ ticks cfg es s, t.log = L := by
  induction es with
  | nil =>
    intro s _ _ _ _ _ t ht
    simp [ticks] at ht
  | cons e es ih =>
    intro s hmode htimer hlog hclk hwin t ht
    simp only [ticks, List.mem_cons] at ht hwin
    have hstay := hwin (tick cfg e s) (Or.inl rfl)
    have hstep := tick_send_step cfg e s hmode hstay
    have hg : ¬ (s.timer
        = e.2.2.now 0 + (cfg.MIRRORLINK_RXTX_MAX_TIME - cfg.MIRRORLINK_RXTX_DEAD_TIME)
        ∧ s.flagRxTx = cfg.ML_RECEIVING) := by
      intro h
      exact hclk e (List.mem_cons_self e es) (htimer.symm.trans h.1)
    have hlog1 : (tick cfg e s).log = L := (hstep.2.2 hg).1.trans hlog
    rcases ht with ht | ht
    · rw [ht]
      exact hlog1
    · exact ih (tick cfg e s) hstay (hstep.1.trans htimer) hlog1
        (fun a ha => hclk a (List.mem_cons_of_mem e ha))
        (fun u hu => hwin u (Or.inr hu)) t ht

end Station

/-- C26 (when the station answers). The station has entered
`MIRRORLINK_SEND` with the timer at `start + MIRRORLINK_RXTX_MAX_TIME`, the
value `ML_TRANSMITTING` leaves in the one-bit direction flag differs from
`ML_RECEIVING`, and the send window (the state action of the entering tick,
then a run of ticks) keeps the station in `MIRRORLINK_SEND`. Then, on the
record at the start and on every record of the window: the state action calls
`MirrorLinkTransmit` when it reads the clock at
`start + MIRRORLINK_RXTX_DEAD_TIME` with the flag at `ML_RECEIVING`, and does
nothing otherwise; `MirrorLinkTransmit` submits the command register, clears
it and sets the flag to `ML_TRANSMITTING`. At every record of the window the
calls made since the start are none, or the one `startTransmit` of the command
register held at the start; they are none when no state action of the window
reads the clock at `start + MIRRORLINK_RXTX_DEAD_TIME`. A tick that then
takes the station to `MIRRORLINK_RECEIVE` makes the one call
`startReceive`. -/
theorem C26_station_answer_timing (cfg : Config) (e0 : Env) (es : List (Bool × Env × Env))
    (s : Station.MIRRORLINK) (start : Int)
    (hmode : s.mirrorlinkState = Station.MirrorlinkModes.MIRRORLINK_SEND)
    (hstart : s.timer = start + cfg.MIRRORLINK_RXTX_MAX_TIME)
    (htx : cfg.ML_TRANSMITTING % 2 ≠ cfg.ML_RECEIVING)
    (hwin : ∀ t ∈ Station.window cfg e0 es s,
      t.mirrorlinkState = Station.MirrorlinkModes.MIRRORLINK_SEND) :
    (∀ (env : Env) (t : Station.MIRRORLINK), t = s ∨ t ∈ Station.window cfg e0 es s →
      ((env.now 0 = start + cfg.MIRRORLINK_RXTX_DEAD_TIME ∧ t.flagRxTx = cfg.ML_RECEIVING) →
        Station.MirrorLinkWork cfg env t = Station.MirrorLinkTransmit cfg env t) ∧
      (¬ (env.now 0 = start + cfg.MIRRORLINK_RXTX_DEAD_TIME ∧ t.flagRxTx = cfg.ML_RECEIVING) →
        Station.MirrorLinkWork cfg env t = t) ∧
      (Station.MirrorLinkTransmit cfg env t).log = t.log ++ [txBytes t.command] ∧
      (Station.MirrorLinkTransmit cfg env t).command = 0 ∧
      (Station.MirrorLinkTransmit cfg env t).flagRxTx = cfg.ML_TRANSMITTING % 2) ∧
    (∀ t ∈ Station.window cfg e0 es s,
      t.log = s.log ∨ t.log = s.log ++ [txBytes s.command]) ∧
    (e0.now 0 ≠ start + cfg.MIRRORLINK_RXTX_DEAD_TIME →
      (∀ e ∈ es, e.2.2.now 0 ≠ start + cfg.MIRRORLINK_RXTX_DEAD_TIME) →
      ∀ t ∈ Station.window cfg e0 es s, t.log = s.log) ∧
    (∀ (e : Bool × Env × Env) (t : Station.MIRRORLINK), t ∈ Station.window cfg e0 es s →
      (Station.tick cfg e t).mirrorlinkState = Station.MirrorlinkModes.MIRRORLINK_RECEIVE →
      (Station.tick cfg e t).log = t.log ++ [Call.startReceive]) := by
  simp only [Station.window, List.mem_cons] at hwin ⊢
  have hW := Station.work_mode cfg e0 s
  have hmode1 : (Station.MirrorLinkWork cfg e0 s).mirrorlinkState
      = Station.MirrorlinkModes.MIRRORLINK_SEND := hW.1.trans hmode
  have hgate : ∀ (env : Env) (t : Station.MIRRORLINK), t.timer = s.timer →
      ((t.timer = env.now 0
          + (cfg.MIRRORLINK_RXTX_MAX_TIME - cfg.MIRRORLINK_RXTX_DEAD_TIME)
        ∧ t.flagRxTx = cfg.ML_RECEIVING)
        ↔ (env.now 0 = start + cfg.MIRRORLINK_RXTX_DEAD_TIME
          ∧ t.flagRxTx = cfg.ML_RECEIVING)) := by
    intro env t ht
    rw [ht, hstart]
    constructor
    · intro h
      exact ⟨by omega, h.2⟩
    · intro h
      exact ⟨by omega, h.2⟩
  have hinv1 : ((Station.MirrorLinkWork cfg e0 s).log = s.log ∧
        (Station.MirrorLinkWork cfg e0 s).command = s.command) ∨
      ((Station.MirrorLinkWork cfg e0 s).log = s.log ++ [txBytes s.command] ∧
        (Station.MirrorLinkWork cfg e0 s).command = 0 ∧
        (Station.MirrorLinkWork cfg e0 s).flagRxTx = cfg.ML_TRANSMITTING % 2) := by
    rw [Station.work_send cfg e0 s hmode]
    split_ifs
    · exact Or.inr ⟨rfl, rfl, rfl⟩
    · exact Or.inl ⟨rfl, rfl⟩
  have honce := Station.ticks_send_once cfg s.log s.command s.timer htx es
    (Station.MirrorLinkWork cfg e0 s) hmode1 hW.2 hinv1 (fun t ht => hwin t (Or.inr ht))
  have hin : ∀ t : Station.MIRRORLINK,
      t = Station.MirrorLinkWork cfg e0 s ∨
        t ∈ Station.ticks cfg es (Station.MirrorLinkWork cfg e0 s) →
      t.mirrorlinkState = Station.MirrorlinkModes.MIRRORLINK_SEND ∧ t.timer = s.timer ∧
      ((t.log = s.log ∧ t.command = s.command) ∨
        (t.log = s.log ++ [txBytes s.command] ∧ t.command = 0 ∧
          t.flagRxTx = cfg.ML_TRANSMITTING % 2)) := by
    intro t ht
    rcases ht with ht | ht
    · rw [ht]
      exact ⟨hmode1, hW.2, hinv1⟩
    · exact ⟨hwin t (Or.inr ht), (honce t ht).1, (honce t ht).2⟩
  refine ⟨?_, ?_, ?_, ?_⟩
  · intro env t ht
    have hT : t.mirrorlinkState = Station.MirrorlinkModes.MIRRORLINK_SEND ∧
        t.timer = s.timer := by
      rcases ht with ht | ht
      · rw [ht]
        exact ⟨hmode, rfl⟩
      · exact ⟨(hin t ht).1, (hin t ht).2.1⟩
    rw [Station.work_send cfg env t hT.1]
    refine ⟨fun h => ?_, fun h => ?_, rfl, rfl, rfl⟩
    · rw [if_pos ((hgate env t hT.2).mpr h)]
    · rw [if_neg (fun hg => h ((hgate env t hT.2).mp hg))]
  · intro t ht
    rcases (hin t ht).2.2 with h | h
    · exact Or.inl h.1
    · exact Or.inr h.1
  · intro hclk0 hclk t ht
    have hlog1 : (Station.MirrorLinkWork cfg e0 s).log = s.log := by
      rw [Station.work_send cfg e0 s hmode,
        if_neg (fun hg => hclk0 ((hgate e0 s rfl).mp hg).1)]
    rcases ht with ht | ht
    · rw [ht]
      exact hlog1
    · refine Station.ticks_send_silent cfg s.log s.timer es (Station.MirrorLinkWork cfg e0 s)
        hmode1 hW.2 hlog1 ?_ (fun u hu => hwin u (Or.inr hu)) t ht
      intro e he h
      rw [hstart] at h
      exact hclk e he (by omega)
  · intro e t ht hleave
    exact Station.tick_send_leave cfg e t (hin t ht).1 hleave

/-- C26 at the sample constants (window 10, dead time 2): the answering
sample station entered `MIRRORLINK_SEND` at clock 100. Over the window made of
the state action at clock 100 and the ticks at clocks 101, 102 and 103 its log
gains at most the one frame of the command word; over the window with the
ticks at clocks 101 and 103 alone it gains nothing. -/
theorem C26_station_answer_timing_witness :
    (∀ t ∈ Station.window sampleConfig (sampleEnvAt 100 0 0)
        [(false, sampleEnvAt 101 0 0, sampleEnvAt 101 0 0),
          (false, sampleEnvAt 102 0 0, sampleEnvAt 102 0 0),
          (false, sampleEnvAt 103 0 0, sampleEnvAt 103 0 0)] Station.sampleAnswering,
      t.log = Station.sampleAnswering.log ∨
      t.log = Station.sampleAnswering.log ++ [Call.startTransmit 16 0 0 131]) ∧
    (∀ t ∈ Station.window sampleConfig (sampleEnvAt 100 0 0)
        [(false, sampleEnvAt 101 0 0, sampleEnvAt 101 0 0),
          (false, sampleEnvAt 103 0 0, sampleEnvAt 103 0 0)] Station.sampleAnswering,
      t.log = Station.sampleAnswering.log) :=
  ⟨(C26_station_answer_timing sampleConfig (sampleEnvAt 100 0 0)
      [(false, sampleEnvAt 101 0 0, sampleEnvAt 101 0 0),
        (false, sampleEnvAt 102 0 0, sampleEnvAt 102 0 0),
        (false, sampleEnvAt 103 0 0, sampleEnvAt 103 0 0)] Station.sampleAnswering 100
      (by decide) (by decide) (by decide) (by decide)).2.1,
    (C26_station_answer_timing sampleConfig (sampleEnvAt 100 0 0)
      [(false, sampleEnvAt 101 0 0, sampleEnvAt 101 0 0),
        (false, sampleEnvAt 103 0 0, sampleEnvAt 103 0 0)] Station.sampleAnswering 100
      (by decide) (by decide) (by decide) (by decide)).2.2.1 (by decide) (by decide)⟩

end MirrorLink
